import Mathlib

/-!
# Smart Parking System: slot allocation and booking lifecycle

A shallow embedding of the building-parking request handlers of
`backend/server.js` (`POST /api/book-parking`, `POST /api/walkin-booking`,
`PUT /api/bookings/:id/complete`), of the fee computation of
`src/components/AdminPanel.js` (`calculateParkingFee`) and of the arrival-time check of
`src/components/BuildingParking.js` (`getTimeValidationMessage`); further of the
availability, rate and street-slot handlers of `backend/server.js` and of the floor-based
routes of `backend/routes/parking.js` (`POST /bookings`, `DELETE /bookings/:id`).

The relational store is a pair of row lists (`parking_slots`, `bookings`) plus the
`AUTO_INCREMENT` counter of `bookings`.  Every handler runs its statements inside one
transaction; served one at a time, a handler is a function from a store to a response and a
store.
Times are milliseconds since the epoch, `NOW()` and `new Date()` are an argument.
Request bodies are well formed (every field present).  In `bookParking`,
`walkinBooking` and `completeBooking` the store executes every statement; the handlers
`bookParkingTx`, `walkinBookingTx` and `completeBookingTx` add the transaction calls and
the `catch` branch (rollback, status 500) for a statement that throws.

Amounts and rates are rational numbers.  The columns `bookings.amount` and
`rates.rate_per_hour` are `DECIMAL(10,2)`: `assignDecimal` is the conversion of a number
written to such a column.  In `completeBooking`, `completeBookingTx` and `Request` the
amount is a value of the column, which is stored as it is; `completeBookingDecimal` and
`BodyRequest` start from the number or `null` of the request body and convert it, and agree
with `completeBooking` on the values of the column
(`completeBookingDecimal_eq_completeBooking`).  `calculateParkingFee` is the fee in exact
arithmetic and `calculateParkingFeeDouble` the fee in the binary64 numbers of JavaScript.
`selectSelectWriteWrite` is one interleaving of two allocation transactions.
-/

namespace SmartParking

/-! ## Data model (`create-databse.js`) -/

/-- Column `parking_slots.status ENUM('available', 'booked', 'occupied')`. -/
inductive SlotStatus where
  | available
  | booked
  | occupied
  deriving DecidableEq, Repr

/-- Column `bookings.booking_type ENUM('regular', 'walkin')`. -/
inductive BookingType where
  | regular
  | walkin
  deriving DecidableEq, Repr

/-- Column `bookings.payment_status ENUM('pending', 'active', 'completed')`. -/
inductive PaymentStatus where
  | pending
  | active
  | completed
  deriving DecidableEq, Repr

/-- A row of table `parking_slots`. -/
structure ParkingSlot where
  id : Nat
  slot_number : String
  floor_number : Int
  status : SlotStatus
  deriving DecidableEq, Repr

/-- A row of table `bookings`. -/
structure Booking where
  id : Nat
  slot_id : Nat
  user_name : String
  vehicle_number : String
  phone_number : String
  booking_type : BookingType
  booking_time : Int
  arrival_time : Int
  departure_time : Option Int
  payment_status : PaymentStatus
  amount : Option ℚ
  deriving DecidableEq

/-- The store: both tables and the next `AUTO_INCREMENT` value of `bookings.id`. -/
structure Db where
  parking_slots : List ParkingSlot
  bookings : List Booking
  nextBookingId : Nat
  deriving DecidableEq

/-- Body of `POST /api/book-parking`. -/
structure BookParkingRequest where
  userName : String
  vehicleNumber : String
  phoneNumber : String
  arrivalTime : Int
  deriving DecidableEq

/-- Body of `POST /api/walkin-booking`. -/
structure WalkinRequest where
  userName : String
  vehicleNumber : String
  phoneNumber : String
  deriving DecidableEq

/-- What a handler sends back: `res.status(code).json(...)`. -/
inductive Response where
  | error (code : Nat) (error : String)
  | created (bookingId : Nat) (slotNumber : String) (floor : Int) (message : String)
  | ok (message : String)
  deriving DecidableEq

/-! ## Slot selection -/

/-- The row order of `ORDER BY floor_number, slot_number`: floor ascending, then the
stored slot-number string ascending.  Strings are compared character by character
(`String.le_iff_toList_le`: this is the order of `String` itself). -/
def slotOrder (a b : ParkingSlot) : Prop :=
  a.floor_number < b.floor_number ∨
    (a.floor_number = b.floor_number ∧ a.slot_number.toList ≤ b.slot_number.toList)

instance slotOrderDecidable : DecidableRel slotOrder := fun a b =>
  inferInstanceAs (Decidable (a.floor_number < b.floor_number ∨
    (a.floor_number = b.floor_number ∧ a.slot_number.toList ≤ b.slot_number.toList)))

/-- The query
`SELECT * FROM parking_slots WHERE status = 'available' ORDER BY floor_number, slot_number LIMIT 1`
of both allocation handlers; `none` is the empty result set. -/
def selectFirstAvailable (slots : List ParkingSlot) : Option ParkingSlot :=
  ((slots.filter (fun p => p.status = SlotStatus.available)).insertionSort slotOrder).head?

/-- The statement `UPDATE parking_slots SET status = ? WHERE id = ?`. -/
def updateSlotStatus (slots : List ParkingSlot) (id : Nat) (status : SlotStatus) :
    List ParkingSlot :=
  slots.map (fun p => if p.id = id then { p with status := status } else p)

/-! ## Handlers -/

/-- Handler of `POST /api/book-parking`. -/
def bookParking (db : Db) (now : Int) (req : BookParkingRequest) : Response × Db :=
  match selectFirstAvailable db.parking_slots with
  | none => (Response.error 400 "No parking slots available", db)
  | some slot =>
    let row : Booking :=
      { id := db.nextBookingId, slot_id := slot.id, user_name := req.userName,
        vehicle_number := req.vehicleNumber, phone_number := req.phoneNumber,
        booking_type := BookingType.regular, booking_time := now,
        arrival_time := req.arrivalTime, departure_time := none,
        payment_status := PaymentStatus.pending, amount := none }
    (Response.created row.id slot.slot_number slot.floor_number
        "Parking slot booked successfully!",
      { parking_slots := updateSlotStatus db.parking_slots slot.id SlotStatus.booked,
        bookings := db.bookings ++ [row],
        nextBookingId := db.nextBookingId + 1 })

/-- Handler of `POST /api/walkin-booking`. -/
def walkinBooking (db : Db) (now : Int) (req : WalkinRequest) : Response × Db :=
  match selectFirstAvailable db.parking_slots with
  | none => (Response.error 400 "No parking slots available", db)
  | some slot =>
    let currentTime := now
    let row : Booking :=
      { id := db.nextBookingId, slot_id := slot.id, user_name := req.userName,
        vehicle_number := req.vehicleNumber, phone_number := req.phoneNumber,
        booking_type := BookingType.walkin, booking_time := currentTime,
        arrival_time := currentTime, departure_time := none,
        payment_status := PaymentStatus.active, amount := none }
    (Response.created row.id slot.slot_number slot.floor_number
        "Walk-in booking successful! Customer is now parked and slot is active.",
      { parking_slots := updateSlotStatus db.parking_slots slot.id SlotStatus.occupied,
        bookings := db.bookings ++ [row],
        nextBookingId := db.nextBookingId + 1 })

/-- Handler of `PUT /api/bookings/:id/complete`, with `amount` the value that its `UPDATE`
leaves in the column `amount`. -/
def completeBooking (db : Db) (now : Int) (id : Nat) (amount : ℚ) : Response × Db :=
  match db.bookings.find? (fun b => b.id = id) with
  | none => (Response.error 404 "Booking not found", db)
  | some booking =>
    (Response.ok "Booking completed successfully",
      { parking_slots := updateSlotStatus db.parking_slots booking.slot_id SlotStatus.available,
        bookings := db.bookings.map (fun b =>
          if b.id = id then
            { b with departure_time := some now, payment_status := PaymentStatus.completed,
                     amount := some amount }
          else b),
        nextBookingId := db.nextBookingId })

/-! ## Fee computation (`AdminPanel.js`) -/

/-- The function `calculateParkingFee` of the admin panel in exact arithmetic: `currentRate`
is the component state it reads, `now` the value of `new Date()`, and the argument a booking
or `null`.  The fee is the rational number rate times billed hours; the rounding of the
JavaScript operations is in `calculateParkingFeeDouble` below. -/
def calculateParkingFee (currentRate : ℚ) (now : Int) (booking : Option Booking) : ℚ :=
  match booking with
  | none => 0
  | some booking =>
    let arrivalTime := booking.arrival_time
    let departureTime := now
    let hoursDiff : Int :=
      max 1 (Int.ceil (((departureTime - arrivalTime : Int) : ℚ) / (1000 * 60 * 60)))
    currentRate * hoursDiff

/-! ## JavaScript numbers (`AdminPanel.js`)

A JavaScript number is an IEEE 754 binary64 value.  An arithmetic operation yields its exact
result rounded to the nearest double, a tie going to the double with the even significand,
and infinity when the rounded result reaches `2 ^ 1024`.  A finite double is given here by
the rational it denotes; the two zeros are not told apart. -/

/-- Rounding to the nearest integer, a half going to the even neighbour. -/
def roundHalfEven (x : ℚ) : Int :=
  let n := Int.floor x
  if x - n < 1 / 2 then n
  else if 1 / 2 < x - n then n + 1
  else if n % 2 = 0 then n
  else n + 1

/-- The binary exponent of the last place of the doubles next to `x`: 52 below the exponent
of `x`, and `-1074` for the subnormal numbers. -/
def ulpExponent (x : ℚ) : Int :=
  max (Int.log 2 |x| - 52) (-1074)

/-- The number `x` rounded to a significand of 53 bits, with no upper bound on the
exponent. -/
def roundDouble (x : ℚ) : ℚ :=
  (roundHalfEven (x / 2 ^ ulpExponent x) : ℚ) * 2 ^ ulpExponent x

/-- A JavaScript number. -/
inductive JsNumber where
  | finite (value : ℚ)
  | infinity (negative : Bool)
  | nan
  deriving DecidableEq

/-- The JavaScript number of an operation whose exact result is `x`. -/
def toJsNumber (x : ℚ) : JsNumber :=
  let r := roundDouble x
  if |r| < 2 ^ (1024 : Nat) then JsNumber.finite r
  else JsNumber.infinity (decide (r < 0))

/-- The largest time value of a `Date`, in milliseconds either side of the epoch; `new Date`
of a time beyond it is an invalid date, whose time value is `NaN`. -/
def maxTimeValue : Int := 8640000000000000

/-- The function `calculateParkingFee` of the admin panel on JavaScript numbers.
`currentRate` is the finite number that the component state holds (or that its decimal text
denotes), `now` the value of `new Date()`, and the argument a booking or `null`.  The
subtraction of the two dates, the division by `1000 * 60 * 60` and the product with the rate
are each rounded; `Math.ceil` and `Math.max` are exact.  With an invalid date every step
yields `NaN`. -/
def calculateParkingFeeDouble (currentRate : ℚ) (now : Int) (booking : Option Booking) :
    JsNumber :=
  match booking with
  | none => JsNumber.finite 0
  | some booking =>
    if |booking.arrival_time| ≤ maxTimeValue ∧ |now| ≤ maxTimeValue then
      let arrivalTime := booking.arrival_time
      let departureTime := now
      let elapsed : ℚ := roundDouble ((departureTime - arrivalTime : Int) : ℚ)
      let hoursDiff : Int := max 1 (Int.ceil (roundDouble (elapsed / (1000 * 60 * 60))))
      toJsNumber (currentRate * hoursDiff)
    else JsNumber.nan

/-! ## Request sequences and the booking invariant -/

/-- One request to the building-parking API, with the clock value it is served at. -/
inductive Request where
  | bookParking (now : Int) (req : BookParkingRequest)
  | walkinBooking (now : Int) (req : WalkinRequest)
  | completeBooking (now : Int) (id : Nat) (amount : ℚ)
  deriving DecidableEq

/-- Serve one request with the handler of its route. -/
def handle (db : Db) : Request → Response × Db
  | Request.bookParking now req => bookParking db now req
  | Request.walkinBooking now req => walkinBooking db now req
  | Request.completeBooking now id amount => completeBooking db now id amount

/-- Serve a sequence of requests one after another; the store after the last one. -/
def runRequests (db : Db) (requests : List Request) : Db :=
  requests.foldl (fun d r => (handle d r).2) db

/-- A facility as `updatewalkin.js` leaves it: every slot available, no booking. -/
def isInitial (db : Db) : Prop :=
  (∀ p ∈ db.parking_slots, p.status = SlotStatus.available) ∧ db.bookings = []

instance isInitialDecidable (db : Db) : Decidable (isInitial db) :=
  inferInstanceAs (Decidable
    ((∀ p ∈ db.parking_slots, p.status = SlotStatus.available) ∧ db.bookings = []))

/-- The bookings with payment state pending or active that reference the slot. -/
def nonTerminalBookings (db : Db) (slotId : Nat) : List Booking :=
  db.bookings.filter (fun b => b.slot_id = slotId ∧
    (b.payment_status = PaymentStatus.pending ∨ b.payment_status = PaymentStatus.active))

/-- No slot is referenced by more than one pending or active booking. -/
def NoDoubleBooking (db : Db) : Prop :=
  ∀ p ∈ db.parking_slots, (nonTerminalBookings db p.id).length ≤ 1

instance noDoubleBookingDecidable (db : Db) : Decidable (NoDoubleBooking db) :=
  inferInstanceAs (Decidable (∀ p ∈ db.parking_slots, (nonTerminalBookings db p.id).length ≤ 1))

/-- Column `bookings.id` is the primary key: no two rows share an id. -/
def BookingIdsUnique (db : Db) : Prop :=
  (db.bookings.map (fun b => b.id)).Nodup

instance bookingIdsUniqueDecidable (db : Db) : Decidable (BookingIdsUnique db) :=
  inferInstanceAs (Decidable ((db.bookings.map (fun b : Booking => b.id)).Nodup))

/-! ## Sample data -/

/-- A pending scheduled booking of slot 1 with arrival time 1000 ms. -/
def sampleBooking : Booking :=
  { id := 1, slot_id := 1, user_name := "Asha", vehicle_number := "MH01AB1234",
    phone_number := "9876543210", booking_type := BookingType.regular, booking_time := 0,
    arrival_time := 1000, departure_time := none, payment_status := PaymentStatus.pending,
    amount := none }

/-- A facility with the single slot 101 on floor 1, available, and no booking. -/
def oneSlotFacility : Db :=
  { parking_slots := [{ id := 1, slot_number := "101", floor_number := 1,
                        status := SlotStatus.available }],
    bookings := [], nextBookingId := 1 }

/-- A scheduled-booking request body. -/
def sampleBookRequest : BookParkingRequest :=
  { userName := "Asha", vehicleNumber := "MH01AB1234", phoneNumber := "9876543210",
    arrivalTime := 1000 }

/-- A walk-in request body. -/
def sampleWalkinRequest : WalkinRequest :=
  { userName := "Ravi", vehicleNumber := "MH02CD5678", phoneNumber := "9876543211" }

/-- Book, check out booking 1, book again, check out booking 1 a second time, book again. -/
def recompleteTrace : List Request :=
  [Request.bookParking 0 sampleBookRequest,
   Request.completeBooking 10 1 50,
   Request.bookParking 20 sampleBookRequest,
   Request.completeBooking 30 1 50,
   Request.bookParking 40 sampleBookRequest]

/-- A facility with no available slot: slot 101 booked by the pending booking 1. -/
def fullFacility : Db :=
  { parking_slots := [{ id := 1, slot_number := "101", floor_number := 1,
                        status := SlotStatus.booked }],
    bookings := [sampleBooking], nextBookingId := 2 }

/-- Two floors: slot 201 is listed first, slot 102 is occupied, slots 110 and 103 are free. -/
def twoFloorSlots : List ParkingSlot :=
  [{ id := 4, slot_number := "201", floor_number := 2, status := SlotStatus.available },
   { id := 2, slot_number := "102", floor_number := 1, status := SlotStatus.occupied },
   { id := 3, slot_number := "110", floor_number := 1, status := SlotStatus.available },
   { id := 5, slot_number := "103", floor_number := 1, status := SlotStatus.available }]

/-- The store of `twoFloorSlots` with no booking yet. -/
def twoFloorFacility : Db :=
  { parking_slots := twoFloorSlots, bookings := [], nextBookingId := 1 }

/-- The one-slot facility after booking 1 was checked out (amount 50, at time 10) and the
slot was booked again by the pending booking 2. -/
def rebookedFacility : Db :=
  { parking_slots := [{ id := 1, slot_number := "101", floor_number := 1,
                        status := SlotStatus.booked }],
    bookings :=
      [{ id := 1, slot_id := 1, user_name := "Asha", vehicle_number := "MH01AB1234",
         phone_number := "9876543210", booking_type := BookingType.regular, booking_time := 0,
         arrival_time := 1000, departure_time := some 10,
         payment_status := PaymentStatus.completed, amount := some 50 },
       { id := 2, slot_id := 1, user_name := "Asha", vehicle_number := "MH01AB1234",
         phone_number := "9876543210", booking_type := BookingType.regular, booking_time := 20,
         arrival_time := 1000, departure_time := none,
         payment_status := PaymentStatus.pending, amount := none }],
    nextBookingId := 3 }

/-- Each slot's status follows the pending and active bookings that reference it: available
with none, booked with a pending one, occupied with an active one. -/
def StatusTracksBookings (db : Db) : Prop :=
  ∀ p ∈ db.parking_slots,
    (p.status = SlotStatus.available ↔ nonTerminalBookings db p.id = []) ∧
    (p.status = SlotStatus.booked ↔
      ∃ b ∈ db.bookings, b.slot_id = p.id ∧ b.payment_status = PaymentStatus.pending) ∧
    (p.status = SlotStatus.occupied ↔
      ∃ b ∈ db.bookings, b.slot_id = p.id ∧ b.payment_status = PaymentStatus.active)

instance statusTracksBookingsDecidable (db : Db) : Decidable (StatusTracksBookings db) :=
  inferInstanceAs (Decidable (∀ p ∈ db.parking_slots,
    (p.status = SlotStatus.available ↔ nonTerminalBookings db p.id = []) ∧
    (p.status = SlotStatus.booked ↔
      ∃ b ∈ db.bookings, b.slot_id = p.id ∧ b.payment_status = PaymentStatus.pending) ∧
    (p.status = SlotStatus.occupied ↔
      ∃ b ∈ db.bookings, b.slot_id = p.id ∧ b.payment_status = PaymentStatus.active)))

/-- Book, check out booking 1 with amount 50 at time 10, check it out again with amount 70
at time 30. -/
def overwriteTrace : List Request :=
  [Request.bookParking 0 sampleBookRequest,
   Request.completeBooking 10 1 50,
   Request.completeBooking 30 1 70]

/-- Book, check out booking 1, book again, check out booking 1 a second time. -/
def releaseTrace : List Request :=
  [Request.bookParking 0 sampleBookRequest,
   Request.completeBooking 10 1 50,
   Request.bookParking 20 sampleBookRequest,
   Request.completeBooking 30 1 50]

/-! ## Arrival-time check of the booking form (`BuildingParking.js`) -/

/-- The `arrivalTime` field of the booking form as the checks see it: the empty string, a
string `new Date` cannot parse, or a string that parses to a time in milliseconds. -/
inductive ArrivalTimeInput where
  | empty
  | invalid
  | time (ms : Int)
  deriving DecidableEq

/-- The function `validateArrivalTime` of the booking form, `now` the value of `new Date()`. -/
def validateArrivalTime (now : Int) : ArrivalTimeInput → Bool
  | ArrivalTimeInput.empty => false
  | ArrivalTimeInput.invalid => false
  | ArrivalTimeInput.time arrival =>
    let diffInMs : Int := arrival - now
    let diffInMinutes : Int := Int.floor ((diffInMs : ℚ) / (1000 * 60))
    decide (diffInMinutes ≥ -1 ∧ diffInMinutes ≤ 30)

/-- The function `getTimeValidationMessage` of the booking form, `now` the value of
`new Date()`; the empty message lets `handleBookingSubmit` post the request. -/
def getTimeValidationMessage (now : Int) : ArrivalTimeInput → String
  | ArrivalTimeInput.empty => ""
  | ArrivalTimeInput.invalid => "Please enter a valid date and time"
  | ArrivalTimeInput.time arrival =>
    let diffInMs : Int := arrival - now
    let diffInMinutes : Int := Int.floor ((diffInMs : ℚ) / (1000 * 60))
    if diffInMinutes < -2 then "Arrival time cannot be in the past"
    else if diffInMinutes > 30 then "Arrival time cannot be more than 30 minutes from now"
    else ""

/-! ## Sequences of allocations -/

/-- Serve a sequence of requests one after another: the responses in order, and the store
after the last request. -/
def serveAll (db : Db) : List Request → List Response × Db
  | [] => ([], db)
  | r :: rs =>
    ((handle db r).1 :: (serveAll (handle db r).2 rs).1, (serveAll (handle db r).2 rs).2)

/-- Scheduled and walk-in allocations, as opposed to completions. -/
def isAllocation : Request → Bool
  | Request.bookParking _ _ => true
  | Request.walkinBooking _ _ => true
  | Request.completeBooking _ _ _ => false

/-- The 201 answers of the allocation handlers. -/
def isCreated : Response → Bool
  | Response.created _ _ _ _ => true
  | _ => false

/-- The no-availability answer of the allocation handlers. -/
def isNoAvailability (r : Response) : Bool :=
  decide (r = Response.error 400 "No parking slots available")

/-- Column `parking_slots.id` is the primary key: no two rows share an id. -/
def SlotIdsUnique (db : Db) : Prop :=
  (db.parking_slots.map (fun p => p.id)).Nodup

instance slotIdsUniqueDecidable (db : Db) : Decidable (SlotIdsUnique db) :=
  inferInstanceAs (Decidable ((db.parking_slots.map (fun p : ParkingSlot => p.id)).Nodup))

/-- The number of rows of `parking_slots` with status available. -/
def availableCount (db : Db) : Nat :=
  (db.parking_slots.filter (fun p => p.status = SlotStatus.available)).length

/-- Four allocations in a row: scheduled, walk-in, scheduled, walk-in. -/
def fourAllocations : List Request :=
  [Request.bookParking 0 sampleBookRequest,
   Request.walkinBooking 5 sampleWalkinRequest,
   Request.bookParking 10 sampleBookRequest,
   Request.walkinBooking 15 sampleWalkinRequest]

/-! ## Completed amounts -/

/-- Every completed booking carries an amount of at least `rate`. -/
def CompletedAmountsCover (rate : ℚ) (db : Db) : Prop :=
  ∀ b ∈ db.bookings, b.payment_status = PaymentStatus.completed →
    ∃ a : ℚ, b.amount = some a ∧ rate ≤ a

/-! ## Handlers with failing statements

The handlers above assume that the store executes every statement.  Here a statement may
throw: `failAt = some k` makes the statement number `k` of the `try` block throw (0 is the
`SELECT`, 1 and 2 are the two writes, 3 is `connection.commit()`), `none` lets them all
run.  The statements of a handler act on the state of its open transaction; `commit` stores
that state and `rollback` drops it. -/

/-- A connection between `beginTransaction` and `commit` or `rollback`: the stored state and
the state the statements of the transaction have produced. -/
structure Transaction where
  committed : Db
  working : Db
  deriving DecidableEq

/-- The call `connection.beginTransaction()`. -/
def beginTransaction (db : Db) : Transaction :=
  { committed := db, working := db }

/-- The call `connection.commit()` when it succeeds: the work of the transaction is stored. -/
def commit (t : Transaction) : Db :=
  t.working

/-- The call `connection.rollback()`: both tables are as before the transaction.  Ids that an
`INSERT` of the transaction drew from the `AUTO_INCREMENT` counter are not handed back. -/
def rollback (t : Transaction) : Db :=
  { t.committed with nextBookingId := t.working.nextBookingId }

/-- One write of a transaction, `connection.query` with an `UPDATE` or `INSERT`: it throws
and changes nothing when it is the failing statement, else its effect is applied to the
state of the transaction. -/
def runStatement (failAt : Option Nat) (index : Nat) (effect : Db → Db) (t : Transaction) :
    Except Transaction Transaction :=
  if failAt = some index then Except.error t
  else Except.ok { t with working := effect t.working }

/-- Both `catch` blocks of a handler: roll back, rethrow, answer 500. -/
def databaseError (t : Transaction) : Response × Db :=
  (Response.error 500 "Database error", rollback t)

/-- Handler of `POST /api/book-parking` with its `try`, `catch` and transaction calls. -/
def bookParkingTx (failAt : Option Nat) (db : Db) (now : Int) (req : BookParkingRequest) :
    Response × Db :=
  let t0 := beginTransaction db
  if failAt = some 0 then databaseError t0
  else
    match selectFirstAvailable t0.working.parking_slots with
    | none => (Response.error 400 "No parking slots available", rollback t0)
    | some slot =>
      match runStatement failAt 1 (fun d =>
          { d with parking_slots :=
                     updateSlotStatus d.parking_slots slot.id SlotStatus.booked }) t0 with
      | Except.error t => databaseError t
      | Except.ok t1 =>
        let insertId := t1.working.nextBookingId
        match runStatement failAt 2 (fun d =>
            { d with
              bookings := d.bookings ++
                [{ id := insertId, slot_id := slot.id, user_name := req.userName,
                   vehicle_number := req.vehicleNumber, phone_number := req.phoneNumber,
                   booking_type := BookingType.regular, booking_time := now,
                   arrival_time := req.arrivalTime, departure_time := none,
                   payment_status := PaymentStatus.pending, amount := none }],
              nextBookingId := insertId + 1 }) t1 with
        | Except.error t => databaseError t
        | Except.ok t2 =>
          if failAt = some 3 then databaseError t2
          else
            (Response.created insertId slot.slot_number slot.floor_number
                "Parking slot booked successfully!", commit t2)

/-- Handler of `POST /api/walkin-booking` with its `try`, `catch` and transaction calls. -/
def walkinBookingTx (failAt : Option Nat) (db : Db) (now : Int) (req : WalkinRequest) :
    Response × Db :=
  let t0 := beginTransaction db
  if failAt = some 0 then databaseError t0
  else
    match selectFirstAvailable t0.working.parking_slots with
    | none => (Response.error 400 "No parking slots available", rollback t0)
    | some slot =>
      match runStatement failAt 1 (fun d =>
          { d with parking_slots :=
                     updateSlotStatus d.parking_slots slot.id SlotStatus.occupied }) t0 with
      | Except.error t => databaseError t
      | Except.ok t1 =>
        let currentTime := now
        let insertId := t1.working.nextBookingId
        match runStatement failAt 2 (fun d =>
            { d with
              bookings := d.bookings ++
                [{ id := insertId, slot_id := slot.id, user_name := req.userName,
                   vehicle_number := req.vehicleNumber, phone_number := req.phoneNumber,
                   booking_type := BookingType.walkin, booking_time := currentTime,
                   arrival_time := currentTime, departure_time := none,
                   payment_status := PaymentStatus.active, amount := none }],
              nextBookingId := insertId + 1 }) t1 with
        | Except.error t => databaseError t
        | Except.ok t2 =>
          if failAt = some 3 then databaseError t2
          else
            (Response.created insertId slot.slot_number slot.floor_number
                "Walk-in booking successful! Customer is now parked and slot is active.",
              commit t2)

/-- Handler of `PUT /api/bookings/:id/complete` with its `try`, `catch` and transaction
calls. -/
def completeBookingTx (failAt : Option Nat) (db : Db) (now : Int) (id : Nat) (amount : ℚ) :
    Response × Db :=
  let t0 := beginTransaction db
  if failAt = some 0 then databaseError t0
  else
    match t0.working.bookings.find? (fun b => b.id = id) with
    | none => (Response.error 404 "Booking not found", rollback t0)
    | some booking =>
      match runStatement failAt 1 (fun d =>
          { d with
            bookings := d.bookings.map (fun b =>
              if b.id = id then
                { b with departure_time := some now,
                         payment_status := PaymentStatus.completed,
                         amount := some amount }
              else b) }) t0 with
      | Except.error t => databaseError t
      | Except.ok t1 =>
        match runStatement failAt 2 (fun d =>
            { d with parking_slots :=
                       updateSlotStatus d.parking_slots booking.slot_id
                         SlotStatus.available }) t1 with
        | Except.error t => databaseError t
        | Except.ok t2 =>
          if failAt = some 3 then databaseError t2
          else (Response.ok "Booking completed successfully", commit t2)

/-! ## Aggregate availability (`server.js`) -/

/-- The object `{ total, available, booked, occupied }` of the availability answers. -/
structure Availability where
  total : Nat
  available : Nat
  booked : Nat
  occupied : Nat
  deriving DecidableEq

/-- The query `SELECT COUNT(*) FROM parking_slots WHERE status = ?`. -/
def countStatus (slots : List ParkingSlot) (status : SlotStatus) : Nat :=
  (slots.filter (fun p => p.status = status)).length

/-- Handler of `GET /api/availability`: four counting queries. -/
def getAvailability (db : Db) : Availability :=
  let totalSlots := db.parking_slots.length
  let availableSlots := countStatus db.parking_slots SlotStatus.available
  let bookedSlots := countStatus db.parking_slots SlotStatus.booked
  let occupiedSlots := countStatus db.parking_slots SlotStatus.occupied
  { total := totalSlots, available := availableSlots, booked := bookedSlots,
    occupied := occupiedSlots }

/-- The payload of the event `availabilityUpdated` that `emitBuildingUpdates` sends to every
client; the listing it sends as `bookingsUpdated` is not part of this function. -/
def emitBuildingUpdates (db : Db) : Availability :=
  let totalSlots := db.parking_slots.length
  let availableSlots := countStatus db.parking_slots SlotStatus.available
  let bookedSlots := countStatus db.parking_slots SlotStatus.booked
  let occupiedSlots := countStatus db.parking_slots SlotStatus.occupied
  let availability : Availability :=
    { total := totalSlots, available := availableSlots, booked := bookedSlots,
      occupied := occupiedSlots }
  availability

/-! ## Columns of type `DECIMAL(10,2)` (`create-databse.js`, `setup-database.js`)

`bookings.amount` is declared `DECIMAL(10,2) NULL` and `rates.rate_per_hour` is declared
`DECIMAL(10,2) NOT NULL`.  A number assigned to such a column is rounded to two decimals,
half away from zero, and the column holds at most eight digits before the point.  What
the store does with a number beyond that range, or with `NULL` for a `NOT NULL` column,
depends on its SQL mode, which no file of the repository sets: in strict mode, the default,
the statement fails; otherwise the nearest end of the range, or 0 for `NULL`, is stored. -/

/-- Rounding to the nearest integer, a half going away from zero. -/
def roundHalfAwayFromZero (x : ℚ) : Int :=
  if 0 ≤ x then Int.floor (x + 1 / 2) else -Int.floor (-x + 1 / 2)

/-- Assignment of the number `value` to a column `DECIMAL(10,2)`: the value the column then
holds, or `none` when the statement fails.  `value` is the number whose decimal digits the
driver writes into the statement text. -/
def assignDecimal (strictMode : Bool) (value : ℚ) : Option ℚ :=
  let hundredths := roundHalfAwayFromZero (value * 100)
  if |hundredths| ≤ 9999999999 then some ((hundredths : ℚ) / 100)
  else if strictMode = true then none
  else if 0 ≤ value then some (9999999999 / 100)
  else some (-9999999999 / 100)

/-- Assignment `amount = ?` to the nullable column `bookings.amount`: `none` of the argument
is the `null` (or missing field) of the request body, stored as `NULL`. -/
def assignAmount (strictMode : Bool) : Option ℚ → Option (Option ℚ)
  | none => some none
  | some value => (assignDecimal strictMode value).map some

/-- Assignment `rate_per_hour = ?` to the column `rates.rate_per_hour`, which is
`NOT NULL`. -/
def assignRate (strictMode : Bool) : Option ℚ → Option ℚ
  | none => if strictMode = true then none else some 0
  | some value => assignDecimal strictMode value

/-! ## Rates (`server.js`) -/

/-- A row of table `rates`: the columns the rate handlers read and write. -/
structure Rate where
  id : Nat
  rate_per_hour : ℚ
  deriving DecidableEq

/-- The value of `ratePerHour` in the answer of `GET /api/rate`: the text of a `DECIMAL`
column, such as `"12.35"`, given here by the number it denotes, or a number. -/
inductive RatePerHour where
  | decimalText (value : ℚ)
  | number (value : ℚ)
  deriving DecidableEq

/-- Handler of `GET /api/rate`, the value of `ratePerHour` in its answer:
`rows[0]?.rate_per_hour || 50` over `SELECT rate_per_hour FROM rates LIMIT 1`.
`decimalNumbers` is the option of the driver that turns `DECIMAL` columns into JavaScript
numbers; `createPool` in `server.js` does not set it, so the column arrives as its decimal
text, a non-empty string, which `||` keeps whatever the number is.  With the option set, the
number 0 is falsy and `||` yields 50. -/
def getRate (decimalNumbers : Bool) (rates : List Rate) : RatePerHour :=
  match rates.head? with
  | none => RatePerHour.number 50
  | some row =>
    if decimalNumbers = true then
      if row.rate_per_hour = 0 then RatePerHour.number 50
      else RatePerHour.number row.rate_per_hour
    else RatePerHour.decimalText row.rate_per_hour

/-- Handler of `PUT /api/rate`: `UPDATE rates SET rate_per_hour = ? WHERE id = 1` with
`req.body.ratePerHour`, a number or `null` (`none`).  The value is converted when a row is
written: with no row of id 1 the statement changes nothing and succeeds.  When the statement
fails the `catch` branch answers 500. -/
def putRate (strictMode : Bool) (rates : List Rate) (ratePerHour : Option ℚ) :
    Response × List Rate :=
  if rates.any (fun r => r.id = 1) = true then
    match assignRate strictMode ratePerHour with
    | none => (Response.error 500 "Database error", rates)
    | some stored =>
      (Response.ok "Rate updated successfully",
        rates.map (fun r => if r.id = 1 then { r with rate_per_hour := stored } else r))
  else (Response.ok "Rate updated successfully", rates)

/-! ## Street parking (`server.js`) -/

/-- A street slot: an element of `global.inMemorySlots` or a row of `street_parking_slots`. -/
structure StreetSlot where
  id : Nat
  slot_number : String
  status : String
  occupied : Bool
  last_updated : Int
  deriving DecidableEq

/-- Where the street slots live: in `global.inMemorySlots` when the database could not be
reached at start-up, else in table `street_parking_slots`. -/
inductive StreetStore where
  | inMemory (slots : List StreetSlot)
  | database (rows : List StreetSlot)
  deriving DecidableEq

/-- The street slots of a store. -/
def StreetStore.slots : StreetStore → List StreetSlot
  | StreetStore.inMemory slots => slots
  | StreetStore.database rows => rows

/-- The answers of `PUT /slots/:slotNumber`: an error with its status code, message and the
value it echoes, or the success object (without its count of connected clients). -/
inductive StreetResponse where
  | error (code : Nat) (error : String) (echo : String)
  | updated (message : String) (slotNumber : String) (status : String) (occupied : Bool)
      (timestamp : Int)
  deriving DecidableEq

/-- Handler of `PUT /slots/:slotNumber`. -/
def putSlot (store : StreetStore) (now : Int) (slotNumber : String) (status : String) :
    StreetResponse × StreetStore :=
  if ¬ (status = "available" ∨ status = "occupied") then
    (StreetResponse.error 400 "Status must be 'available' or 'occupied'" status, store)
  else
    match store with
    | StreetStore.inMemory slots =>
      match slots.findIdx? (fun slot => slot.slot_number = slotNumber) with
      | none => (StreetResponse.error 404 "Street parking slot not found" slotNumber, store)
      | some slotIndex =>
        let occupied : Bool := status = "occupied"
        (StreetResponse.updated ("Slot " ++ slotNumber ++ " status updated to " ++ status)
            slotNumber status occupied now,
          StreetStore.inMemory (slots.modify (fun old =>
            { old with status := status, occupied := occupied, last_updated := now })
            slotIndex))
    | StreetStore.database rows =>
      match rows.find? (fun row => row.slot_number = slotNumber) with
      | none => (StreetResponse.error 404 "Street parking slot not found" slotNumber, store)
      | some _ =>
        let occupied : Bool := status = "occupied"
        (StreetResponse.updated ("Slot " ++ slotNumber ++ " status updated to " ++ status)
            slotNumber status occupied now,
          StreetStore.database (rows.map (fun row =>
            if row.slot_number = slotNumber then
              if row.status = status ∧ row.occupied = occupied then row
              else { row with status := status, occupied := occupied, last_updated := now }
            else row)))

/-- Whether an answer of `PUT /slots/:slotNumber` is an error answer. -/
def StreetResponse.isError : StreetResponse → Bool
  | StreetResponse.error _ _ _ => true
  | StreetResponse.updated _ _ _ _ _ => false

/-- The in-memory slots A1, A2, A3 as the fallback of `testDatabaseConnection` creates them. -/
def sampleStreetSlots : List StreetSlot :=
  [{ id := 1, slot_number := "A1", status := "available", occupied := false,
     last_updated := 0 },
   { id := 2, slot_number := "A2", status := "available", occupied := false,
     last_updated := 0 },
   { id := 3, slot_number := "A3", status := "available", occupied := false,
     last_updated := 0 }]

/-! ## Floor-based booking surface (`routes/parking.js`)

The tables of this surface are declared nowhere in the repository; the rows below carry the
columns that the queries of `routes/parking.js` read and write.  The counter
`available_slots` is taken as a signed integer. -/

/-- A row of table `parking_floors`. -/
structure ParkingFloor where
  id : Nat
  name : String
  total_slots : Int
  available_slots : Int
  deriving DecidableEq

/-- A row of table `parking_slots` as this surface uses it. -/
structure FloorSlot where
  id : Nat
  floor_id : Nat
  slot_number : String
  is_available : Bool
  deriving DecidableEq

/-- A row of table `bookings` as this surface uses it. -/
structure FloorBooking where
  booking_id : String
  floor_id : Nat
  slot_id : Option Nat
  start_time : Int
  end_time : Int
  duration_hours : ℚ
  total_fee : ℚ
  user_phone : String
  user_name : String
  status : String
  deriving DecidableEq

/-- The three tables of the floor-based surface. -/
structure FloorDb where
  parking_floors : List ParkingFloor
  parking_slots : List FloorSlot
  bookings : List FloorBooking
  deriving DecidableEq

/-- Body of `POST /bookings`. -/
structure CreateBookingRequest where
  floorId : Nat
  startTime : Int
  endTime : Int
  durationHours : ℚ
  totalFee : ℚ
  userPhone : String
  userName : String
  deriving DecidableEq

/-- The answers of the floor-based routes. -/
inductive FloorResponse where
  | error (code : Nat) (error : String)
  | confirmed (bookingId : String) (message : String)
  | ok (message : String)
  deriving DecidableEq

/-- The subquery of `POST /bookings`: the slot ids (0 for a missing one) of the pending or
confirmed bookings of the floor whose interval the query counts as clashing with the
requested one. -/
def blockedSlotIds (db : FloorDb) (floorId : Nat) (startTime endTime : Int) : List Nat :=
  (db.bookings.filter (fun b =>
    b.floor_id = floorId ∧ (b.status = "pending" ∨ b.status = "confirmed") ∧
    ((b.start_time ≤ startTime ∧ b.end_time > startTime) ∨
      (b.start_time < endTime ∧ b.end_time ≥ endTime)))).map (fun b => b.slot_id.getD 0)

/-- The slot query of `POST /bookings`: the first slot of the floor that is flagged
available and is not among the blocked ids. -/
def selectFloorSlot (db : FloorDb) (floorId : Nat) (startTime endTime : Int) :
    Option FloorSlot :=
  db.parking_slots.find? (fun ps =>
    ps.floor_id = floorId ∧ ps.is_available = true ∧
    ps.id ∉ blockedSlotIds db floorId startTime endTime)

/-- The statement `UPDATE parking_floors SET available_slots = available_slots + ? WHERE id = ?`
with the step `+1` or `-1` of the two routes. -/
def addAvailableSlots (floors : List ParkingFloor) (floorId : Nat) (step : Int) :
    List ParkingFloor :=
  floors.map (fun f =>
    if f.id = floorId then { f with available_slots := f.available_slots + step } else f)

/-- Handler of `POST /bookings`.  `bookingId` is the string the handler builds first, `PK`
followed by the last eight digits of `Date.now()`. -/
def createBooking (db : FloorDb) (now : Int) (bookingId : String)
    (req : CreateBookingRequest) : FloorResponse × FloorDb :=
  let timeDiff : ℚ := ((req.startTime - now : Int) : ℚ) / (1000 * 60)
  if timeDiff < 30 then
    (FloorResponse.error 400 "Booking must be at least 30 minutes in advance", db)
  else
    match selectFloorSlot db req.floorId req.startTime req.endTime with
    | none => (FloorResponse.error 400 "No available slots for the selected time", db)
    | some slot =>
      (FloorResponse.confirmed bookingId "Booking confirmed successfully",
        { db with
          bookings := db.bookings ++
            [{ booking_id := bookingId, floor_id := req.floorId, slot_id := some slot.id,
               start_time := req.startTime, end_time := req.endTime,
               duration_hours := req.durationHours, total_fee := req.totalFee,
               user_phone := req.userPhone, user_name := req.userName,
               status := "confirmed" }],
          parking_floors := addAvailableSlots db.parking_floors req.floorId (-1) })

/-- The statement `UPDATE bookings SET status = "cancelled" WHERE booking_id = ?`. -/
def markCancelled (bookings : List FloorBooking) (bookingId : String) : List FloorBooking :=
  bookings.map (fun b => if b.booking_id = bookingId then { b with status := "cancelled" } else b)

/-- Handler of `DELETE /bookings/:id` when every statement is executed. -/
def cancelBooking (db : FloorDb) (bookingId : String) : FloorResponse × FloorDb :=
  match db.bookings.find? (fun b => b.booking_id = bookingId) with
  | none => (FloorResponse.error 404 "Booking not found", db)
  | some bookingData =>
    (FloorResponse.ok "Booking cancelled successfully",
      { db with
        bookings := markCancelled db.bookings bookingId,
        parking_floors := addAvailableSlots db.parking_floors bookingData.floor_id 1 })

/-- Handler of `DELETE /bookings/:id` with a statement that may fail: `failAt = some k` makes
statement `k` call back with an error (0 the `SELECT`, 1 the `UPDATE` of the booking, 2 the
`UPDATE` of the floor counter).  The handler opens no transaction: each statement that is
executed is stored at once. -/
def cancelBookingFailing (failAt : Option Nat) (db : FloorDb) (bookingId : String) :
    FloorResponse × FloorDb :=
  if failAt = some 0 then (FloorResponse.error 404 "Booking not found", db)
  else
    match db.bookings.find? (fun b => b.booking_id = bookingId) with
    | none => (FloorResponse.error 404 "Booking not found", db)
    | some bookingData =>
      if failAt = some 1 then (FloorResponse.error 500 "Failed to cancel booking", db)
      else
        let db1 : FloorDb := { db with bookings := markCancelled db.bookings bookingId }
        let db2 : FloorDb :=
          if failAt = some 2 then db1
          else { db1 with
                 parking_floors := addAvailableSlots db1.parking_floors bookingData.floor_id 1 }
        (FloorResponse.ok "Booking cancelled successfully", db2)

/-- One request to the floor-based surface. -/
inductive FloorRequest where
  | create (now : Int) (bookingId : String) (req : CreateBookingRequest)
  | cancel (bookingId : String)
  deriving DecidableEq

/-- Serve one request of the floor-based surface. -/
def handleFloor (db : FloorDb) : FloorRequest → FloorResponse × FloorDb
  | FloorRequest.create now bookingId req => createBooking db now bookingId req
  | FloorRequest.cancel bookingId => cancelBooking db bookingId

/-- Serve a sequence of requests of the floor-based surface; the store after the last. -/
def runFloorRequests (db : FloorDb) (requests : List FloorRequest) : FloorDb :=
  requests.foldl (fun d r => (handleFloor d r).2) db

/-- Every floor counter lies between 0 and the floor's total. -/
def CounterInBounds (db : FloorDb) : Prop :=
  ∀ f ∈ db.parking_floors, 0 ≤ f.available_slots ∧ f.available_slots ≤ f.total_slots

instance counterInBoundsDecidable (db : FloorDb) : Decidable (CounterInBounds db) :=
  inferInstanceAs (Decidable
    (∀ f ∈ db.parking_floors, 0 ≤ f.available_slots ∧ f.available_slots ≤ f.total_slots))

/-- Whether two half-open intervals share a point. -/
def intervalsOverlap (s₁ e₁ s₂ e₂ : Int) : Prop :=
  s₁ < e₂ ∧ s₂ < e₁

instance intervalsOverlapDecidable (s₁ e₁ s₂ e₂ : Int) :
    Decidable (intervalsOverlap s₁ e₁ s₂ e₂) :=
  inferInstanceAs (Decidable (s₁ < e₂ ∧ s₂ < e₁))

/-- Floor 1 with two slots; slot 1 holds the confirmed booking `PK00000001` from 10:00 to
11:00 (times in milliseconds), so one of the two slots counts as available. -/
def sampleFloorDb : FloorDb :=
  { parking_floors := [{ id := 1, name := "Floor 1", total_slots := 2, available_slots := 1 }],
    parking_slots :=
      [{ id := 1, floor_id := 1, slot_number := "F1-01", is_available := true },
       { id := 2, floor_id := 1, slot_number := "F1-02", is_available := true }],
    bookings :=
      [{ booking_id := "PK00000001", floor_id := 1, slot_id := some 1,
         start_time := 36000000, end_time := 39600000, duration_hours := 1,
         total_fee := 50, user_phone := "9876543210", user_name := "Asha",
         status := "confirmed" }] }

/-- A request for floor 1 from 09:00 to 12:00. -/
def sampleCreateRequest : CreateBookingRequest :=
  { floorId := 1, startTime := 32400000, endTime := 43200000, durationHours := 3,
    totalFee := 150, userPhone := "9876543211", userName := "Ravi" }

/-- Floor 1 with its single slot, which holds the confirmed booking `PK00000001` from 10:00
to 11:00. -/
def singleSlotFloorDb : FloorDb :=
  { parking_floors := [{ id := 1, name := "Floor 1", total_slots := 1, available_slots := 0 }],
    parking_slots :=
      [{ id := 1, floor_id := 1, slot_number := "F1-01", is_available := true }],
    bookings :=
      [{ booking_id := "PK00000001", floor_id := 1, slot_id := some 1,
         start_time := 36000000, end_time := 39600000, duration_hours := 1,
         total_fee := 50, user_phone := "9876543210", user_name := "Asha",
         status := "confirmed" }] }

/-- A slot is available exactly when no pending or active booking references it. -/
def AvailableIffFree (db : Db) : Prop :=
  ∀ p ∈ db.parking_slots,
    (p.status = SlotStatus.available ↔ nonTerminalBookings db p.id = [])

instance availableIffFreeDecidable (db : Db) : Decidable (AvailableIffFree db) :=
  inferInstanceAs (Decidable (∀ p ∈ db.parking_slots,
    (p.status = SlotStatus.available ↔ nonTerminalBookings db p.id = [])))

/-! ## Two allocation transactions on separate connections

An allocation handler holds a connection of the pool from `beginTransaction` to `commit`,
so two requests are served by two transactions whose statements the store may interleave.
The `SELECT` of both handlers is a plain read (it has no `FOR UPDATE`): under read-committed
isolation it returns the rows as last committed and takes no lock.  The `UPDATE` locks the
row it writes until its transaction ends; it names the row by id alone. -/

/-- An allocation request with the clock value it is served at. -/
inductive AllocationRequest where
  | bookParking (now : Int) (req : BookParkingRequest)
  | walkinBooking (now : Int) (req : WalkinRequest)
  deriving DecidableEq

/-- The statements of `POST /api/book-parking` that follow its `SELECT`: `availableSlots` is
the result of the `SELECT`, `db` the store on which the `UPDATE`, the `INSERT` and the
`commit` run. -/
def bookParkingAfterSelect (availableSlots : Option ParkingSlot) (db : Db) (now : Int)
    (req : BookParkingRequest) : Response × Db :=
  match availableSlots with
  | none => (Response.error 400 "No parking slots available", db)
  | some slot =>
    let row : Booking :=
      { id := db.nextBookingId, slot_id := slot.id, user_name := req.userName,
        vehicle_number := req.vehicleNumber, phone_number := req.phoneNumber,
        booking_type := BookingType.regular, booking_time := now,
        arrival_time := req.arrivalTime, departure_time := none,
        payment_status := PaymentStatus.pending, amount := none }
    (Response.created row.id slot.slot_number slot.floor_number
        "Parking slot booked successfully!",
      { parking_slots := updateSlotStatus db.parking_slots slot.id SlotStatus.booked,
        bookings := db.bookings ++ [row],
        nextBookingId := db.nextBookingId + 1 })

/-- The statements of `POST /api/walkin-booking` that follow its `SELECT`. -/
def walkinBookingAfterSelect (availableSlots : Option ParkingSlot) (db : Db) (now : Int)
    (req : WalkinRequest) : Response × Db :=
  match availableSlots with
  | none => (Response.error 400 "No parking slots available", db)
  | some slot =>
    let currentTime := now
    let row : Booking :=
      { id := db.nextBookingId, slot_id := slot.id, user_name := req.userName,
        vehicle_number := req.vehicleNumber, phone_number := req.phoneNumber,
        booking_type := BookingType.walkin, booking_time := currentTime,
        arrival_time := currentTime, departure_time := none,
        payment_status := PaymentStatus.active, amount := none }
    (Response.created row.id slot.slot_number slot.floor_number
        "Walk-in booking successful! Customer is now parked and slot is active.",
      { parking_slots := updateSlotStatus db.parking_slots slot.id SlotStatus.occupied,
        bookings := db.bookings ++ [row],
        nextBookingId := db.nextBookingId + 1 })

/-- The statements of an allocation handler that follow its `SELECT`. -/
def allocateAfterSelect (availableSlots : Option ParkingSlot) (db : Db) :
    AllocationRequest → Response × Db
  | AllocationRequest.bookParking now req => bookParkingAfterSelect availableSlots db now req
  | AllocationRequest.walkinBooking now req =>
    walkinBookingAfterSelect availableSlots db now req

/-- One schedule of two allocation transactions: the `SELECT` of the first, the `SELECT` of
the second, then `UPDATE`, `INSERT` and `commit` of the first, then `UPDATE`, `INSERT` and
`commit` of the second.  Both reads see the store `db` as committed before either
transaction writes; the `UPDATE` of the second finds the row unlocked, the first having
committed, and writes it whatever its status.  The result is both answers and the store
after the second `commit`. -/
def selectSelectWriteWrite (db : Db) (first second : AllocationRequest) :
    Response × Response × Db :=
  let availableSlots₁ := selectFirstAvailable db.parking_slots
  let availableSlots₂ := selectFirstAvailable db.parking_slots
  let served₁ := allocateAfterSelect availableSlots₁ db first
  let served₂ := allocateAfterSelect availableSlots₂ served₁.2 second
  (served₁.1, served₂.1, served₂.2)

/-! ## Completion and request sequences on request bodies -/

/-- Handler of `PUT /api/bookings/:id/complete` on the request body: `amount` is the number
in `req.body.amount`, or `none` for `null`, which is what the admin panel sends for a
checkout field that does not parse.  When the `UPDATE` of the booking fails the `catch`
branch rolls back and answers 500. -/
def completeBookingDecimal (strictMode : Bool) (db : Db) (now : Int) (id : Nat)
    (amount : Option ℚ) : Response × Db :=
  match db.bookings.find? (fun b => b.id = id) with
  | none => (Response.error 404 "Booking not found", db)
  | some booking =>
    match assignAmount strictMode amount with
    | none => (Response.error 500 "Database error", db)
    | some stored =>
      (Response.ok "Booking completed successfully",
        { parking_slots :=
            updateSlotStatus db.parking_slots booking.slot_id SlotStatus.available,
          bookings := db.bookings.map (fun b =>
            if b.id = id then
              { b with departure_time := some now, payment_status := PaymentStatus.completed,
                       amount := stored }
            else b),
          nextBookingId := db.nextBookingId })

/-- One request to the building-parking API as its body arrives: the completion carries the
number of `req.body.amount` or `null`. -/
inductive BodyRequest where
  | bookParking (now : Int) (req : BookParkingRequest)
  | walkinBooking (now : Int) (req : WalkinRequest)
  | completeBooking (now : Int) (id : Nat) (amount : Option ℚ)
  deriving DecidableEq

/-- Serve one request with the handler of its route. -/
def handleBody (strictMode : Bool) (db : Db) : BodyRequest → Response × Db
  | BodyRequest.bookParking now req => bookParking db now req
  | BodyRequest.walkinBooking now req => walkinBooking db now req
  | BodyRequest.completeBooking now id amount =>
    completeBookingDecimal strictMode db now id amount

/-- Serve a sequence of requests one after another; the store after the last one. -/
def runBodyRequests (strictMode : Bool) (db : Db) (requests : List BodyRequest) : Db :=
  requests.foldl (fun d r => (handleBody strictMode d r).2) db

/-- What a completion of booking `b` at time `now` leaves in the store `after` when the
column `amount` then holds `stored`: the booking is completed with that amount and
departure time `now`, and every slot row it references is available. -/
def CompletedWith (before after : Db) (b : Booking) (now : Int) (stored : Option ℚ) : Prop :=
  { b with departure_time := some now, payment_status := PaymentStatus.completed,
           amount := stored } ∈ after.bookings ∧
  (∀ c ∈ after.bookings, c.id = b.id →
    c.payment_status = PaymentStatus.completed ∧ c.amount = stored ∧
      c.departure_time = some now) ∧
  (∀ q ∈ after.parking_slots, q.id = b.slot_id → q.status = SlotStatus.available) ∧
  (∀ p ∈ before.parking_slots, p.id = b.slot_id →
    { p with status := SlotStatus.available } ∈ after.parking_slots)

/-- Book, then check out booking 1 two hours later with amount 10. -/
def lowAmountRequests : List BodyRequest :=
  [BodyRequest.bookParking 0 sampleBookRequest,
   BodyRequest.completeBooking 7200000 1 (some 10)]

/-- Book, then check out booking 1 with an empty checkout field: the amount is `null`. -/
def nullAmountRequests : List BodyRequest :=
  [BodyRequest.bookParking 0 sampleBookRequest,
   BodyRequest.completeBooking 7200000 1 none]

/-! ## Theorems -/

/-- The billed hours of `calculateParkingFee` are at least one. -/
theorem one_le_hoursDiff (e : Int) : 1 ≤ max 1 (Int.ceil ((e : ℚ) / (1000 * 60 * 60))) :=
  le_max_left _ _

/-- The billed hours cover the elapsed time. -/
theorem elapsed_le_hoursDiff (e : Int) :
    e ≤ max 1 (Int.ceil ((e : ℚ) / (1000 * 60 * 60))) * 3600000 := by
  have h1 : (e : ℚ) / (1000 * 60 * 60) ≤ (Int.ceil ((e : ℚ) / (1000 * 60 * 60)) : ℚ) :=
    Int.le_ceil _
  have h2 : ((Int.ceil ((e : ℚ) / (1000 * 60 * 60)) : Int) : ℚ)
      ≤ ((max 1 (Int.ceil ((e : ℚ) / (1000 * 60 * 60))) : Int) : ℚ) :=
    Int.cast_le.mpr (le_max_right _ _)
  have h3 : (e : ℚ) ≤ ((max 1 (Int.ceil ((e : ℚ) / (1000 * 60 * 60))) : Int) : ℚ) * 3600000 := by
    have h4 := le_trans h1 h2
    rw [div_le_iff₀ (by norm_num)] at h4
    norm_num at h4 ⊢
    exact h4
  exact_mod_cast h3

/-- More than one billed hour is billed only when the previous hour is exceeded. -/
theorem hoursDiff_tight (e : Int)
    (h : 1 < max 1 (Int.ceil ((e : ℚ) / (1000 * 60 * 60)))) :
    (max 1 (Int.ceil ((e : ℚ) / (1000 * 60 * 60))) - 1) * 3600000 < e := by
  have hc : max 1 (Int.ceil ((e : ℚ) / (1000 * 60 * 60))) = Int.ceil ((e : ℚ) / (1000 * 60 * 60)) := by
    rcases max_cases 1 (Int.ceil ((e : ℚ) / (1000 * 60 * 60))) with ⟨h1, _⟩ | ⟨h1, _⟩
    · rw [h1] at h; exact absurd h (lt_irrefl _)
    · exact h1
  rw [hc]
  have h1 : Int.ceil ((e : ℚ) / (1000 * 60 * 60)) - 1 < Int.ceil ((e : ℚ) / (1000 * 60 * 60)) := by
    omega
  have h2 := Int.lt_ceil.mp h1
  rw [lt_div_iff₀ (by norm_num)] at h2
  have h3 : (((Int.ceil ((e : ℚ) / (1000 * 60 * 60)) - 1) * 3600000 : Int) : ℚ) < (e : ℚ) := by
    push_cast
    norm_num at h2 ⊢
    exact h2
  exact_mod_cast h3

/-- A whole number of hours, at least one, is billed as it is. -/
theorem hoursDiff_whole (k : Int) (hk : 1 ≤ k) :
    max 1 (Int.ceil (((k * 3600000 : Int) : ℚ) / (1000 * 60 * 60))) = k := by
  have h1 : ((k * 3600000 : Int) : ℚ) / (1000 * 60 * 60) = (k : ℚ) := by
    push_cast
    field_simp
    norm_num
  rw [h1, Int.ceil_intCast]
  exact max_eq_right hk

/-- At most one hour elapsed, or a negative elapsed time, is billed as one hour. -/
theorem hoursDiff_min (e : Int) (he : e ≤ 3600000) :
    max 1 (Int.ceil ((e : ℚ) / (1000 * 60 * 60))) = 1 := by
  apply max_eq_left
  rw [Int.ceil_le, div_le_iff₀ (by norm_num)]
  have : (e : ℚ) ≤ ((3600000 : Int) : ℚ) := Int.cast_le.mpr he
  norm_num at this ⊢
  exact this

/-- Claim C3: whenever the as-of time is at most one hour after the arrival time, and in
particular whenever it is earlier than the arrival time, `calculateParkingFee` returns
exactly the rate; for a non-negative rate the fee is never below the rate and never
negative; rate 50 from 10:00 to 10:45 gives 50. -/
theorem calculateParkingFee_minimum (rate : ℚ) (now : Int) (b : Booking) :
    (now - b.arrival_time ≤ 3600000 → calculateParkingFee rate now (some b) = rate) ∧
    (now < b.arrival_time → calculateParkingFee rate now (some b) = rate) ∧
    (0 ≤ rate → rate ≤ calculateParkingFee rate now (some b) ∧
        0 ≤ calculateParkingFee rate now (some b)) ∧
    calculateParkingFee 50 (10 * 3600000 + 45 * 60000)
        (some { b with arrival_time := 10 * 3600000 }) = 50 := by
  have key : ∀ (r : ℚ) (n : Int) (c : Booking), n - c.arrival_time ≤ 3600000 →
      calculateParkingFee r n (some c) = r := by
    intro r n c he
    show r * ((max 1 (Int.ceil (((n - c.arrival_time : Int) : ℚ) / (1000 * 60 * 60))) : Int) : ℚ)
      = r
    rw [hoursDiff_min _ he]
    norm_num
  refine ⟨key rate now b, fun hlt => key rate now b (by omega), ?_,
    key _ _ _ (by show (10 * 3600000 + 45 * 60000 - 10 * 3600000 : Int) ≤ 3600000; decide)⟩
  intro hr
  have h1 : (1 : ℚ) ≤ ((max 1 (Int.ceil (((now - b.arrival_time : Int) : ℚ)
      / (1000 * 60 * 60))) : Int) : ℚ) := by
    exact_mod_cast one_le_hoursDiff (now - b.arrival_time)
  have h2 : rate ≤ calculateParkingFee rate now (some b) := by
    show rate ≤ rate * ((max 1 (Int.ceil (((now - b.arrival_time : Int) : ℚ)
      / (1000 * 60 * 60))) : Int) : ℚ)
    exact le_mul_of_one_le_right hr h1
  exact ⟨h2, le_trans hr h2⟩

/-- Witness of C3: a checkout 1000 ms before the recorded arrival, at rate 25. -/
theorem calculateParkingFee_minimum_witness :
    calculateParkingFee 25 0 (some sampleBooking) = 25 :=
  (calculateParkingFee_minimum 25 0 sampleBooking).2.1 (by decide)

/-! ### Slot selection -/

/-- Any two slots are comparable in the order of the selection query. -/
theorem slotOrder_total (a b : ParkingSlot) : slotOrder a b ∨ slotOrder b a := by
  unfold slotOrder
  rcases lt_trichotomy a.floor_number b.floor_number with h | h | h
  · exact Or.inl (Or.inl h)
  · rcases le_total a.slot_number.toList b.slot_number.toList with h2 | h2
    · exact Or.inl (Or.inr ⟨h, h2⟩)
    · exact Or.inr (Or.inr ⟨h.symm, h2⟩)
  · exact Or.inr (Or.inl h)

/-- The order of the selection query is transitive. -/
theorem slotOrder_trans (a b c : ParkingSlot) (hab : slotOrder a b) (hbc : slotOrder b c) :
    slotOrder a c := by
  unfold slotOrder at *
  rcases hab with h1 | ⟨h1, h2⟩ <;> rcases hbc with h3 | ⟨h3, h4⟩
  · exact Or.inl (lt_trans h1 h3)
  · exact Or.inl (h3 ▸ h1)
  · exact Or.inl (h1 ▸ h3)
  · exact Or.inr ⟨h1.trans h3, le_trans h2 h4⟩

/-- The selection query returns no row exactly when no slot is available. -/
theorem selectFirstAvailable_eq_none_iff (slots : List ParkingSlot) :
    selectFirstAvailable slots = none ↔ ∀ p ∈ slots, p.status ≠ SlotStatus.available := by
  unfold selectFirstAvailable
  rw [List.head?_eq_none_iff]
  constructor
  · intro h p hp hs
    have hm : p ∈ List.insertionSort slotOrder
        (slots.filter (fun p => p.status = SlotStatus.available)) := by
      rw [List.mem_insertionSort]
      exact List.mem_filter.mpr ⟨hp, by simpa using hs⟩
    rw [h] at hm
    exact absurd hm (List.not_mem_nil _)
  · intro h
    have hf : slots.filter (fun p => p.status = SlotStatus.available) = [] := by
      rw [List.filter_eq_nil_iff]
      intro p hp
      simpa using h p hp
    rw [hf]
    rfl

/-- The row returned by the selection query is an available slot of the registry that
precedes, in the query order, every available slot. -/
theorem selectFirstAvailable_some (slots : List ParkingSlot) (slot : ParkingSlot)
    (h : selectFirstAvailable slots = some slot) :
    slot ∈ slots ∧ slot.status = SlotStatus.available ∧
      ∀ p ∈ slots, p.status = SlotStatus.available → slotOrder slot p := by
  unfold selectFirstAvailable at h
  haveI : IsTotal ParkingSlot slotOrder := ⟨slotOrder_total⟩
  haveI : IsTrans ParkingSlot slotOrder := ⟨slotOrder_trans⟩
  have hsorted := List.sorted_insertionSort slotOrder
    (slots.filter (fun p => p.status = SlotStatus.available))
  have hmem : ∀ p, p ∈ List.insertionSort slotOrder
      (slots.filter (fun p => p.status = SlotStatus.available)) ↔
      p ∈ slots ∧ p.status = SlotStatus.available := by
    intro p
    rw [List.mem_insertionSort, List.mem_filter]
    simp
  cases hl : List.insertionSort slotOrder
      (slots.filter (fun p => p.status = SlotStatus.available)) with
  | nil => rw [hl] at h; cases h
  | cons x t =>
    rw [hl] at h hsorted
    have hx : x = slot := by simpa using h
    subst hx
    have hin : x ∈ slots ∧ x.status = SlotStatus.available :=
      (hmem x).mp (by rw [hl]; exact List.mem_cons_self _ _)
    refine ⟨hin.1, hin.2, ?_⟩
    intro p hp hs
    have hp2 : p ∈ x :: t := by rw [← hl]; exact (hmem p).mpr ⟨hp, hs⟩
    rcases List.mem_cons.mp hp2 with rfl | ht
    · rcases slotOrder_total p p with h1 | h1 <;> exact h1
    · exact List.rel_of_sorted_cons hsorted p ht

/-- With an available slot in the registry the selection query returns a row. -/
theorem selectFirstAvailable_isSome (slots : List ParkingSlot)
    (h : ∃ p ∈ slots, p.status = SlotStatus.available) :
    ∃ slot, selectFirstAvailable slots = some slot := by
  cases hs : selectFirstAvailable slots with
  | some slot => exact ⟨slot, rfl⟩
  | none =>
    obtain ⟨p, hp, hst⟩ := h
    exact absurd hst ((selectFirstAvailable_eq_none_iff slots).mp hs p hp)

/-- A slot row is in the updated table when it is the update of a row of the old table. -/
theorem mem_updateSlotStatus (slots : List ParkingSlot) (id : Nat) (status : SlotStatus)
    (q : ParkingSlot) :
    q ∈ updateSlotStatus slots id status ↔
      ∃ p ∈ slots, q = if p.id = id then { p with status := status } else p := by
  unfold updateSlotStatus
  rw [List.mem_map]
  constructor
  · rintro ⟨p, hp, rfl⟩; exact ⟨p, hp, rfl⟩
  · rintro ⟨p, hp, rfl⟩; exact ⟨p, hp, rfl⟩

/-! ### Allocation -/

/-- Claim C1 (defect in the code): the claimed invariant fails on a reachable state.
From the initial one-slot facility the requests book, complete 1, book, complete 1, book
end with slot 1 referenced by the two pending bookings 2 and 3: the second completion of
booking 1 releases the slot while booking 2 still holds it. -/
theorem double_booking_reachable :
    isInitial oneSlotFacility ∧
    (runRequests oneSlotFacility recompleteTrace).parking_slots =
      [{ id := 1, slot_number := "101", floor_number := 1, status := SlotStatus.booked }] ∧
    (nonTerminalBookings (runRequests oneSlotFacility recompleteTrace) 1).map
      (fun b => (b.id, b.payment_status)) =
        [(2, PaymentStatus.pending), (3, PaymentStatus.pending)] ∧
    ¬ NoDoubleBooking (runRequests oneSlotFacility recompleteTrace) := by
  decide

/-- Claim C4: when no slot has status available, the scheduled allocation and the walk-in
allocation both answer 400 "No parking slots available" and return the store unchanged. -/
theorem allocation_fails_without_available (db : Db) (now : Int) (req : BookParkingRequest)
    (wreq : WalkinRequest) (h : ∀ p ∈ db.parking_slots, p.status ≠ SlotStatus.available) :
    bookParking db now req = (Response.error 400 "No parking slots available", db) ∧
    walkinBooking db now wreq = (Response.error 400 "No parking slots available", db) := by
  have hn := (selectFirstAvailable_eq_none_iff db.parking_slots).mpr h
  constructor
  · unfold bookParking; rw [hn]
  · unfold walkinBooking; rw [hn]

/-- Witness of C4 on the facility whose only slot is booked. -/
theorem allocation_fails_without_available_witness :
    bookParking fullFacility 5 sampleBookRequest =
      (Response.error 400 "No parking slots available", fullFacility) ∧
    walkinBooking fullFacility 5 sampleWalkinRequest =
      (Response.error 400 "No parking slots available", fullFacility) :=
  allocation_fails_without_available fullFacility 5 sampleBookRequest sampleWalkinRequest
    (by decide)

/-- Claim C5: with an available slot, the scheduled allocation answers 201 with the display
number and floor of the selected slot, that slot has status booked afterwards, and the
bookings table grows by exactly one row: it references the slot, has kind regular, payment
state pending, booking time now and the arrival time of the request. -/
theorem bookParking_succeeds (db : Db) (now : Int) (req : BookParkingRequest)
    (h : ∃ p ∈ db.parking_slots, p.status = SlotStatus.available) :
    ∃ slot ∈ db.parking_slots, slot.status = SlotStatus.available ∧
      (bookParking db now req).1 =
        Response.created db.nextBookingId slot.slot_number slot.floor_number
          "Parking slot booked successfully!" ∧
      { slot with status := SlotStatus.booked } ∈ (bookParking db now req).2.parking_slots ∧
      (∀ q ∈ (bookParking db now req).2.parking_slots, q.id = slot.id →
        q.status = SlotStatus.booked) ∧
      ∃ row : Booking, (bookParking db now req).2.bookings = db.bookings ++ [row] ∧
        row.id = db.nextBookingId ∧ row.slot_id = slot.id ∧
        row.booking_type = BookingType.regular ∧
        row.payment_status = PaymentStatus.pending ∧
        row.booking_time = now ∧ row.arrival_time = req.arrivalTime ∧
        row.departure_time = none ∧ row.amount = none ∧
        row.user_name = req.userName ∧ row.vehicle_number = req.vehicleNumber ∧
        row.phone_number = req.phoneNumber := by
  obtain ⟨slot, hs⟩ := selectFirstAvailable_isSome db.parking_slots h
  obtain ⟨hmem, hav, _⟩ := selectFirstAvailable_some db.parking_slots slot hs
  refine ⟨slot, hmem, hav, ?_, ?_, ?_, ?_⟩
  · unfold bookParking; rw [hs]
  · unfold bookParking; rw [hs]
    exact (mem_updateSlotStatus _ _ _ _).mpr ⟨slot, hmem, by simp⟩
  · unfold bookParking; rw [hs]
    intro q hq hid
    obtain ⟨p, _, rfl⟩ := (mem_updateSlotStatus _ _ _ _).mp hq
    by_cases hp : p.id = slot.id
    · simp [hp]
    · simp [hp] at hid
  · unfold bookParking; rw [hs]
    exact ⟨_, rfl, rfl, rfl, rfl, rfl, rfl, rfl, rfl, rfl, rfl, rfl, rfl⟩

/-- Witness of C5 on the two-floor facility. -/
theorem bookParking_succeeds_witness :
    ∃ slot ∈ twoFloorFacility.parking_slots, slot.status = SlotStatus.available ∧
      (bookParking twoFloorFacility 7 sampleBookRequest).1 =
        Response.created twoFloorFacility.nextBookingId slot.slot_number slot.floor_number
          "Parking slot booked successfully!" ∧
      { slot with status := SlotStatus.booked } ∈
        (bookParking twoFloorFacility 7 sampleBookRequest).2.parking_slots ∧
      (∀ q ∈ (bookParking twoFloorFacility 7 sampleBookRequest).2.parking_slots,
        q.id = slot.id → q.status = SlotStatus.booked) ∧
      ∃ row : Booking, (bookParking twoFloorFacility 7 sampleBookRequest).2.bookings =
          twoFloorFacility.bookings ++ [row] ∧
        row.id = twoFloorFacility.nextBookingId ∧ row.slot_id = slot.id ∧
        row.booking_type = BookingType.regular ∧
        row.payment_status = PaymentStatus.pending ∧
        row.booking_time = 7 ∧ row.arrival_time = sampleBookRequest.arrivalTime ∧
        row.departure_time = none ∧ row.amount = none ∧
        row.user_name = sampleBookRequest.userName ∧
        row.vehicle_number = sampleBookRequest.vehicleNumber ∧
        row.phone_number = sampleBookRequest.phoneNumber :=
  bookParking_succeeds twoFloorFacility 7 sampleBookRequest (by decide)

/-- With exactly one available slot, no slot is available once every row with the id of
the selected slot has been given another status. -/
theorem no_available_after_update (slots : List ParkingSlot) (slot : ParkingSlot)
    (status : SlotStatus) (hne : status ≠ SlotStatus.available)
    (hs : selectFirstAvailable slots = some slot)
    (hone : (slots.filter (fun p => p.status = SlotStatus.available)).length = 1) :
    ∀ q ∈ updateSlotStatus slots slot.id status, q.status ≠ SlotStatus.available := by
  obtain ⟨hmem, hav, _⟩ := selectFirstAvailable_some slots slot hs
  obtain ⟨x, hx⟩ := List.length_eq_one.mp hone
  have hin : ∀ p, p ∈ slots → p.status = SlotStatus.available → p = x := by
    intro p hp hst
    have : p ∈ slots.filter (fun p => p.status = SlotStatus.available) :=
      List.mem_filter.mpr ⟨hp, by simpa using hst⟩
    rw [hx] at this
    simpa using this
  intro q hq hqs
  obtain ⟨p, hp, rfl⟩ := (mem_updateSlotStatus _ _ _ _).mp hq
  by_cases hid : p.id = slot.id
  · simp [hid] at hqs
    exact hne hqs
  · simp [hid] at hqs
    have h1 := hin p hp hqs
    have h2 := hin slot hmem hav
    exact hid (by rw [h1, h2])

/-- Claim C6: with an available slot, the walk-in allocation answers 201 with the selected
slot, that slot has status occupied afterwards, and the bookings table grows by exactly one
row: it references the slot, has kind walk-in, payment state active, and booking time and
arrival time both equal to the one current time.  When exactly one slot was available, any
walk-in allocation issued afterwards answers 400 "No parking slots available". -/
theorem walkinBooking_succeeds (db : Db) (now : Int) (req : WalkinRequest)
    (h : ∃ p ∈ db.parking_slots, p.status = SlotStatus.available) :
    (∃ slot ∈ db.parking_slots, slot.status = SlotStatus.available ∧
      (walkinBooking db now req).1 =
        Response.created db.nextBookingId slot.slot_number slot.floor_number
          "Walk-in booking successful! Customer is now parked and slot is active." ∧
      { slot with status := SlotStatus.occupied } ∈ (walkinBooking db now req).2.parking_slots ∧
      (∀ q ∈ (walkinBooking db now req).2.parking_slots, q.id = slot.id →
        q.status = SlotStatus.occupied) ∧
      ∃ row : Booking, (walkinBooking db now req).2.bookings = db.bookings ++ [row] ∧
        row.id = db.nextBookingId ∧ row.slot_id = slot.id ∧
        row.booking_type = BookingType.walkin ∧
        row.payment_status = PaymentStatus.active ∧
        row.booking_time = now ∧ row.arrival_time = now ∧
        row.departure_time = none ∧ row.amount = none ∧
        row.user_name = req.userName ∧ row.vehicle_number = req.vehicleNumber ∧
        row.phone_number = req.phoneNumber) ∧
    ((db.parking_slots.filter (fun p => p.status = SlotStatus.available)).length = 1 →
      ∀ (later : Int) (req2 : WalkinRequest),
        walkinBooking (walkinBooking db now req).2 later req2 =
          (Response.error 400 "No parking slots available", (walkinBooking db now req).2)) := by
  obtain ⟨slot, hs⟩ := selectFirstAvailable_isSome db.parking_slots h
  obtain ⟨hmem, hav, _⟩ := selectFirstAvailable_some db.parking_slots slot hs
  refine ⟨⟨slot, hmem, hav, ?_, ?_, ?_, ?_⟩, ?_⟩
  · unfold walkinBooking; rw [hs]
  · unfold walkinBooking; rw [hs]
    exact (mem_updateSlotStatus _ _ _ _).mpr ⟨slot, hmem, by simp⟩
  · unfold walkinBooking; rw [hs]
    intro q hq hid
    obtain ⟨p, _, rfl⟩ := (mem_updateSlotStatus _ _ _ _).mp hq
    by_cases hp : p.id = slot.id
    · simp [hp]
    · simp [hp] at hid
  · unfold walkinBooking; rw [hs]
    exact ⟨_, rfl, rfl, rfl, rfl, rfl, rfl, rfl, rfl, rfl, rfl, rfl, rfl⟩
  · intro hone later req2
    have hnone : selectFirstAvailable (walkinBooking db now req).2.parking_slots = none := by
      rw [selectFirstAvailable_eq_none_iff]
      unfold walkinBooking; rw [hs]
      exact no_available_after_update db.parking_slots slot SlotStatus.occupied
        (by decide) hs hone
    generalize (walkinBooking db now req).2 = db2 at hnone
    unfold walkinBooking; rw [hnone]

/-- Witness of C6 on the one-slot facility: the walk-in is served and a second one is
refused. -/
theorem walkinBooking_succeeds_witness :
    (walkinBooking oneSlotFacility 5 sampleWalkinRequest).1 =
      Response.created 1 "101" 1
        "Walk-in booking successful! Customer is now parked and slot is active." ∧
    walkinBooking (walkinBooking oneSlotFacility 5 sampleWalkinRequest).2 6 sampleWalkinRequest =
      (Response.error 400 "No parking slots available",
        (walkinBooking oneSlotFacility 5 sampleWalkinRequest).2) :=
  ⟨by decide,
    (walkinBooking_succeeds oneSlotFacility 5 sampleWalkinRequest (by decide)).2 (by decide)
      6 sampleWalkinRequest⟩

/-- Claim C7: with an available slot in the registry, the selected slot is a slot of the
registry that had status available, and no available slot has a smaller floor, or the same
floor and a smaller display number as strings.  The selection reads only the registry:
every scheduled and every walk-in allocation on a store with this registry reports this
slot and updates the rows with its id. -/
theorem selected_slot_is_least (slots : List ParkingSlot)
    (h : ∃ p ∈ slots, p.status = SlotStatus.available) :
    ∃ slot, selectFirstAvailable slots = some slot ∧ slot ∈ slots ∧
      slot.status = SlotStatus.available ∧
      (∀ p ∈ slots, p.status = SlotStatus.available →
        ¬ (p.floor_number < slot.floor_number ∨
            (p.floor_number = slot.floor_number ∧ p.slot_number < slot.slot_number))) ∧
      (∀ (db : Db) (now : Int) (req : BookParkingRequest), db.parking_slots = slots →
        (bookParking db now req).1 =
          Response.created db.nextBookingId slot.slot_number slot.floor_number
            "Parking slot booked successfully!" ∧
        (bookParking db now req).2.parking_slots =
          updateSlotStatus slots slot.id SlotStatus.booked) ∧
      (∀ (db : Db) (now : Int) (req : WalkinRequest), db.parking_slots = slots →
        (walkinBooking db now req).1 =
          Response.created db.nextBookingId slot.slot_number slot.floor_number
            "Walk-in booking successful! Customer is now parked and slot is active." ∧
        (walkinBooking db now req).2.parking_slots =
          updateSlotStatus slots slot.id SlotStatus.occupied) := by
  obtain ⟨slot, hs⟩ := selectFirstAvailable_isSome slots h
  obtain ⟨hmem, hav, hle⟩ := selectFirstAvailable_some slots slot hs
  refine ⟨slot, hs, hmem, hav, ?_, ?_, ?_⟩
  · intro p hp hst hlt
    have hord := hle p hp hst
    unfold slotOrder at hord
    rcases hlt with h1 | ⟨h1, h2⟩
    · rcases hord with h3 | ⟨h3, _⟩
      · exact absurd h1 (not_lt.mpr (le_of_lt h3))
      · rw [h3] at h1; exact absurd h1 (lt_irrefl _)
    · rcases hord with h3 | ⟨_, h4⟩
      · rw [h1] at h3; exact absurd h3 (lt_irrefl _)
      · exact absurd (String.lt_iff_toList_lt.mp h2) (not_lt.mpr h4)
  · intro db now req hdb
    subst hdb
    constructor
    · unfold bookParking; rw [hs]
    · unfold bookParking; rw [hs]
  · intro db now req hdb
    subst hdb
    constructor
    · unfold walkinBooking; rw [hs]
    · unfold walkinBooking; rw [hs]

/-- Witness of C7 on the two-floor registry, where slot 103 of floor 1 is selected although
slots 201 and 110 come first in the table. -/
theorem selected_slot_is_least_witness :
    selectFirstAvailable twoFloorSlots =
      some { id := 5, slot_number := "103", floor_number := 1,
             status := SlotStatus.available } ∧
    ∃ slot, selectFirstAvailable twoFloorSlots = some slot ∧ slot ∈ twoFloorSlots ∧
      slot.status = SlotStatus.available ∧
      (∀ p ∈ twoFloorSlots, p.status = SlotStatus.available →
        ¬ (p.floor_number < slot.floor_number ∨
            (p.floor_number = slot.floor_number ∧ p.slot_number < slot.slot_number))) :=
  ⟨by decide,
    match selected_slot_is_least twoFloorSlots (by decide) with
    | ⟨slot, h1, h2, h3, h4, _⟩ => ⟨slot, h1, h2, h3, h4⟩⟩

/-! ### Completion -/

/-- With unique ids, the row loaded by `SELECT * FROM bookings WHERE id = ?` for the id of a
stored booking is that booking. -/
theorem find?_id_of_unique (bs : List Booking) (b : Booking) (hb : b ∈ bs)
    (hkey : (bs.map (fun c => c.id)).Nodup) :
    bs.find? (fun c => c.id = b.id) = some b := by
  induction bs with
  | nil => cases hb
  | cons x t ih =>
    rw [List.map_cons, List.nodup_cons] at hkey
    rcases List.mem_cons.mp hb with rfl | ht
    · simp [List.find?]
    · have hne : x.id ≠ b.id := by
        intro he
        exact hkey.1 (he ▸ List.mem_map_of_mem (fun c => c.id) ht)
      rw [List.find?_cons_of_neg _ (by simpa using hne)]
      exact ih ht hkey.2

/-- Claim C9 (defect in the code): a completion of an already completed booking is carried
out again.  In the store reached by book, complete 1, book on the one-slot facility, the
completed booking 1 is completed once more with amount 70 at time 30.  The answer is
success, not an error, and the state changes: the amount of booking 1 goes from 50 to 70,
its departure time from 10 to 30, and slot 1, which the pending booking 2 holds, goes from
booked to available. -/
theorem recomplete_changes_state :
    runRequests oneSlotFacility
        [Request.bookParking 0 sampleBookRequest, Request.completeBooking 10 1 50,
         Request.bookParking 20 sampleBookRequest] = rebookedFacility ∧
    rebookedFacility.bookings.map
        (fun b => (b.id, b.payment_status, b.amount, b.departure_time)) =
      [(1, PaymentStatus.completed, some 50, some 10), (2, PaymentStatus.pending, none, none)] ∧
    rebookedFacility.parking_slots.map (fun p => (p.id, p.status)) =
      [(1, SlotStatus.booked)] ∧
    (completeBooking rebookedFacility 30 1 70).1 =
      Response.ok "Booking completed successfully" ∧
    (completeBooking rebookedFacility 30 1 70).2.bookings.map
        (fun b => (b.id, b.payment_status, b.amount, b.departure_time)) =
      [(1, PaymentStatus.completed, some 70, some 30), (2, PaymentStatus.pending, none, none)] ∧
    (completeBooking rebookedFacility 30 1 70).2.parking_slots.map (fun p => (p.id, p.status)) =
      [(1, SlotStatus.available)] :=
  ⟨by decide, by decide, by decide, by decide, by decide, by decide⟩

/-- Claim C10: the completion answers 404 "Booking not found" exactly when no stored
booking has the given id, and then it returns the store unchanged. -/
theorem completeBooking_not_found (db : Db) (now : Int) (id : Nat) (amount : ℚ) :
    ((completeBooking db now id amount).1 = Response.error 404 "Booking not found" ↔
      ∀ b ∈ db.bookings, b.id ≠ id) ∧
    ((∀ b ∈ db.bookings, b.id ≠ id) →
      completeBooking db now id amount = (Response.error 404 "Booking not found", db)) := by
  have hnone : (∀ b ∈ db.bookings, b.id ≠ id) →
      db.bookings.find? (fun b => b.id = id) = none := by
    intro h
    rw [List.find?_eq_none]
    intro x hx
    simpa using h x hx
  refine ⟨⟨?_, ?_⟩, ?_⟩
  · intro hres b hb hid
    cases hf : db.bookings.find? (fun b => b.id = id) with
    | none =>
      rw [List.find?_eq_none] at hf
      exact hf b hb (by simpa using hid)
    | some c =>
      unfold completeBooking at hres
      rw [hf] at hres
      cases hres
  · intro h
    unfold completeBooking; rw [hnone h]
  · intro h
    unfold completeBooking; rw [hnone h]

/-- Witness of C10: id 7 matches no booking of the full one-slot facility. -/
theorem completeBooking_not_found_witness :
    completeBooking fullFacility 9 7 150 =
      (Response.error 404 "Booking not found", fullFacility) :=
  (completeBooking_not_found fullFacility 9 7 150).2 (by decide)

/-! ### Invariants over request sequences -/

/-- Claim C11 (defect in the code): amount and departure time of a completed booking are
rewritten.  On the one-slot facility booking 1 is checked out with amount 50 at time 10;
a second completion of the same id with amount 70 at time 30 is served with success and
leaves booking 1 with amount 70 and departure time 30. -/
theorem amount_overwritten_by_second_completion :
    isInitial oneSlotFacility ∧
    (runRequests oneSlotFacility (overwriteTrace.take 2)).bookings.map
        (fun b => (b.id, b.payment_status, b.amount, b.departure_time)) =
      [(1, PaymentStatus.completed, some 50, some 10)] ∧
    (handle (runRequests oneSlotFacility (overwriteTrace.take 2))
        (Request.completeBooking 30 1 70)).1 = Response.ok "Booking completed successfully" ∧
    (runRequests oneSlotFacility overwriteTrace).bookings.map
        (fun b => (b.id, b.payment_status, b.amount, b.departure_time)) =
      [(1, PaymentStatus.completed, some 70, some 30)] :=
  ⟨by decide, by decide, by decide, by decide⟩

/-- Claim C12 (defect in the code): a reachable state where the status of a slot does not
follow its bookings.  After book, complete 1, book, complete 1 on the one-slot facility,
slot 1 has status available although the pending booking 2 references it. -/
theorem status_not_tracking_bookings_reachable :
    isInitial oneSlotFacility ∧
    (runRequests oneSlotFacility releaseTrace).parking_slots =
      [{ id := 1, slot_number := "101", floor_number := 1, status := SlotStatus.available }] ∧
    (nonTerminalBookings (runRequests oneSlotFacility releaseTrace) 1).map
      (fun b => (b.id, b.payment_status)) = [(2, PaymentStatus.pending)] ∧
    ¬ StatusTracksBookings (runRequests oneSlotFacility releaseTrace) :=
  ⟨by decide, by decide, by decide, by decide⟩

/-! ### Arrival-time validation -/

/-- The outcome of the scheduled allocation once the selection query returned a row. -/
theorem bookParking_of_selected (db : Db) (now : Int) (req : BookParkingRequest)
    (slot : ParkingSlot) (hs : selectFirstAvailable db.parking_slots = some slot) :
    bookParking db now req =
      (Response.created db.nextBookingId slot.slot_number slot.floor_number
          "Parking slot booked successfully!",
        { parking_slots := updateSlotStatus db.parking_slots slot.id SlotStatus.booked,
          bookings := db.bookings ++
            [{ id := db.nextBookingId, slot_id := slot.id, user_name := req.userName,
               vehicle_number := req.vehicleNumber, phone_number := req.phoneNumber,
               booking_type := BookingType.regular, booking_time := now,
               arrival_time := req.arrivalTime, departure_time := none,
               payment_status := PaymentStatus.pending, amount := none }],
          nextBookingId := db.nextBookingId + 1 }) := by
  unfold bookParking; rw [hs]

/-- The outcome of the walk-in allocation once the selection query returned a row. -/
theorem walkinBooking_of_selected (db : Db) (now : Int) (req : WalkinRequest)
    (slot : ParkingSlot) (hs : selectFirstAvailable db.parking_slots = some slot) :
    walkinBooking db now req =
      (Response.created db.nextBookingId slot.slot_number slot.floor_number
          "Walk-in booking successful! Customer is now parked and slot is active.",
        { parking_slots := updateSlotStatus db.parking_slots slot.id SlotStatus.occupied,
          bookings := db.bookings ++
            [{ id := db.nextBookingId, slot_id := slot.id, user_name := req.userName,
               vehicle_number := req.vehicleNumber, phone_number := req.phoneNumber,
               booking_type := BookingType.walkin, booking_time := now,
               arrival_time := now, departure_time := none,
               payment_status := PaymentStatus.active, amount := none }],
          nextBookingId := db.nextBookingId + 1 }) := by
  unfold walkinBooking; rw [hs]

/-- Counterexample to C13 as stated: at time 10000000 the one-slot facility serves a
scheduled request whose arrival time 1000 is hours in the past, and one whose arrival time
is two hours ahead; both are answered 201 and both reserve slot 1 and store a booking. -/
theorem bookParking_outside_window_succeeds :
    (1000 : Int) < 10000000 ∧
    bookParking oneSlotFacility 10000000 sampleBookRequest =
      (Response.created 1 "101" 1 "Parking slot booked successfully!",
        { parking_slots := [{ id := 1, slot_number := "101", floor_number := 1,
                              status := SlotStatus.booked }],
          bookings :=
            [{ id := 1, slot_id := 1, user_name := "Asha", vehicle_number := "MH01AB1234",
               phone_number := "9876543210", booking_type := BookingType.regular,
               booking_time := 10000000, arrival_time := 1000, departure_time := none,
               payment_status := PaymentStatus.pending, amount := none }],
          nextBookingId := 2 }) ∧
    (10000000 + 30 * 60 * 1000 : Int) < 17200000 ∧
    (bookParking oneSlotFacility 10000000
        { userName := "Asha", vehicleNumber := "MH01AB1234", phoneNumber := "9876543210",
          arrivalTime := 17200000 }).1 =
      Response.created 1 "101" 1 "Parking slot booked successfully!" :=
  ⟨by decide, by decide, by decide, by decide⟩

/-- Claim C13, amended: the scheduled allocation does not look at the arrival time.  For
every request and clock value, with an available slot it answers 201, reserves the selected
slot and appends one booking that stores the arrival time of the request as given; with no
available slot it answers 400 "No parking slots available".  No other answer exists. -/
theorem bookParking_ignores_arrival_window (db : Db) (now : Int) (req : BookParkingRequest) :
    ((∃ p ∈ db.parking_slots, p.status = SlotStatus.available) →
      ∃ slot ∈ db.parking_slots, slot.status = SlotStatus.available ∧
        (bookParking db now req).1 =
          Response.created db.nextBookingId slot.slot_number slot.floor_number
            "Parking slot booked successfully!" ∧
        { slot with status := SlotStatus.booked } ∈ (bookParking db now req).2.parking_slots ∧
        ∃ row : Booking, (bookParking db now req).2.bookings = db.bookings ++ [row] ∧
          row.slot_id = slot.id ∧ row.arrival_time = req.arrivalTime ∧
          row.booking_time = now) ∧
    ((∀ p ∈ db.parking_slots, p.status ≠ SlotStatus.available) →
      bookParking db now req = (Response.error 400 "No parking slots available", db)) := by
  constructor
  · intro h
    obtain ⟨slot, hs⟩ := selectFirstAvailable_isSome db.parking_slots h
    obtain ⟨hmem, hav, _⟩ := selectFirstAvailable_some db.parking_slots slot hs
    rw [bookParking_of_selected db now req slot hs]
    exact ⟨slot, hmem, hav, rfl,
      (mem_updateSlotStatus _ _ _ _).mpr ⟨slot, hmem, by simp⟩, _, rfl, rfl, rfl, rfl⟩
  · intro h
    unfold bookParking
    rw [(selectFirstAvailable_eq_none_iff db.parking_slots).mpr h]

/-- Witness of the amended C13: a request with an arrival time in the past is served on
the two-floor facility, and refused only for lack of a slot on the full facility. -/
theorem bookParking_ignores_arrival_window_witness :
    (∃ slot ∈ twoFloorFacility.parking_slots, slot.status = SlotStatus.available ∧
        (bookParking twoFloorFacility 10000000 sampleBookRequest).1 =
          Response.created twoFloorFacility.nextBookingId slot.slot_number slot.floor_number
            "Parking slot booked successfully!" ∧
        { slot with status := SlotStatus.booked } ∈
          (bookParking twoFloorFacility 10000000 sampleBookRequest).2.parking_slots ∧
        ∃ row : Booking, (bookParking twoFloorFacility 10000000 sampleBookRequest).2.bookings =
            twoFloorFacility.bookings ++ [row] ∧
          row.slot_id = slot.id ∧ row.arrival_time = sampleBookRequest.arrivalTime ∧
          row.booking_time = 10000000) ∧
    bookParking fullFacility 10000000 sampleBookRequest =
      (Response.error 400 "No parking slots available", fullFacility) :=
  ⟨(bookParking_ignores_arrival_window twoFloorFacility 10000000 sampleBookRequest).1
      (by decide),
    (bookParking_ignores_arrival_window fullFacility 10000000 sampleBookRequest).2
      (by decide)⟩

/-- The whole minutes of a difference are below `-2` exactly below `-120000` ms. -/
theorem diffInMinutes_lt_neg_two (d : Int) :
    Int.floor ((d : ℚ) / (1000 * 60)) < -2 ↔ d < -120000 := by
  rw [Int.floor_lt, div_lt_iff₀ (by norm_num)]
  have e : ((-2 : Int) : ℚ) * (1000 * 60) = ((-120000 : Int) : ℚ) := by push_cast; norm_num
  rw [e, Int.cast_lt]

/-- The whole minutes of a difference exceed `30` exactly from `1860000` ms on. -/
theorem diffInMinutes_gt_thirty (d : Int) :
    Int.floor ((d : ℚ) / (1000 * 60)) > 30 ↔ 1860000 ≤ d := by
  have h0 : Int.floor ((d : ℚ) / (1000 * 60)) > 30 ↔ 31 ≤ Int.floor ((d : ℚ) / (1000 * 60)) := by
    constructor <;> intro h <;> omega
  rw [h0, Int.le_floor, le_div_iff₀ (by norm_num)]
  have e : ((31 : Int) : ℚ) * (1000 * 60) = ((1860000 : Int) : ℚ) := by push_cast; norm_num
  rw [e, Int.cast_le]

/-- The three outcomes of `getTimeValidationMessage` on a parsed time, by the difference
to the clock in milliseconds. -/
theorem getTimeValidationMessage_cases (now t : Int) :
    (t - now < -120000 →
      getTimeValidationMessage now (ArrivalTimeInput.time t) =
        "Arrival time cannot be in the past") ∧
    (1860000 ≤ t - now →
      getTimeValidationMessage now (ArrivalTimeInput.time t) =
        "Arrival time cannot be more than 30 minutes from now") ∧
    (-120000 ≤ t - now → t - now < 1860000 →
      getTimeValidationMessage now (ArrivalTimeInput.time t) = "") := by
  refine ⟨?_, ?_, ?_⟩
  · intro h
    have h1 := (diffInMinutes_lt_neg_two (t - now)).mpr h
    show (if Int.floor (((t - now : Int) : ℚ) / (1000 * 60)) < -2 then _ else _) = _
    rw [if_pos h1]
  · intro h
    have h1 : ¬ Int.floor (((t - now : Int) : ℚ) / (1000 * 60)) < -2 := by
      rw [diffInMinutes_lt_neg_two]; omega
    have h2 := (diffInMinutes_gt_thirty (t - now)).mpr h
    show (if Int.floor (((t - now : Int) : ℚ) / (1000 * 60)) < -2 then _ else _) = _
    rw [if_neg h1, if_pos h2]
  · intro hlo hhi
    have h1 : ¬ Int.floor (((t - now : Int) : ℚ) / (1000 * 60)) < -2 := by
      rw [diffInMinutes_lt_neg_two]; omega
    have h2 : ¬ Int.floor (((t - now : Int) : ℚ) / (1000 * 60)) > 30 := by
      rw [diffInMinutes_gt_thirty]; omega
    show (if Int.floor (((t - now : Int) : ℚ) / (1000 * 60)) < -2 then _ else _) = _
    rw [if_neg h1, if_neg h2]

/-- Counterexample to C14 as stated: with the clock at 600000 ms, the arrival time 540000
(one minute in the past) gets the empty message, not the in-the-past message; and the
arrival time 2430000 (30 minutes and 30 seconds ahead) gets the empty message as well. -/
theorem getTimeValidationMessage_accepts_outside_window :
    (540000 : Int) < 600000 ∧
    getTimeValidationMessage 600000 (ArrivalTimeInput.time 540000) = "" ∧
    (600000 + 30 * 60 * 1000 : Int) < 2430000 ∧
    getTimeValidationMessage 600000 (ArrivalTimeInput.time 2430000) = "" :=
  ⟨by decide,
    (getTimeValidationMessage_cases 600000 540000).2.2 (by decide) (by decide),
    by decide,
    (getTimeValidationMessage_cases 600000 2430000).2.2 (by decide) (by decide)⟩

/-- Claim C14, amended: `getTimeValidationMessage` works in whole minutes with a tolerance
of two minutes in the past.  For a parsed arrival time `t` the message is empty if and only
if `now - 2 min ≤ t < now + 31 min`, so every `t` with `now ≤ t ≤ now + 30 min` is accepted;
every `t` earlier than `now - 2 min` gets "Arrival time cannot be in the past" and every `t`
from `now + 31 min` on gets the more-than-30-minutes message. -/
theorem getTimeValidationMessage_window (now t : Int) :
    (getTimeValidationMessage now (ArrivalTimeInput.time t) = "" ↔
      now - 120000 ≤ t ∧ t < now + 1860000) ∧
    (now ≤ t → t ≤ now + 1800000 →
      getTimeValidationMessage now (ArrivalTimeInput.time t) = "") ∧
    (t < now - 120000 →
      getTimeValidationMessage now (ArrivalTimeInput.time t) =
        "Arrival time cannot be in the past") ∧
    (now + 1860000 ≤ t →
      getTimeValidationMessage now (ArrivalTimeInput.time t) =
        "Arrival time cannot be more than 30 minutes from now") := by
  obtain ⟨hpast, hfar, hok⟩ := getTimeValidationMessage_cases now t
  refine ⟨⟨?_, ?_⟩, ?_, ?_, ?_⟩
  · intro hmsg
    by_contra hcon
    rcases lt_or_le (t - now) (-120000) with h1 | h1
    · rw [hpast h1] at hmsg
      exact absurd hmsg (by decide)
    · rcases lt_or_le (t - now) 1860000 with h2 | h2
      · exact hcon ⟨by omega, by omega⟩
      · rw [hfar h2] at hmsg
        exact absurd hmsg (by decide)
  · rintro ⟨h1, h2⟩
    exact hok (by omega) (by omega)
  · intro h1 h2
    exact hok (by omega) (by omega)
  · intro h
    exact hpast (by omega)
  · intro h
    exact hfar (by omega)

/-- Witness of the amended C14 with the clock at 600000 ms: five minutes ahead is accepted,
three minutes in the past and 31 minutes ahead are refused. -/
theorem getTimeValidationMessage_window_witness :
    getTimeValidationMessage 600000 (ArrivalTimeInput.time 900000) = "" ∧
    getTimeValidationMessage 600000 (ArrivalTimeInput.time 420000) =
      "Arrival time cannot be in the past" ∧
    getTimeValidationMessage 600000 (ArrivalTimeInput.time 2460000) =
      "Arrival time cannot be more than 30 minutes from now" :=
  ⟨(getTimeValidationMessage_window 600000 900000).2.1 (by decide) (by decide),
    (getTimeValidationMessage_window 600000 420000).2.2.1 (by decide),
    (getTimeValidationMessage_window 600000 2460000).2.2.2 (by decide)⟩

/-! ### The slot-status write -/

/-- Rows with another id are the same rows before and after the status update. -/
theorem mem_updateSlotStatus_of_ne (slots : List ParkingSlot) (id : Nat) (status : SlotStatus)
    (q : ParkingSlot) (hne : q.id ≠ id) :
    q ∈ updateSlotStatus slots id status ↔ q ∈ slots := by
  rw [mem_updateSlotStatus]
  constructor
  · rintro ⟨p, hp, rfl⟩
    by_cases hpid : p.id = id
    · simp [hpid] at hne
    · simpa [hpid] using hp
  · intro hq
    exact ⟨q, hq, by simp [hne]⟩

/-- An update that leaves every targeted row as it is leaves the table as it is. -/
theorem updateSlotStatus_eq_self (slots : List ParkingSlot) (id : Nat) (status : SlotStatus)
    (h : ∀ p ∈ slots, p.id = id → p.status = status) :
    updateSlotStatus slots id status = slots := by
  unfold updateSlotStatus
  conv_rhs => rw [← List.map_id slots]
  apply List.map_congr_left
  intro p hp
  by_cases hpid : p.id = id
  · have hst := h p hp hpid
    cases p
    simp_all
  · simp [hpid]

/-- Counterexample to C15 as stated: on the two-floor registry the write with id 2 and
status booked replaces the status occupied of slot 102, and the write with the unknown
id 99 returns the registry as it was. -/
theorem updateSlotStatus_overwrites_occupied :
    { id := 2, slot_number := "102", floor_number := 1, status := SlotStatus.occupied }
      ∈ twoFloorSlots ∧
    updateSlotStatus twoFloorSlots 2 SlotStatus.booked =
      [{ id := 4, slot_number := "201", floor_number := 2, status := SlotStatus.available },
       { id := 2, slot_number := "102", floor_number := 1, status := SlotStatus.booked },
       { id := 3, slot_number := "110", floor_number := 1, status := SlotStatus.available },
       { id := 5, slot_number := "103", floor_number := 1, status := SlotStatus.available }] ∧
    (∀ p ∈ twoFloorSlots, p.id ≠ 99) ∧
    updateSlotStatus twoFloorSlots 99 SlotStatus.booked = twoFloorSlots :=
  ⟨by decide, by decide, by decide, by decide⟩

/-- Claim C15, amended: the slot-reservation write is unconditional.  It gives every row
with the given id the new status whatever status the row had, keeps every other row, has no
conflict or not-found outcome, and with an id no row has it returns the table unchanged.
Inside an allocation it is issued for the id of the row the same handler just selected,
a row with status available. -/
theorem updateSlotStatus_unconditional (slots : List ParkingSlot) (id : Nat)
    (status : SlotStatus) :
    (∀ p ∈ slots, p.id = id → { p with status := status } ∈ updateSlotStatus slots id status) ∧
    (∀ q ∈ updateSlotStatus slots id status, q.id = id → q.status = status) ∧
    (∀ q : ParkingSlot, q.id ≠ id → (q ∈ updateSlotStatus slots id status ↔ q ∈ slots)) ∧
    ((∀ p ∈ slots, p.id ≠ id) → updateSlotStatus slots id status = slots) ∧
    (∀ (db : Db) (now : Int) (req : BookParkingRequest) (wreq : WalkinRequest)
        (slot : ParkingSlot),
      db.parking_slots = slots → selectFirstAvailable slots = some slot →
        slot ∈ slots ∧ slot.status = SlotStatus.available ∧
        (bookParking db now req).2.parking_slots =
          updateSlotStatus slots slot.id SlotStatus.booked ∧
        (walkinBooking db now wreq).2.parking_slots =
          updateSlotStatus slots slot.id SlotStatus.occupied) := by
  refine ⟨?_, ?_, ?_, ?_, ?_⟩
  · intro p hp hid
    exact (mem_updateSlotStatus _ _ _ _).mpr ⟨p, hp, by simp [hid]⟩
  · intro q hq hid
    obtain ⟨p, _, rfl⟩ := (mem_updateSlotStatus _ _ _ _).mp hq
    by_cases hp : p.id = id
    · simp [hp]
    · simp [hp] at hid
  · intro q hne
    exact mem_updateSlotStatus_of_ne slots id status q hne
  · intro h
    exact updateSlotStatus_eq_self slots id status (fun p hp hid => absurd hid (h p hp))
  · intro db now req wreq slot hdb hs
    subst hdb
    obtain ⟨hmem, hav, _⟩ := selectFirstAvailable_some db.parking_slots slot hs
    refine ⟨hmem, hav, ?_, ?_⟩
    · rw [bookParking_of_selected db now req slot hs]
    · rw [walkinBooking_of_selected db now wreq slot hs]

/-- Witness of the amended C15 on the two-floor registry: the occupied slot 102 is
overwritten, and an unknown id changes nothing. -/
theorem updateSlotStatus_unconditional_witness :
    ({ id := 2, slot_number := "102", floor_number := 1, status := SlotStatus.booked }
        : ParkingSlot) ∈ updateSlotStatus twoFloorSlots 2 SlotStatus.booked ∧
    updateSlotStatus twoFloorSlots 99 SlotStatus.booked = twoFloorSlots :=
  ⟨(updateSlotStatus_unconditional twoFloorSlots 2 SlotStatus.booked).1
      { id := 2, slot_number := "102", floor_number := 1, status := SlotStatus.occupied }
      (by decide) rfl,
    (updateSlotStatus_unconditional twoFloorSlots 99 SlotStatus.booked).2.2.2.1 (by decide)⟩

/-- Claim C16: releasing a slot is idempotent.  When every row with the id already has
status available, the release returns the slot table, and so the whole store, unchanged;
the function has no error outcome; and for every table and id, releasing twice gives the
same table as releasing once. -/
theorem release_idempotent (db : Db) (id : Nat) :
    ((∀ p ∈ db.parking_slots, p.id = id → p.status = SlotStatus.available) →
      updateSlotStatus db.parking_slots id SlotStatus.available = db.parking_slots ∧
      { db with parking_slots :=
          updateSlotStatus db.parking_slots id SlotStatus.available } = db) ∧
    updateSlotStatus (updateSlotStatus db.parking_slots id SlotStatus.available) id
        SlotStatus.available =
      updateSlotStatus db.parking_slots id SlotStatus.available := by
  constructor
  · intro h
    have h1 := updateSlotStatus_eq_self db.parking_slots id SlotStatus.available h
    refine ⟨h1, ?_⟩
    rw [h1]
  · apply updateSlotStatus_eq_self
    intro q hq hid
    obtain ⟨p, _, rfl⟩ := (mem_updateSlotStatus _ _ _ _).mp hq
    by_cases hp : p.id = id
    · simp [hp]
    · simp [hp] at hid

/-- Witness of C16: releasing the available slot 1 of the one-slot facility changes
nothing. -/
theorem release_idempotent_witness :
    updateSlotStatus oneSlotFacility.parking_slots 1 SlotStatus.available =
      oneSlotFacility.parking_slots ∧
    { oneSlotFacility with
      parking_slots :=
        updateSlotStatus oneSlotFacility.parking_slots 1 SlotStatus.available } =
      oneSlotFacility :=
  (release_idempotent oneSlotFacility 1).1 (by decide)

/-! ### Sequences of allocations -/

/-- The status update keeps the ids of the rows, in order. -/
theorem map_id_updateSlotStatus (slots : List ParkingSlot) (id : Nat) (status : SlotStatus) :
    (updateSlotStatus slots id status).map (fun p => p.id) = slots.map (fun p => p.id) := by
  unfold updateSlotStatus
  rw [List.map_map]
  apply List.map_congr_left
  intro p _
  by_cases hp : p.id = id <;> simp [hp]

/-- With unique ids, taking an available row out of the available ones lowers their number
by exactly one. -/
theorem availableCount_update (slots : List ParkingSlot) (slot : ParkingSlot)
    (status : SlotStatus) (hne : status ≠ SlotStatus.available)
    (hkey : (slots.map (fun p => p.id)).Nodup) (hmem : slot ∈ slots)
    (hav : slot.status = SlotStatus.available) :
    ((updateSlotStatus slots slot.id status).filter
        (fun p => p.status = SlotStatus.available)).length + 1 =
      (slots.filter (fun p => p.status = SlotStatus.available)).length := by
  induction slots with
  | nil => cases hmem
  | cons x t ih =>
    rw [List.map_cons, List.nodup_cons] at hkey
    by_cases hx : x.id = slot.id
    · have hxs : slot = x := by
        rcases List.mem_cons.mp hmem with h | h
        · exact h
        · have hin := List.mem_map_of_mem (fun p => p.id) h
          rw [show (fun p : ParkingSlot => p.id) slot = x.id from hx.symm] at hin
          exact absurd hin hkey.1
      subst hxs
      have ht : updateSlotStatus t slot.id status = t := by
        apply updateSlotStatus_eq_self
        intro p hp hid
        exact absurd (List.mem_map_of_mem (fun p => p.id) hp) (by
          rw [show (fun p : ParkingSlot => p.id) p = slot.id from hid]; exact hkey.1)
      have hcons : updateSlotStatus (slot :: t) slot.id status =
          { slot with status := status } :: t := by
        have : updateSlotStatus (slot :: t) slot.id status =
            (if slot.id = slot.id then { slot with status := status } else slot) ::
              updateSlotStatus t slot.id status := rfl
        rw [this, ht, if_pos rfl]
      rw [hcons, List.filter_cons_of_neg (by simpa using hne),
        List.filter_cons_of_pos (by simpa using hav)]
      rfl
    · have hin : slot ∈ t := by
        rcases List.mem_cons.mp hmem with h | h
        · exact absurd (by rw [h]) hx
        · exact h
      have hcons : updateSlotStatus (x :: t) slot.id status =
          x :: updateSlotStatus t slot.id status := by
        have : updateSlotStatus (x :: t) slot.id status =
            (if x.id = slot.id then { x with status := status } else x) ::
              updateSlotStatus t slot.id status := rfl
        rw [this, if_neg hx]
      rw [hcons]
      have ih2 := ih hkey.2 hin
      by_cases hxa : x.status = SlotStatus.available
      · rw [List.filter_cons_of_pos (by simpa using hxa),
          List.filter_cons_of_pos (by simpa using hxa), List.length_cons, List.length_cons]
        omega
      · rw [List.filter_cons_of_neg (by simpa using hxa),
          List.filter_cons_of_neg (by simpa using hxa)]
        exact ih2

/-- One allocation request: either no slot is available and the request is refused with
the store unchanged, or the selected available slot gets a status other than available and
one booking referencing it is appended. -/
theorem allocation_step (db : Db) (r : Request) (hr : isAllocation r = true) :
    (availableCount db = 0 ∧
      handle db r = (Response.error 400 "No parking slots available", db)) ∨
    (∃ (slot : ParkingSlot) (status : SlotStatus) (row : Booking),
      slot ∈ db.parking_slots ∧ slot.status = SlotStatus.available ∧
      status ≠ SlotStatus.available ∧ isCreated (handle db r).1 = true ∧
      isNoAvailability (handle db r).1 = false ∧
      (handle db r).2.parking_slots = updateSlotStatus db.parking_slots slot.id status ∧
      (handle db r).2.bookings = db.bookings ++ [row] ∧ row.slot_id = slot.id) := by
  cases hs : selectFirstAvailable db.parking_slots with
  | none =>
    left
    have hnone := (selectFirstAvailable_eq_none_iff db.parking_slots).mp hs
    have hcount : availableCount db = 0 := by
      unfold availableCount
      rw [List.length_eq_zero, List.filter_eq_nil_iff]
      intro p hp
      simpa using hnone p hp
    refine ⟨hcount, ?_⟩
    cases r with
    | bookParking now req => show bookParking db now req = _; unfold bookParking; rw [hs]
    | walkinBooking now req => show walkinBooking db now req = _; unfold walkinBooking; rw [hs]
    | completeBooking now id amount => cases hr
  | some slot =>
    right
    obtain ⟨hmem, hav, _⟩ := selectFirstAvailable_some db.parking_slots slot hs
    cases r with
    | bookParking now req =>
      have hrun : handle db (Request.bookParking now req) = _ :=
        bookParking_of_selected db now req slot hs
      have hrow : ∃ row : Booking,
          (handle db (Request.bookParking now req)).2.bookings = db.bookings ++ [row] ∧
          row.slot_id = slot.id := by
        rw [hrun]; exact ⟨_, rfl, rfl⟩
      obtain ⟨row, hb, hid⟩ := hrow
      exact ⟨slot, SlotStatus.booked, row, hmem, hav, by decide, by rw [hrun]; rfl,
        by rw [hrun]; rfl, by rw [hrun], hb, hid⟩
    | walkinBooking now req =>
      have hrun : handle db (Request.walkinBooking now req) = _ :=
        walkinBooking_of_selected db now req slot hs
      have hrow : ∃ row : Booking,
          (handle db (Request.walkinBooking now req)).2.bookings = db.bookings ++ [row] ∧
          row.slot_id = slot.id := by
        rw [hrun]; exact ⟨_, rfl, rfl⟩
      obtain ⟨row, hb, hid⟩ := hrow
      exact ⟨slot, SlotStatus.occupied, row, hmem, hav, by decide, by rw [hrun]; rfl,
        by rw [hrun]; rfl, by rw [hrun], hb, hid⟩
    | completeBooking now id amount => cases hr

/-- The store after `serveAll` is the store `runRequests` computes. -/
theorem serveAll_snd (rs : List Request) :
    ∀ db : Db, (serveAll db rs).2 = runRequests db rs := by
  induction rs with
  | nil => intro db; rfl
  | cons r rs ih =>
    intro db
    show (serveAll (handle db r).2 rs).2 = runRequests (handle db r).2 rs
    exact ih _

/-- Allocations served one after another, with unique slot ids: the number of 201 answers is
the smaller of the number of available slots and the number of requests, every other answer
is the no-availability error, and the bookings appended reference pairwise distinct slots
that were available at the start. -/
theorem serveAll_allocations (rs : List Request) :
    ∀ db : Db, SlotIdsUnique db → (∀ r ∈ rs, isAllocation r = true) →
      ((serveAll db rs).1.filter isCreated).length = min (availableCount db) rs.length ∧
      ((serveAll db rs).1.filter isNoAvailability).length =
        rs.length - min (availableCount db) rs.length ∧
      ∃ added : List Booking, (serveAll db rs).2.bookings = db.bookings ++ added ∧
        added.length = min (availableCount db) rs.length ∧
        (added.map (fun b => b.slot_id)).Nodup ∧
        ∀ b ∈ added, ∃ p ∈ db.parking_slots,
          p.id = b.slot_id ∧ p.status = SlotStatus.available := by
  induction rs with
  | nil =>
    intro db _ _
    refine ⟨by simp [serveAll], by simp [serveAll], [], by simp [serveAll], by simp,
      List.nodup_nil, ?_⟩
    intro b hb; cases hb
  | cons r rs ih =>
    intro db hkey halloc
    have hr : isAllocation r = true := halloc r (List.mem_cons_self _ _)
    have hrs : ∀ x ∈ rs, isAllocation x = true :=
      fun x hx => halloc x (List.mem_cons_of_mem _ hx)
    have hunf : serveAll db (r :: rs) =
        ((handle db r).1 :: (serveAll (handle db r).2 rs).1,
          (serveAll (handle db r).2 rs).2) := rfl
    rcases allocation_step db r hr with ⟨hzero, hrun⟩ | ⟨slot, status, row, hmem, hav, hne,
      hcr, hna, hslots, hbook, hrow⟩
    · obtain ⟨h1, h2, added, h3, h4, h5, h6⟩ := ih db hkey hrs
      rw [hunf, hrun]
      rw [hzero] at h1 h2 h4
      rw [hzero]
      refine ⟨?_, ?_, added, h3, ?_, h5, h6⟩
      · rw [List.filter_cons_of_neg
          (show ¬ isCreated (Response.error 400 "No parking slots available") = true by decide)]
        simpa using h1
      · rw [List.filter_cons_of_pos
          (show isNoAvailability (Response.error 400 "No parking slots available") = true
            by decide), List.length_cons, h2]
        simp
      · simpa using h4
    · have hkey1 : SlotIdsUnique (handle db r).2 := by
        unfold SlotIdsUnique
        rw [hslots, map_id_updateSlotStatus]
        exact hkey
      have hcount : availableCount (handle db r).2 + 1 = availableCount db := by
        unfold availableCount
        rw [hslots]
        exact availableCount_update db.parking_slots slot status hne hkey hmem hav
      obtain ⟨h1, h2, added, h3, h4, h5, h6⟩ := ih (handle db r).2 hkey1 hrs
      rw [hunf]
      have hav1 : ∀ b ∈ added, ∃ p ∈ db.parking_slots,
          p.id = b.slot_id ∧ p.status = SlotStatus.available ∧ p.id ≠ slot.id := by
        intro b hb
        obtain ⟨q, hq, hqid, hqs⟩ := h6 b hb
        rw [hslots] at hq
        obtain ⟨p, hp, rfl⟩ := (mem_updateSlotStatus _ _ _ _).mp hq
        by_cases hpid : p.id = slot.id
        · simp [hpid] at hqs
          exact absurd hqs hne
        · simp [hpid] at hqid hqs
          exact ⟨p, hp, hqid, hqs, hpid⟩
      refine ⟨?_, ?_, row :: added, ?_, ?_, ?_, ?_⟩
      · rw [List.filter_cons_of_pos hcr, List.length_cons, h1, List.length_cons]
        omega
      · rw [List.filter_cons_of_neg (by simp [hna]), h2, List.length_cons]
        omega
      · show (serveAll (handle db r).2 rs).2.bookings = _
        rw [h3, hbook, List.append_assoc]
        rfl
      · rw [List.length_cons, h4, List.length_cons]
        omega
      · rw [List.map_cons, List.nodup_cons]
        refine ⟨?_, h5⟩
        intro hin
        obtain ⟨b, hb, hbid⟩ := List.mem_map.mp hin
        obtain ⟨p, _, hpid, _, hpne⟩ := hav1 b hb
        exact hpne (by rw [hpid, hbid, hrow])
      · intro b hb
        rcases List.mem_cons.mp hb with rfl | hb
        · exact ⟨slot, hmem, hrow.symm, hav⟩
        · obtain ⟨p, hp, hpid, hps, _⟩ := hav1 b hb
          exact ⟨p, hp, hpid, hps⟩

/-- Claim C17: on a facility with unique slot ids and exactly `K` available slots, `N > K`
allocation requests (scheduled or walk-in in any mix) served one after another get exactly
`K` answers 201 and `N - K` answers 400 "No parking slots available"; the `K` bookings
appended reference `K` pairwise distinct slots, each available at the start. -/
theorem sequential_allocations (db : Db) (rs : List Request) (hkey : SlotIdsUnique db)
    (halloc : ∀ r ∈ rs, isAllocation r = true) (hN : availableCount db < rs.length) :
    ((serveAll db rs).1.filter isCreated).length = availableCount db ∧
    ((serveAll db rs).1.filter
        (fun r => r = Response.error 400 "No parking slots available")).length =
      rs.length - availableCount db ∧
    (serveAll db rs).1.length = rs.length ∧
    ∃ added : List Booking, (serveAll db rs).2.bookings = db.bookings ++ added ∧
      added.length = availableCount db ∧
      (added.map (fun b => b.slot_id)).Nodup ∧
      ∀ b ∈ added, ∃ p ∈ db.parking_slots,
        p.id = b.slot_id ∧ p.status = SlotStatus.available := by
  obtain ⟨h1, h2, added, h3, h4, h5, h6⟩ := serveAll_allocations rs db hkey halloc
  have hmin : min (availableCount db) rs.length = availableCount db :=
    min_eq_left (le_of_lt hN)
  rw [hmin] at h1 h2 h4
  have hlen : ∀ (l : List Request) (d : Db), (serveAll d l).1.length = l.length := by
    intro l
    induction l with
    | nil => intro d; rfl
    | cons x t ih =>
      intro d
      show ((handle d x).1 :: (serveAll (handle d x).2 t).1).length = (x :: t).length
      rw [List.length_cons, List.length_cons, ih]
  refine ⟨h1, ?_, hlen rs db, added, h3, h4, h5, h6⟩
  have hfun : (fun r : Response =>
      decide (r = Response.error 400 "No parking slots available")) = isNoAvailability := rfl
  rw [hfun]
  exact h2

/-- Witness of C17: four allocations on the two-floor facility with three available slots
get three answers 201 and one no-availability answer. -/
theorem sequential_allocations_witness :
    ((serveAll twoFloorFacility fourAllocations).1.filter isCreated).length = 3 ∧
    ((serveAll twoFloorFacility fourAllocations).1.filter
        (fun r => r = Response.error 400 "No parking slots available")).length = 1 ∧
    (serveAll twoFloorFacility fourAllocations).2.bookings.map (fun b => b.slot_id) =
      [5, 3, 4] :=
  ⟨(sequential_allocations twoFloorFacility fourAllocations (by decide) (by decide)
      (by decide)).1,
    (sequential_allocations twoFloorFacility fourAllocations (by decide) (by decide)
      (by decide)).2.1,
    by decide⟩

/-! ### Completed amounts -/

/-- A row of the bookings table after a scheduled allocation is an old row or a new
pending row. -/
theorem mem_bookings_bookParking (db : Db) (now : Int) (req : BookParkingRequest) (b : Booking)
    (hb : b ∈ (bookParking db now req).2.bookings) :
    b ∈ db.bookings ∨ b.payment_status = PaymentStatus.pending := by
  cases hs : selectFirstAvailable db.parking_slots with
  | none =>
    unfold bookParking at hb
    rw [hs] at hb
    exact Or.inl hb
  | some slot =>
    rw [bookParking_of_selected db now req slot hs] at hb
    rcases List.mem_append.mp hb with h | h
    · exact Or.inl h
    · right
      rw [List.mem_singleton.mp h]

/-- A row of the bookings table after a walk-in allocation is an old row or a new
active row. -/
theorem mem_bookings_walkinBooking (db : Db) (now : Int) (req : WalkinRequest) (b : Booking)
    (hb : b ∈ (walkinBooking db now req).2.bookings) :
    b ∈ db.bookings ∨ b.payment_status = PaymentStatus.active := by
  cases hs : selectFirstAvailable db.parking_slots with
  | none =>
    unfold walkinBooking at hb
    rw [hs] at hb
    exact Or.inl hb
  | some slot =>
    rw [walkinBooking_of_selected db now req slot hs] at hb
    rcases List.mem_append.mp hb with h | h
    · exact Or.inl h
    · right
      rw [List.mem_singleton.mp h]

/-! ### Failing statements -/

/-- The scheduled allocation with failing statements either behaves as the handler without
failures, or answers 500 with both tables as before the call. -/
theorem bookParkingTx_cases (failAt : Option Nat) (db : Db) (now : Int)
    (req : BookParkingRequest) :
    bookParkingTx failAt db now req = bookParking db now req ∨
    ((bookParkingTx failAt db now req).1 = Response.error 500 "Database error" ∧
      (bookParkingTx failAt db now req).2.parking_slots = db.parking_slots ∧
      (bookParkingTx failAt db now req).2.bookings = db.bookings) := by
  by_cases h0 : failAt = some 0
  · right
    simp [bookParkingTx, h0, databaseError, rollback, beginTransaction]
  · cases hs : selectFirstAvailable db.parking_slots with
    | none =>
      left
      simp [bookParkingTx, h0, beginTransaction, hs, rollback, bookParking]
    | some slot =>
      by_cases h1 : failAt = some 1
      · right
        simp [bookParkingTx, h1, hs, runStatement, databaseError, rollback, beginTransaction]
      · by_cases h2 : failAt = some 2
        · right
          simp [bookParkingTx, h2, hs, runStatement, databaseError, rollback,
            beginTransaction]
        · by_cases h3 : failAt = some 3
          · right
            simp [bookParkingTx, h3, hs, runStatement, databaseError, rollback,
              beginTransaction]
          · left
            rw [bookParking_of_selected db now req slot hs]
            simp [bookParkingTx, h0, h1, h2, h3, hs, runStatement, beginTransaction, commit]

/-- The walk-in allocation with failing statements either behaves as the handler without
failures, or answers 500 with both tables as before the call. -/
theorem walkinBookingTx_cases (failAt : Option Nat) (db : Db) (now : Int)
    (req : WalkinRequest) :
    walkinBookingTx failAt db now req = walkinBooking db now req ∨
    ((walkinBookingTx failAt db now req).1 = Response.error 500 "Database error" ∧
      (walkinBookingTx failAt db now req).2.parking_slots = db.parking_slots ∧
      (walkinBookingTx failAt db now req).2.bookings = db.bookings) := by
  by_cases h0 : failAt = some 0
  · right
    simp [walkinBookingTx, h0, databaseError, rollback, beginTransaction]
  · cases hs : selectFirstAvailable db.parking_slots with
    | none =>
      left
      simp [walkinBookingTx, h0, beginTransaction, hs, rollback, walkinBooking]
    | some slot =>
      by_cases h1 : failAt = some 1
      · right
        simp [walkinBookingTx, h1, hs, runStatement, databaseError, rollback,
          beginTransaction]
      · by_cases h2 : failAt = some 2
        · right
          simp [walkinBookingTx, h2, hs, runStatement, databaseError, rollback,
            beginTransaction]
        · by_cases h3 : failAt = some 3
          · right
            simp [walkinBookingTx, h3, hs, runStatement, databaseError, rollback,
              beginTransaction]
          · left
            rw [walkinBooking_of_selected db now req slot hs]
            simp [walkinBookingTx, h0, h1, h2, h3, hs, runStatement, beginTransaction, commit]

/-- The completion with failing statements either behaves as the handler without failures,
or answers 500 with the store as before the call. -/
theorem completeBookingTx_cases (failAt : Option Nat) (db : Db) (now : Int) (id : Nat)
    (amount : ℚ) :
    completeBookingTx failAt db now id amount = completeBooking db now id amount ∨
    completeBookingTx failAt db now id amount = (Response.error 500 "Database error", db) := by
  by_cases h0 : failAt = some 0
  · right
    simp [completeBookingTx, h0, databaseError, rollback, beginTransaction]
  · cases hf : db.bookings.find? (fun b => b.id = id) with
    | none =>
      left
      simp [completeBookingTx, h0, beginTransaction, hf, rollback, completeBooking]
    | some booking =>
      by_cases h1 : failAt = some 1
      · right
        simp [completeBookingTx, h1, hf, runStatement, databaseError, rollback,
          beginTransaction]
      · by_cases h2 : failAt = some 2
        · right
          simp [completeBookingTx, h2, hf, runStatement, databaseError, rollback,
            beginTransaction]
        · by_cases h3 : failAt = some 3
          · right
            simp [completeBookingTx, h3, hf, runStatement, databaseError, rollback,
              beginTransaction]
          · left
            simp [completeBookingTx, completeBooking, h0, h1, h2, h3, hf, runStatement,
              beginTransaction, commit]

/-- With no failing statement the handlers with transaction calls are the handlers of the
sections above. -/
theorem handlersTx_none (db : Db) (now : Int) (req : BookParkingRequest)
    (wreq : WalkinRequest) (id : Nat) (amount : ℚ) :
    bookParkingTx none db now req = bookParking db now req ∧
    walkinBookingTx none db now wreq = walkinBooking db now wreq ∧
    completeBookingTx none db now id amount = completeBooking db now id amount := by
  refine ⟨?_, ?_, ?_⟩
  · cases hs : selectFirstAvailable db.parking_slots with
    | none => simp [bookParkingTx, beginTransaction, hs, rollback, bookParking]
    | some slot =>
      rw [bookParking_of_selected db now req slot hs]
      simp [bookParkingTx, hs, runStatement, beginTransaction, commit]
  · cases hs : selectFirstAvailable db.parking_slots with
    | none => simp [walkinBookingTx, beginTransaction, hs, rollback, walkinBooking]
    | some slot =>
      rw [walkinBooking_of_selected db now wreq slot hs]
      simp [walkinBookingTx, hs, runStatement, beginTransaction, commit]
  · cases hf : db.bookings.find? (fun b => b.id = id) with
    | none => simp [completeBookingTx, beginTransaction, hf, rollback, completeBooking]
    | some booking =>
      simp [completeBookingTx, completeBooking, hf, runStatement, beginTransaction, commit]

/-- Claim C20: allocation and completion are atomic on failure.  Whichever statement of the
transaction throws, each handler either does all of its work or answers 500
"Database error" with both tables as before the call.  In particular, when a write of an
allocation that found a slot throws (the slot update, or the booking insert after the slot
update succeeded), and when a write of a completion that found its booking throws, the
answer is 500 and the store is the store before the call. -/
theorem handlers_atomic_on_failure (failAt : Option Nat) (db : Db) (now : Int)
    (req : BookParkingRequest) (wreq : WalkinRequest) (id : Nat) (amount : ℚ) :
    (bookParkingTx failAt db now req = bookParking db now req ∨
      ((bookParkingTx failAt db now req).1 = Response.error 500 "Database error" ∧
        (bookParkingTx failAt db now req).2.parking_slots = db.parking_slots ∧
        (bookParkingTx failAt db now req).2.bookings = db.bookings)) ∧
    (walkinBookingTx failAt db now wreq = walkinBooking db now wreq ∨
      ((walkinBookingTx failAt db now wreq).1 = Response.error 500 "Database error" ∧
        (walkinBookingTx failAt db now wreq).2.parking_slots = db.parking_slots ∧
        (walkinBookingTx failAt db now wreq).2.bookings = db.bookings)) ∧
    (completeBookingTx failAt db now id amount = completeBooking db now id amount ∨
      completeBookingTx failAt db now id amount =
        (Response.error 500 "Database error", db)) ∧
    ((∃ p ∈ db.parking_slots, p.status = SlotStatus.available) →
      ∀ k : Nat, k = 1 ∨ k = 2 →
        bookParkingTx (some k) db now req = (Response.error 500 "Database error", db) ∧
        walkinBookingTx (some k) db now wreq = (Response.error 500 "Database error", db)) ∧
    ((∃ b ∈ db.bookings, b.id = id) →
      ∀ k : Nat, k = 1 ∨ k = 2 →
        completeBookingTx (some k) db now id amount =
          (Response.error 500 "Database error", db)) := by
  refine ⟨bookParkingTx_cases failAt db now req, walkinBookingTx_cases failAt db now wreq,
    completeBookingTx_cases failAt db now id amount, ?_, ?_⟩
  · intro h k hk
    obtain ⟨slot, hs⟩ := selectFirstAvailable_isSome db.parking_slots h
    constructor
    · rcases hk with rfl | rfl <;>
        simp [bookParkingTx, hs, runStatement, databaseError, rollback, beginTransaction]
    · rcases hk with rfl | rfl <;>
        simp [walkinBookingTx, hs, runStatement, databaseError, rollback, beginTransaction]
  · rintro ⟨b, hb, hid⟩ k hk
    cases hf : db.bookings.find? (fun c => c.id = id) with
    | none =>
      rw [List.find?_eq_none] at hf
      exact absurd hid (by simpa using hf b hb)
    | some booking =>
      rcases hk with rfl | rfl <;>
        simp [completeBookingTx, hf, runStatement, databaseError, rollback, beginTransaction]

/-- Witness of C20: on the two-floor facility the booking insert throws after the slot
update succeeded, and on the full one-slot facility the slot release throws after the
booking update succeeded; both calls answer 500 and return the store they were given. -/
theorem handlers_atomic_on_failure_witness :
    bookParkingTx (some 2) twoFloorFacility 5 sampleBookRequest =
      (Response.error 500 "Database error", twoFloorFacility) ∧
    completeBookingTx (some 2) fullFacility 9 1 150 =
      (Response.error 500 "Database error", fullFacility) :=
  ⟨((handlers_atomic_on_failure (some 2) twoFloorFacility 5 sampleBookRequest
        sampleWalkinRequest 1 150).2.2.2.1 (by decide) 2 (Or.inr rfl)).1,
    (handlers_atomic_on_failure (some 2) fullFacility 9 sampleBookRequest
        sampleWalkinRequest 1 150).2.2.2.2 (by decide) 2 (Or.inr rfl)⟩

/-! ### Aggregate availability -/

/-- The three status counts of a slot table add up to its length. -/
theorem countStatus_sum (slots : List ParkingSlot) :
    countStatus slots SlotStatus.available + countStatus slots SlotStatus.booked +
      countStatus slots SlotStatus.occupied = slots.length := by
  unfold countStatus
  induction slots with
  | nil => rfl
  | cons p t ih =>
    cases hp : p.status <;> simp [List.filter_cons, hp] <;> omega

/-- Claim C23: for every slot registry both availability computations report the number of
slots as total and, as available, booked and occupied, the numbers of slots with that
status; total is the sum of the three; and the published snapshot equals the answer of
`GET /api/availability`. -/
theorem availability_counts (db : Db) :
    (getAvailability db).total = db.parking_slots.length ∧
    (getAvailability db).available =
      db.parking_slots.countP (fun p => p.status = SlotStatus.available) ∧
    (getAvailability db).booked =
      db.parking_slots.countP (fun p => p.status = SlotStatus.booked) ∧
    (getAvailability db).occupied =
      db.parking_slots.countP (fun p => p.status = SlotStatus.occupied) ∧
    (getAvailability db).total =
      (getAvailability db).available + (getAvailability db).booked +
        (getAvailability db).occupied ∧
    emitBuildingUpdates db = getAvailability db := by
  refine ⟨rfl, ?_, ?_, ?_, ?_, rfl⟩
  · show countStatus db.parking_slots SlotStatus.available = _
    unfold countStatus; rw [List.countP_eq_length_filter]
  · show countStatus db.parking_slots SlotStatus.booked = _
    unfold countStatus; rw [List.countP_eq_length_filter]
  · show countStatus db.parking_slots SlotStatus.occupied = _
    unfold countStatus; rw [List.countP_eq_length_filter]
  · show db.parking_slots.length =
      countStatus db.parking_slots SlotStatus.available +
        countStatus db.parking_slots SlotStatus.booked +
        countStatus db.parking_slots SlotStatus.occupied
    exact (countStatus_sum db.parking_slots).symm

/-! ### Street parking -/

/-- The element that `findIdx?` points at splits the list: nothing before it satisfies the
test, and `modify` at that index changes this element only. -/
theorem findIdx?_modify_split {α : Type} (p : α → Bool) (f : α → α) :
    ∀ (xs : List α) (i : Nat), xs.findIdx? p = some i →
      ∃ (l₁ : List α) (a : α) (l₂ : List α), xs = l₁ ++ a :: l₂ ∧ p a = true ∧
        (∀ s ∈ l₁, p s = false) ∧ xs.modify f i = l₁ ++ f a :: l₂ := by
  intro xs
  induction xs with
  | nil => intro i h; simp at h
  | cons x t ih =>
    intro i h
    rw [List.findIdx?_cons] at h
    by_cases hx : p x = true
    · rw [if_pos hx] at h
      have hi : i = 0 := by simpa using h.symm
      subst hi
      exact ⟨[], x, t, rfl, hx, by simp, rfl⟩
    · rw [if_neg hx, List.findIdx?_succ] at h
      cases ht : t.findIdx? p with
      | none => rw [ht] at h; simp at h
      | some j =>
        rw [ht] at h
        have hi : i = j + 1 := by simpa using h.symm
        subst hi
        obtain ⟨l₁, a, l₂, h1, h2, h3, h4⟩ := ih j ht
        refine ⟨x :: l₁, a, l₂, by rw [h1]; rfl, h2, ?_, ?_⟩
        · intro s hs
          rcases List.mem_cons.mp hs with rfl | hs
          · simpa using hx
          · exact h3 s hs
        · rw [List.modify_succ_cons, h4]; rfl

/-- Claim C24: setting street-slot occupancy answers with an error if and only if the given
status is neither "available" nor "occupied" or no street slot has the display number; the
first case is the 400 answer, the second the 404 answer, and with an error answer the
street-slot store is returned unchanged. -/
theorem putSlot_fails_iff (store : StreetStore) (now : Int) (slotNumber status : String) :
    ((putSlot store now slotNumber status).1.isError = true ↔
      (¬ (status = "available" ∨ status = "occupied") ∨
        ∀ s ∈ store.slots, s.slot_number ≠ slotNumber)) ∧
    (¬ (status = "available" ∨ status = "occupied") →
      (putSlot store now slotNumber status).1 =
        StreetResponse.error 400 "Status must be 'available' or 'occupied'" status) ∧
    ((status = "available" ∨ status = "occupied") →
      (∀ s ∈ store.slots, s.slot_number ≠ slotNumber) →
      (putSlot store now slotNumber status).1 =
        StreetResponse.error 404 "Street parking slot not found" slotNumber) ∧
    ((putSlot store now slotNumber status).1.isError = true →
      (putSlot store now slotNumber status).2 = store) := by
  by_cases hlegal : status = "available" ∨ status = "occupied"
  · cases store with
    | inMemory slots =>
      cases hf : slots.findIdx? (fun slot => decide (slot.slot_number = slotNumber)) with
      | none =>
        have habs : ∀ s ∈ slots, s.slot_number ≠ slotNumber := by
          intro s hs
          simpa using (List.findIdx?_eq_none_iff.mp hf) s hs
        have hrun : putSlot (StreetStore.inMemory slots) now slotNumber status =
            (StreetResponse.error 404 "Street parking slot not found" slotNumber,
              StreetStore.inMemory slots) := by
          unfold putSlot; rw [if_neg (not_not.mpr hlegal)]; simp only [hf]
        rw [hrun]
        exact ⟨⟨fun _ => Or.inr habs, fun _ => rfl⟩, fun h => absurd hlegal h,
          fun _ _ => rfl, fun _ => rfl⟩
      | some i =>
        obtain ⟨l₁, a, l₂, h1, h2, _, _⟩ :=
          findIdx?_modify_split (fun slot => decide (slot.slot_number = slotNumber)) id
            slots i hf
        have hpres : ¬ ∀ s ∈ StreetStore.slots (StreetStore.inMemory slots),
            s.slot_number ≠ slotNumber := by
          intro hall
          exact hall a (by show a ∈ slots; rw [h1]; simp) (by simpa using h2)
        have hok : (putSlot (StreetStore.inMemory slots) now slotNumber status).1.isError
            = false := by
          unfold putSlot; rw [if_neg (not_not.mpr hlegal)]; simp only [hf]; rfl
        rw [hok]
        refine ⟨⟨fun h => Bool.noConfusion h, ?_⟩, fun h => absurd hlegal h,
          fun _ h => absurd h hpres, fun h => Bool.noConfusion h⟩
        intro h
        rcases h with h | h
        · exact absurd hlegal h
        · exact absurd h hpres
    | database rows =>
      cases hf : rows.find? (fun row => decide (row.slot_number = slotNumber)) with
      | none =>
        have habs : ∀ s ∈ rows, s.slot_number ≠ slotNumber := by
          intro s hs
          simpa using (List.find?_eq_none.mp hf) s hs
        have hrun : putSlot (StreetStore.database rows) now slotNumber status =
            (StreetResponse.error 404 "Street parking slot not found" slotNumber,
              StreetStore.database rows) := by
          unfold putSlot; rw [if_neg (not_not.mpr hlegal)]; simp only [hf]
        rw [hrun]
        exact ⟨⟨fun _ => Or.inr habs, fun _ => rfl⟩, fun h => absurd hlegal h,
          fun _ _ => rfl, fun _ => rfl⟩
      | some a =>
        have hpres : ¬ ∀ s ∈ StreetStore.slots (StreetStore.database rows),
            s.slot_number ≠ slotNumber := by
          intro hall
          exact hall a (List.mem_of_find?_eq_some hf)
            (by simpa using List.find?_some hf)
        have hok : (putSlot (StreetStore.database rows) now slotNumber status).1.isError
            = false := by
          unfold putSlot; rw [if_neg (not_not.mpr hlegal)]; simp only [hf]; rfl
        rw [hok]
        refine ⟨⟨fun h => Bool.noConfusion h, ?_⟩, fun h => absurd hlegal h,
          fun _ h => absurd h hpres, fun h => Bool.noConfusion h⟩
        intro h
        rcases h with h | h
        · exact absurd hlegal h
        · exact absurd h hpres
  · have hrun : putSlot store now slotNumber status =
        (StreetResponse.error 400 "Status must be 'available' or 'occupied'" status,
          store) := by
      unfold putSlot; rw [if_pos hlegal]
    rw [hrun]
    exact ⟨⟨fun _ => Or.inl hlegal, fun _ => rfl⟩, fun _ => rfl,
      fun h => absurd h hlegal, fun _ => rfl⟩

/-- Witness of C24 on the three in-memory slots: the status "free" is refused with 400, the
unknown slot "A9" with 404, and the store is returned as it was. -/
theorem putSlot_fails_iff_witness :
    (putSlot (StreetStore.inMemory sampleStreetSlots) 7 "A1" "free").1 =
      StreetResponse.error 400 "Status must be 'available' or 'occupied'" "free" ∧
    (putSlot (StreetStore.inMemory sampleStreetSlots) 7 "A9" "occupied").1 =
      StreetResponse.error 404 "Street parking slot not found" "A9" ∧
    (putSlot (StreetStore.inMemory sampleStreetSlots) 7 "A9" "occupied").2 =
      StreetStore.inMemory sampleStreetSlots :=
  ⟨(putSlot_fails_iff (StreetStore.inMemory sampleStreetSlots) 7 "A1" "free").2.1
      (by decide),
    (putSlot_fails_iff (StreetStore.inMemory sampleStreetSlots) 7 "A9" "occupied").2.2.1
      (by decide) (by decide),
    (putSlot_fails_iff (StreetStore.inMemory sampleStreetSlots) 7 "A9" "occupied").2.2.2
      (by decide)⟩

/-- Claim C25: on an in-memory street-slot list that holds the display number, with a legal
status, the update answers with success and returns the list with one element replaced:
the first slot with that display number gets the given status, the flag `occupied` equal to
(status = "occupied") and the new time, and keeps its id and display number; every slot
before and after it is the same, so length and order are kept.  If the flag agreed with
the status for every slot before, it does after. -/
theorem putSlot_inMemory_frame (slots : List StreetSlot) (now : Int)
    (slotNumber status : String) (hlegal : status = "available" ∨ status = "occupied")
    (hpresent : ∃ s ∈ slots, s.slot_number = slotNumber) :
    ∃ (l₁ : List StreetSlot) (old : StreetSlot) (l₂ : List StreetSlot),
      slots = l₁ ++ old :: l₂ ∧ old.slot_number = slotNumber ∧
      (∀ s ∈ l₁, s.slot_number ≠ slotNumber) ∧
      putSlot (StreetStore.inMemory slots) now slotNumber status =
        (StreetResponse.updated ("Slot " ++ slotNumber ++ " status updated to " ++ status)
            slotNumber status (decide (status = "occupied")) now,
          StreetStore.inMemory (l₁ ++
            { id := old.id, slot_number := old.slot_number, status := status,
              occupied := decide (status = "occupied"), last_updated := now } :: l₂)) ∧
      (putSlot (StreetStore.inMemory slots) now slotNumber status).2.slots.length =
        slots.length ∧
      ((∀ s ∈ slots, (s.occupied = true ↔ s.status = "occupied")) →
        ∀ s ∈ (putSlot (StreetStore.inMemory slots) now slotNumber status).2.slots,
          (s.occupied = true ↔ s.status = "occupied")) := by
  cases hf : slots.findIdx? (fun slot => decide (slot.slot_number = slotNumber)) with
  | none =>
    obtain ⟨s, hs, hn⟩ := hpresent
    have := (List.findIdx?_eq_none_iff.mp hf) s hs
    simp [hn] at this
  | some i =>
    obtain ⟨l₁, old, l₂, h1, h2, h3, h4⟩ :=
      findIdx?_modify_split (fun slot => decide (slot.slot_number = slotNumber))
        (fun old => { old with status := status, occupied := decide (status = "occupied"),
                               last_updated := now }) slots i hf
    have hrun : putSlot (StreetStore.inMemory slots) now slotNumber status =
        (StreetResponse.updated ("Slot " ++ slotNumber ++ " status updated to " ++ status)
            slotNumber status (decide (status = "occupied")) now,
          StreetStore.inMemory (l₁ ++
            { id := old.id, slot_number := old.slot_number, status := status,
              occupied := decide (status = "occupied"), last_updated := now } :: l₂)) := by
      unfold putSlot
      rw [if_neg (not_not.mpr hlegal)]
      simp only [hf]
      rw [h4]
    refine ⟨l₁, old, l₂, h1, by simpa using h2, ?_, hrun, ?_, ?_⟩
    · intro s hs
      simpa using h3 s hs
    · rw [hrun, h1]
      simp [StreetStore.slots]
    · intro hinv s hs
      rw [hrun] at hs
      have hs2 : s ∈ l₁ ++
          { id := old.id, slot_number := old.slot_number, status := status,
            occupied := decide (status = "occupied"), last_updated := now } :: l₂ := hs
      rcases List.mem_append.mp hs2 with h | h
      · exact hinv s (by rw [h1]; exact List.mem_append_left _ h)
      · rcases List.mem_cons.mp h with rfl | h
        · simp
        · exact hinv s (by
            rw [h1]; exact List.mem_append_right _ (List.mem_cons_of_mem _ h))

/-- Witness of C25: slot A2 of the three in-memory slots is reported occupied at time 7. -/
theorem putSlot_inMemory_frame_witness :
    ∃ (l₁ : List StreetSlot) (old : StreetSlot) (l₂ : List StreetSlot),
      sampleStreetSlots = l₁ ++ old :: l₂ ∧ old.slot_number = "A2" ∧
      (∀ s ∈ l₁, s.slot_number ≠ "A2") ∧
      putSlot (StreetStore.inMemory sampleStreetSlots) 7 "A2" "occupied" =
        (StreetResponse.updated ("Slot " ++ "A2" ++ " status updated to " ++ "occupied")
            "A2" "occupied" (decide ("occupied" = "occupied")) 7,
          StreetStore.inMemory (l₁ ++
            { id := old.id, slot_number := old.slot_number, status := "occupied",
              occupied := decide ("occupied" = "occupied"), last_updated := 7 } :: l₂)) :=
  match putSlot_inMemory_frame sampleStreetSlots 7 "A2" "occupied" (Or.inr rfl)
      (by decide) with
  | ⟨l₁, old, l₂, h1, h2, h3, h4, _⟩ => ⟨l₁, old, l₂, h1, h2, h3, h4⟩

/-! ### Floor-based booking surface -/

/-- A booking row is in the table after the cancellation statement when it is the image of
a row of the table before. -/
theorem mem_markCancelled (bookings : List FloorBooking) (bookingId : String)
    (c : FloorBooking) :
    c ∈ markCancelled bookings bookingId ↔
      ∃ b ∈ bookings,
        c = if b.booking_id = bookingId then { b with status := "cancelled" } else b := by
  unfold markCancelled
  rw [List.mem_map]
  constructor
  · rintro ⟨b, hb, rfl⟩; exact ⟨b, hb, rfl⟩
  · rintro ⟨b, hb, rfl⟩; exact ⟨b, hb, rfl⟩

/-- A floor row is in the table after the counter statement when it is the image of a row
of the table before. -/
theorem mem_addAvailableSlots (floors : List ParkingFloor) (floorId : Nat) (step : Int)
    (g : ParkingFloor) :
    g ∈ addAvailableSlots floors floorId step ↔
      ∃ f ∈ floors,
        g = if f.id = floorId then { f with available_slots := f.available_slots + step }
            else f := by
  unfold addAvailableSlots
  rw [List.mem_map]
  constructor
  · rintro ⟨f, hf, rfl⟩; exact ⟨f, hf, rfl⟩
  · rintro ⟨f, hf, rfl⟩; exact ⟨f, hf, rfl⟩

/-- Claim C21: cancelling the booking that the handler finds for the id answers with
success; every booking with that id has status cancelled afterwards, so it no longer blocks
its slot for any interval; the counter of the floor of the booking is raised by exactly
one; every booking with another id, every other floor and every slot row are unchanged.
With an id that no booking has, the answer is 404 "Booking not found" and the store is
unchanged. -/
theorem cancelBooking_effect (db : FloorDb) (bookingId : String) :
    (∀ b : FloorBooking, db.bookings.find? (fun c => c.booking_id = bookingId) = some b →
      (cancelBooking db bookingId).1 = FloorResponse.ok "Booking cancelled successfully" ∧
      { b with status := "cancelled" } ∈ (cancelBooking db bookingId).2.bookings ∧
      (∀ c ∈ (cancelBooking db bookingId).2.bookings, c.booking_id = bookingId →
        c.status = "cancelled") ∧
      (∀ (floorId : Nat) (startTime endTime : Int),
        blockedSlotIds (cancelBooking db bookingId).2 floorId startTime endTime =
          ((cancelBooking db bookingId).2.bookings.filter (fun c =>
            c.booking_id ≠ bookingId ∧
            c.floor_id = floorId ∧ (c.status = "pending" ∨ c.status = "confirmed") ∧
            ((c.start_time ≤ startTime ∧ c.end_time > startTime) ∨
              (c.start_time < endTime ∧ c.end_time ≥ endTime)))).map
            (fun c => c.slot_id.getD 0)) ∧
      (∀ c : FloorBooking, c.booking_id ≠ bookingId →
        (c ∈ (cancelBooking db bookingId).2.bookings ↔ c ∈ db.bookings)) ∧
      (cancelBooking db bookingId).2.bookings.length = db.bookings.length ∧
      (∀ f ∈ db.parking_floors, f.id = b.floor_id →
        { f with available_slots := f.available_slots + 1 } ∈
          (cancelBooking db bookingId).2.parking_floors) ∧
      (∀ g ∈ (cancelBooking db bookingId).2.parking_floors, g.id = b.floor_id →
        ∃ f ∈ db.parking_floors, f.id = b.floor_id ∧ g.total_slots = f.total_slots ∧
          g.available_slots = f.available_slots + 1) ∧
      (∀ g : ParkingFloor, g.id ≠ b.floor_id →
        (g ∈ (cancelBooking db bookingId).2.parking_floors ↔ g ∈ db.parking_floors)) ∧
      (cancelBooking db bookingId).2.parking_floors.length = db.parking_floors.length ∧
      (cancelBooking db bookingId).2.parking_slots = db.parking_slots) ∧
    ((∀ c ∈ db.bookings, c.booking_id ≠ bookingId) →
      cancelBooking db bookingId = (FloorResponse.error 404 "Booking not found", db)) := by
  constructor
  · intro b hf
    have hrun : cancelBooking db bookingId =
        (FloorResponse.ok "Booking cancelled successfully",
          { db with
            bookings := markCancelled db.bookings bookingId,
            parking_floors := addAvailableSlots db.parking_floors b.floor_id 1 }) := by
      unfold cancelBooking; rw [hf]
    have hb : b ∈ db.bookings := List.mem_of_find?_eq_some hf
    have hbid : b.booking_id = bookingId := by simpa using List.find?_some hf
    rw [hrun]
    refine ⟨rfl, ?_, ?_, ?_, ?_, ?_, ?_, ?_, ?_, ?_, rfl⟩
    · exact (mem_markCancelled _ _ _).mpr ⟨b, hb, by simp [hbid]⟩
    · intro c hc hid
      obtain ⟨d, _, rfl⟩ := (mem_markCancelled _ _ _).mp hc
      by_cases hd : d.booking_id = bookingId
      · simp [hd]
      · simp [hd] at hid
    · intro floorId startTime endTime
      unfold blockedSlotIds
      congr 1
      apply List.filter_congr
      intro c hc
      obtain ⟨d, _, rfl⟩ := (mem_markCancelled _ _ _).mp hc
      by_cases hd : d.booking_id = bookingId
      · simp [hd]
      · simp [hd]
    · intro c hne
      constructor
      · intro hc
        obtain ⟨d, hd, rfl⟩ := (mem_markCancelled _ _ _).mp hc
        by_cases hdb : d.booking_id = bookingId
        · simp [hdb] at hne
        · simpa [hdb] using hd
      · intro hc
        exact (mem_markCancelled _ _ _).mpr ⟨c, hc, by simp [hne]⟩
    · simp [markCancelled]
    · intro f hf2 hid
      exact (mem_addAvailableSlots _ _ _ _).mpr ⟨f, hf2, by simp [hid]⟩
    · intro g hg hid
      obtain ⟨f, hf2, rfl⟩ := (mem_addAvailableSlots _ _ _ _).mp hg
      by_cases hfb : f.id = b.floor_id
      · exact ⟨f, hf2, hfb, by simp [hfb], by simp [hfb]⟩
      · simp [hfb] at hid
    · intro g hne
      constructor
      · intro hg
        obtain ⟨f, hf2, rfl⟩ := (mem_addAvailableSlots _ _ _ _).mp hg
        by_cases hfb : f.id = b.floor_id
        · simp [hfb] at hne
        · simpa [hfb] using hf2
      · intro hg
        exact (mem_addAvailableSlots _ _ _ _).mpr ⟨g, hg, by simp [hne]⟩
    · simp [addAvailableSlots]
  · intro h
    have hnone : db.bookings.find? (fun c => decide (c.booking_id = bookingId)) = none := by
      rw [List.find?_eq_none]
      intro c hc
      simpa using h c hc
    unfold cancelBooking; rw [hnone]

/-- Witness of C21 on the sample floor: booking `PK00000001` is cancelled and the counter
of floor 1 goes from 1 to 2; the unknown id `PK99999999` is answered 404. -/
theorem cancelBooking_effect_witness :
    cancelBooking sampleFloorDb "PK00000001" =
      (FloorResponse.ok "Booking cancelled successfully",
        { parking_floors :=
            [{ id := 1, name := "Floor 1", total_slots := 2, available_slots := 2 }],
          parking_slots := sampleFloorDb.parking_slots,
          bookings :=
            [{ booking_id := "PK00000001", floor_id := 1, slot_id := some 1,
               start_time := 36000000, end_time := 39600000, duration_hours := 1,
               total_fee := 50, user_phone := "9876543210", user_name := "Asha",
               status := "cancelled" }] }) ∧
    (cancelBooking sampleFloorDb "PK00000001").2.bookings.length =
      sampleFloorDb.bookings.length ∧
    cancelBooking sampleFloorDb "PK99999999" =
      (FloorResponse.error 404 "Booking not found", sampleFloorDb) :=
  ⟨by decide,
    ((cancelBooking_effect sampleFloorDb "PK00000001").1
      { booking_id := "PK00000001", floor_id := 1, slot_id := some 1,
        start_time := 36000000, end_time := 39600000, duration_hours := 1,
        total_fee := 50, user_phone := "9876543210", user_name := "Asha",
        status := "confirmed" } (by decide)).2.2.2.2.2.1,
    (cancelBooking_effect sampleFloorDb "PK99999999").2 (by decide)⟩

/-- Counterexample to C22 as stated: on the sample floor the counter write of the
cancellation of `PK00000001` fails.  The answer is the success answer, the booking is
stored as cancelled, and the counter of floor 1 still is 1. -/
theorem cancel_split_by_failing_counter_write :
    cancelBookingFailing (some 2) sampleFloorDb "PK00000001" =
      (FloorResponse.ok "Booking cancelled successfully",
        { parking_floors :=
            [{ id := 1, name := "Floor 1", total_slots := 2, available_slots := 1 }],
          parking_slots := sampleFloorDb.parking_slots,
          bookings :=
            [{ booking_id := "PK00000001", floor_id := 1, slot_id := some 1,
               start_time := 36000000, end_time := 39600000, duration_hours := 1,
               total_fee := 50, user_phone := "9876543210", user_name := "Asha",
               status := "cancelled" }] }) ∧
    (cancelBooking sampleFloorDb "PK00000001").2.parking_floors =
      [{ id := 1, name := "Floor 1", total_slots := 2, available_slots := 2 }] :=
  ⟨by decide, by decide⟩

/-- Claim C22, amended: the cancellation runs its statements one after the other without a
transaction.  With no failing statement it is the handler `cancelBooking`.  Every error
answer leaves the store unchanged: a failing lookup is answered 404 and a failing booking
update 500.  Once the booking update is done the answer is the success answer whatever the
counter write does: when the counter write fails, the bookings are cancelled and the floor
counters are as before. -/
theorem cancelBookingFailing_outcomes (failAt : Option Nat) (db : FloorDb)
    (bookingId : String) :
    cancelBookingFailing none db bookingId = cancelBooking db bookingId ∧
    (∀ (code : Nat) (msg : String),
      (cancelBookingFailing failAt db bookingId).1 = FloorResponse.error code msg →
      (cancelBookingFailing failAt db bookingId).2 = db) ∧
    (failAt = some 0 →
      cancelBookingFailing failAt db bookingId =
        (FloorResponse.error 404 "Booking not found", db)) ∧
    (∀ b : FloorBooking, db.bookings.find? (fun c => c.booking_id = bookingId) = some b →
      (failAt = some 1 →
        cancelBookingFailing failAt db bookingId =
          (FloorResponse.error 500 "Failed to cancel booking", db)) ∧
      (failAt = some 2 →
        cancelBookingFailing failAt db bookingId =
          (FloorResponse.ok "Booking cancelled successfully",
            { db with bookings := markCancelled db.bookings bookingId }))) := by
  refine ⟨?_, ?_, ?_, ?_⟩
  · cases hf : db.bookings.find? (fun c => decide (c.booking_id = bookingId)) with
    | none => simp [cancelBookingFailing, cancelBooking, hf]
    | some b => simp [cancelBookingFailing, cancelBooking, hf]
  · intro code msg hres
    by_cases h0 : failAt = some 0
    · simp [cancelBookingFailing, h0]
    · cases hf : db.bookings.find? (fun c => decide (c.booking_id = bookingId)) with
      | none => simp [cancelBookingFailing, h0, hf]
      | some b =>
        by_cases h1 : failAt = some 1
        · simp [cancelBookingFailing, h1, hf]
        · simp [cancelBookingFailing, h0, h1, hf] at hres
  · intro h0
    simp [cancelBookingFailing, h0]
  · intro b hf
    constructor
    · intro h1
      simp [cancelBookingFailing, h1, hf]
    · intro h2
      simp [cancelBookingFailing, h2, hf]

/-- Witness of the amended C22 on the sample floor: a failing booking update is answered
500 with the store unchanged. -/
theorem cancelBookingFailing_outcomes_witness :
    cancelBookingFailing (some 1) sampleFloorDb "PK00000001" =
      (FloorResponse.error 500 "Failed to cancel booking", sampleFloorDb) :=
  ((cancelBookingFailing_outcomes (some 1) sampleFloorDb "PK00000001").2.2.2
    { booking_id := "PK00000001", floor_id := 1, slot_id := some 1,
      start_time := 36000000, end_time := 39600000, duration_hours := 1,
      total_fee := 50, user_phone := "9876543210", user_name := "Asha",
      status := "confirmed" } (by decide)).1 rfl

/-- The outcome of `POST /bookings` for a start at least 30 minutes ahead once the slot
query returned a row. -/
theorem createBooking_of_selected (db : FloorDb) (now : Int) (bookingId : String)
    (req : CreateBookingRequest) (slot : FloorSlot)
    (hahead : 1800000 ≤ req.startTime - now)
    (hs : selectFloorSlot db req.floorId req.startTime req.endTime = some slot) :
    createBooking db now bookingId req =
      (FloorResponse.confirmed bookingId "Booking confirmed successfully",
        { db with
          bookings := db.bookings ++
            [{ booking_id := bookingId, floor_id := req.floorId, slot_id := some slot.id,
               start_time := req.startTime, end_time := req.endTime,
               duration_hours := req.durationHours, total_fee := req.totalFee,
               user_phone := req.userPhone, user_name := req.userName,
               status := "confirmed" }],
          parking_floors := addAvailableSlots db.parking_floors req.floorId (-1) }) := by
  have hnot : ¬ (((req.startTime - now : Int) : ℚ) / (1000 * 60) < 30) := by
    rw [not_lt, le_div_iff₀ (by norm_num)]
    have h2 : ((1800000 : Int) : ℚ) ≤ ((req.startTime - now : Int) : ℚ) :=
      Int.cast_le.mpr hahead
    have e : (30 : ℚ) * (1000 * 60) = ((1800000 : Int) : ℚ) := by push_cast; norm_num
    rw [e]
    exact h2
  unfold createBooking
  simp only [hnot, if_false, hs]

/-- Claim C28 (defect in the code): the slot query misses a booking that lies strictly
inside the requested interval.  The single slot of floor 1 holds a confirmed booking from
10:00 to 11:00; the request for 09:00 to 12:00, made at time 0, finds no blocked slot, is
given that slot and is stored as a second confirmed booking of it. -/
theorem contained_booking_not_detected :
    sampleCreateRequest.startTime < sampleCreateRequest.endTime ∧
    intervalsOverlap 36000000 39600000 sampleCreateRequest.startTime
      sampleCreateRequest.endTime ∧
    blockedSlotIds singleSlotFloorDb 1 sampleCreateRequest.startTime
      sampleCreateRequest.endTime = [] ∧
    selectFloorSlot singleSlotFloorDb 1 sampleCreateRequest.startTime
        sampleCreateRequest.endTime =
      some { id := 1, floor_id := 1, slot_number := "F1-01", is_available := true } ∧
    (createBooking singleSlotFloorDb 0 "PK00000002" sampleCreateRequest).1 =
      FloorResponse.confirmed "PK00000002" "Booking confirmed successfully" ∧
    (createBooking singleSlotFloorDb 0 "PK00000002" sampleCreateRequest).2.bookings.map
        (fun b => (b.booking_id, b.slot_id, b.start_time, b.end_time, b.status)) =
      [("PK00000001", some 1, 36000000, 39600000, "confirmed"),
       ("PK00000002", some 1, 32400000, 43200000, "confirmed")] := by
  have hrun := createBooking_of_selected singleSlotFloorDb 0 "PK00000002" sampleCreateRequest
    { id := 1, floor_id := 1, slot_number := "F1-01", is_available := true }
    (by decide) (by decide)
  refine ⟨by decide, by decide, by decide, by decide, ?_, ?_⟩
  · rw [hrun]
  · rw [hrun]; decide

/-- Claim C29 (defect in the code): the floor counter leaves its bounds.  On the sample
floor, where the counter 1 lies between 0 and the total 2, cancelling `PK00000001` twice is
answered with success twice and leaves the counter at 3, above the total. -/
theorem counter_exceeds_total_after_double_cancel :
    CounterInBounds sampleFloorDb ∧
    (cancelBooking sampleFloorDb "PK00000001").1 =
      FloorResponse.ok "Booking cancelled successfully" ∧
    (cancelBooking (cancelBooking sampleFloorDb "PK00000001").2 "PK00000001").1 =
      FloorResponse.ok "Booking cancelled successfully" ∧
    (runFloorRequests sampleFloorDb
        [FloorRequest.cancel "PK00000001", FloorRequest.cancel "PK00000001"]).parking_floors =
      [{ id := 1, name := "Floor 1", total_slots := 2, available_slots := 3 }] ∧
    ¬ CounterInBounds (runFloorRequests sampleFloorDb
        [FloorRequest.cancel "PK00000001", FloorRequest.cancel "PK00000001"]) :=
  ⟨by decide, by decide, by decide, by decide, by decide⟩

/-! ### One-step preservation -/

/-- The full effect of an allocation request that finds a slot: the selected available
slot, the status it gets, and the pending or active row that is appended. -/
theorem allocation_effect (db : Db) (r : Request) (hr : isAllocation r = true)
    (hcreated : isCreated (handle db r).1 = true) :
    ∃ (slot : ParkingSlot) (status : SlotStatus) (row : Booking),
      slot ∈ db.parking_slots ∧ slot.status = SlotStatus.available ∧
      status ≠ SlotStatus.available ∧
      (handle db r).2.parking_slots = updateSlotStatus db.parking_slots slot.id status ∧
      (handle db r).2.bookings = db.bookings ++ [row] ∧ row.slot_id = slot.id ∧
      (row.payment_status = PaymentStatus.pending ∨
        row.payment_status = PaymentStatus.active) := by
  cases hs : selectFirstAvailable db.parking_slots with
  | none =>
    have hnone := (selectFirstAvailable_eq_none_iff db.parking_slots).mp hs
    cases r with
    | bookParking now req =>
      have hrun : handle db (Request.bookParking now req) =
          (Response.error 400 "No parking slots available", db) := by
        show bookParking db now req = _
        unfold bookParking; rw [hs]
      rw [hrun] at hcreated
      cases hcreated
    | walkinBooking now req =>
      have hrun : handle db (Request.walkinBooking now req) =
          (Response.error 400 "No parking slots available", db) := by
        show walkinBooking db now req = _
        unfold walkinBooking; rw [hs]
      rw [hrun] at hcreated
      cases hcreated
    | completeBooking now id amount => cases hr
  | some slot =>
    obtain ⟨hmem, hav, _⟩ := selectFirstAvailable_some db.parking_slots slot hs
    cases r with
    | bookParking now req =>
      have hrun : handle db (Request.bookParking now req) = _ :=
        bookParking_of_selected db now req slot hs
      rw [hrun]
      exact ⟨slot, SlotStatus.booked, _, hmem, hav, by decide, rfl, rfl, rfl, Or.inl rfl⟩
    | walkinBooking now req =>
      have hrun : handle db (Request.walkinBooking now req) = _ :=
        walkinBooking_of_selected db now req slot hs
      rw [hrun]
      exact ⟨slot, SlotStatus.occupied, _, hmem, hav, by decide, rfl, rfl, rfl, Or.inr rfl⟩
    | completeBooking now id amount => cases hr

/-- The pending and active bookings of a slot after one pending or active row was
appended. -/
theorem nonTerminalBookings_append (db db2 : Db) (row : Booking)
    (hb : db2.bookings = db.bookings ++ [row])
    (hrow : row.payment_status = PaymentStatus.pending ∨
      row.payment_status = PaymentStatus.active) (slotId : Nat) :
    nonTerminalBookings db2 slotId =
      nonTerminalBookings db slotId ++ (if row.slot_id = slotId then [row] else []) := by
  unfold nonTerminalBookings
  rw [hb, List.filter_append]
  congr 1
  by_cases h : row.slot_id = slotId
  · rw [if_pos h, List.filter_cons_of_pos (by simpa using ⟨h, hrow⟩)]
    rfl
  · rw [if_neg h, List.filter_cons_of_neg (by simp [h])]
    rfl

/-- With unique ids, two stored bookings with the same id are the same row. -/
theorem booking_eq_of_id (db : Db) (hkey : BookingIdsUnique db) (b c : Booking)
    (hb : b ∈ db.bookings) (hc : c ∈ db.bookings) (hid : c.id = b.id) : c = b :=
  List.inj_on_of_nodup_map hkey hc hb hid

/-- The completion leaves the pending and active bookings of a slot as they are when no
booking with the completed id references that slot. -/
theorem filter_completed_other (bookings : List Booking) (id slotId : Nat) (now : Int)
    (amount : ℚ) (h : ∀ c ∈ bookings, c.id = id → c.slot_id ≠ slotId) :
    (bookings.map (fun b =>
        if b.id = id then
          { b with departure_time := some now, payment_status := PaymentStatus.completed,
                   amount := some amount }
        else b)).filter (fun b => b.slot_id = slotId ∧
          (b.payment_status = PaymentStatus.pending ∨
            b.payment_status = PaymentStatus.active)) =
      bookings.filter (fun b => b.slot_id = slotId ∧
        (b.payment_status = PaymentStatus.pending ∨
          b.payment_status = PaymentStatus.active)) := by
  induction bookings with
  | nil => rfl
  | cons c t ih =>
    have iht := ih (fun x hx => h x (List.mem_cons_of_mem _ hx))
    rw [List.map_cons]
    by_cases hc : c.id = id
    · have hne := h c (List.mem_cons_self _ _) hc
      rw [if_pos hc, List.filter_cons_of_neg (by simp), List.filter_cons_of_neg (by simp [hne]),
        iht]
    · rw [if_neg hc]
      by_cases hp : (c.slot_id = slotId ∧
          (c.payment_status = PaymentStatus.pending ∨
            c.payment_status = PaymentStatus.active))
      · rw [List.filter_cons_of_pos (by simpa using hp),
          List.filter_cons_of_pos (by simpa using hp), iht]
      · rw [List.filter_cons_of_neg (by simpa using hp),
          List.filter_cons_of_neg (by simpa using hp), iht]

/-- The completion leaves a slot without pending or active booking when every such booking
of the slot has the completed id. -/
theorem filter_completed_target (bookings : List Booking) (id slotId : Nat) (now : Int)
    (amount : ℚ)
    (h : ∀ c ∈ bookings, c.slot_id = slotId →
      (c.payment_status = PaymentStatus.pending ∨ c.payment_status = PaymentStatus.active) →
      c.id = id) :
    (bookings.map (fun b =>
        if b.id = id then
          { b with departure_time := some now, payment_status := PaymentStatus.completed,
                   amount := some amount }
        else b)).filter (fun b => b.slot_id = slotId ∧
          (b.payment_status = PaymentStatus.pending ∨
            b.payment_status = PaymentStatus.active)) = [] := by
  rw [List.filter_eq_nil_iff]
  intro x hx
  obtain ⟨c, hc, rfl⟩ := List.mem_map.mp hx
  by_cases hid : c.id = id
  · simp [hid]
  · simp only [hid, if_false]
    intro hp
    have hp2 : c.slot_id = slotId ∧
        (c.payment_status = PaymentStatus.pending ∨
          c.payment_status = PaymentStatus.active) := by simpa using hp
    exact hid (h c hc hp2.1 hp2.2)

/-- Two members of a list with at most one element are equal. -/
theorem eq_of_mem_of_length_le_one {α : Type} (l : List α) (x y : α)
    (hlen : l.length ≤ 1) (hx : x ∈ l) (hy : y ∈ l) : x = y := by
  match l, hlen, hx, hy with
  | [a], _, hx, hy =>
    rw [List.mem_singleton.mp hx, List.mem_singleton.mp hy]
  | _ :: _ :: _, hlen, _, _ => simp at hlen

/-- Claim C27: one-step preservation.  From every state in which no slot has two pending or
active bookings and every slot is available exactly when no pending or active booking
references it, a successful scheduled or walk-in allocation gives a state with the same two
properties, and so does, with unique booking ids, the completion of a stored booking that
is pending or active. -/
theorem invariants_preserved (db : Db) (h1 : NoDoubleBooking db) (h2 : AvailableIffFree db) :
    (∀ r : Request, isAllocation r = true → isCreated (handle db r).1 = true →
      NoDoubleBooking (handle db r).2 ∧ AvailableIffFree (handle db r).2) ∧
    (∀ (now : Int) (amount : ℚ) (b : Booking), BookingIdsUnique db → b ∈ db.bookings →
      (b.payment_status = PaymentStatus.pending ∨
        b.payment_status = PaymentStatus.active) →
      NoDoubleBooking (completeBooking db now b.id amount).2 ∧
      AvailableIffFree (completeBooking db now b.id amount).2) := by
  constructor
  · intro r hr hcreated
    obtain ⟨slot, status, row, hmem, hav, hne, hslots, hbook, hrow, hnt⟩ :=
      allocation_effect db r hr hcreated
    have hfree : nonTerminalBookings db slot.id = [] := (h2 slot hmem).mp hav
    have happ := nonTerminalBookings_append db (handle db r).2 row hbook hnt
    have key : ∀ q ∈ (handle db r).2.parking_slots,
        (nonTerminalBookings (handle db r).2 q.id).length ≤ 1 ∧
        (q.status = SlotStatus.available ↔
          nonTerminalBookings (handle db r).2 q.id = []) := by
      intro q hq
      rw [hslots] at hq
      obtain ⟨p, hp, hqp⟩ := (mem_updateSlotStatus _ _ _ _).mp hq
      by_cases hpid : p.id = slot.id
      · rw [if_pos hpid] at hqp
        have hqid : q.id = slot.id := by rw [hqp]; exact hpid
        have hqs : q.status = status := by rw [hqp]
        rw [happ q.id, hqid, hfree, hrow, if_pos rfl, hqs]
        simp [hne]
      · rw [if_neg hpid] at hqp
        subst hqp
        rw [happ q.id, hrow, if_neg (Ne.symm hpid), List.append_nil]
        exact ⟨h1 q hp, h2 q hp⟩
    exact ⟨fun q hq => (key q hq).1, fun q hq => (key q hq).2⟩
  · intro now amount b hkey hb hst
    have hf := find?_id_of_unique db.bookings b hb hkey
    have hrun : completeBooking db now b.id amount =
        (Response.ok "Booking completed successfully",
          { parking_slots := updateSlotStatus db.parking_slots b.slot_id SlotStatus.available,
            bookings := db.bookings.map (fun c =>
              if c.id = b.id then
                { c with departure_time := some now,
                         payment_status := PaymentStatus.completed,
                         amount := some amount }
              else c),
            nextBookingId := db.nextBookingId }) := by
      unfold completeBooking; rw [hf]
    rw [hrun]
    have key : ∀ q ∈ updateSlotStatus db.parking_slots b.slot_id SlotStatus.available,
        ((db.bookings.map (fun c =>
            if c.id = b.id then
              { c with departure_time := some now,
                       payment_status := PaymentStatus.completed,
                       amount := some amount }
            else c)).filter (fun c => c.slot_id = q.id ∧
              (c.payment_status = PaymentStatus.pending ∨
                c.payment_status = PaymentStatus.active))).length ≤ 1 ∧
        (q.status = SlotStatus.available ↔
          (db.bookings.map (fun c =>
            if c.id = b.id then
              { c with departure_time := some now,
                       payment_status := PaymentStatus.completed,
                       amount := some amount }
            else c)).filter (fun c => c.slot_id = q.id ∧
              (c.payment_status = PaymentStatus.pending ∨
                c.payment_status = PaymentStatus.active)) = []) := by
      intro q hq
      obtain ⟨p, hp, hqp⟩ := (mem_updateSlotStatus _ _ _ _).mp hq
      by_cases hpid : p.id = b.slot_id
      · rw [if_pos hpid] at hqp
        have hqid : q.id = b.slot_id := by rw [hqp]; exact hpid
        have hqs : q.status = SlotStatus.available := by rw [hqp]
        have hbin : b ∈ nonTerminalBookings db p.id := by
          unfold nonTerminalBookings
          exact List.mem_filter.mpr ⟨hb, by simpa using ⟨hpid.symm, hst⟩⟩
        have hall : ∀ c ∈ db.bookings, c.slot_id = b.slot_id →
            (c.payment_status = PaymentStatus.pending ∨
              c.payment_status = PaymentStatus.active) → c.id = b.id := by
          intro c hc hcs hcp
          have hcin : c ∈ nonTerminalBookings db p.id := by
            unfold nonTerminalBookings
            exact List.mem_filter.mpr ⟨hc, by simpa using ⟨hcs.trans hpid.symm, hcp⟩⟩
          rw [eq_of_mem_of_length_le_one _ c b (h1 p hp) hcin hbin]
        rw [hqid, filter_completed_target db.bookings b.id b.slot_id now amount hall, hqs]
        simp
      · rw [if_neg hpid] at hqp
        subst hqp
        have hother : ∀ c ∈ db.bookings, c.id = b.id → c.slot_id ≠ q.id := by
          intro c hc hid
          rw [booking_eq_of_id db hkey b c hb hc hid]
          exact Ne.symm hpid
        rw [filter_completed_other db.bookings b.id q.id now amount hother]
        exact ⟨h1 q hp, h2 q hp⟩
    exact ⟨fun q hq => (key q hq).1, fun q hq => (key q hq).2⟩

/-- Witness of C27: the full one-slot facility satisfies both properties, and so does the
state after the completion of its pending booking 1; likewise the empty one-slot facility
and the state after a scheduled allocation. -/
theorem invariants_preserved_witness :
    (NoDoubleBooking (completeBooking fullFacility 9 sampleBooking.id 150).2 ∧
      AvailableIffFree (completeBooking fullFacility 9 sampleBooking.id 150).2) ∧
    (NoDoubleBooking (handle oneSlotFacility (Request.bookParking 0 sampleBookRequest)).2 ∧
      AvailableIffFree
        (handle oneSlotFacility (Request.bookParking 0 sampleBookRequest)).2) :=
  ⟨(invariants_preserved fullFacility (by decide) (by decide)).2 9 150 sampleBooking
      (by decide) (by decide) (Or.inl rfl),
    (invariants_preserved oneSlotFacility (by decide) (by decide)).1
      (Request.bookParking 0 sampleBookRequest) (by decide) (by decide)⟩

/-! ### Frame of the lifecycle operations -/

/-- With unique keys, an update of the rows with the key of a stored row changes that row
and no other: the table splits around the row. -/
theorem map_update_split {α : Type} (key : α → Nat) (g : α → α) (l : List α) (a : α)
    (ha : a ∈ l) (hnd : (l.map key).Nodup) :
    ∃ (l₁ l₂ : List α), l = l₁ ++ a :: l₂ ∧
      l.map (fun x => if key x = key a then g x else x) = l₁ ++ g a :: l₂ := by
  induction l with
  | nil => cases ha
  | cons x t ih =>
    rw [List.map_cons, List.nodup_cons] at hnd
    by_cases hx : a = x
    · subst hx
      refine ⟨[], t, rfl, ?_⟩
      rw [List.map_cons, if_pos rfl]
      have ht : t.map (fun y => if key y = key a then g y else y) = t := by
        conv_rhs => rw [← List.map_id t]
        apply List.map_congr_left
        intro y hy
        have hne : key y ≠ key a := by
          intro he
          exact hnd.1 (he ▸ List.mem_map_of_mem key hy)
        simp [hne]
      rw [ht]
      rfl
    · have hin : a ∈ t := by
        rcases List.mem_cons.mp ha with h | h
        · exact absurd h hx
        · exact h
      have hne : key x ≠ key a := by
        intro he
        exact hnd.1 (he ▸ List.mem_map_of_mem key hin)
      obtain ⟨l₁, l₂, h1, h2⟩ := ih hin hnd.2
      refine ⟨x :: l₁, l₂, by rw [h1]; rfl, ?_⟩
      rw [List.map_cons, if_neg hne, h2]
      rfl

/-- Claim C30: frame of the lifecycle operations, with unique slot and booking ids.
A successful allocation changes one slot row, the selected available one, and only its
status; all rows before and after it are the same, so the slot total is unchanged and the
number of available slots drops by exactly one; the bookings table is the old table with
one row appended.  A successful completion of a stored booking changes that one booking
row, leaves every slot row with another id than the referenced one unchanged, and adds or
removes no booking and no slot. -/
theorem lifecycle_frame (db : Db) (hslots : SlotIdsUnique db) (hbook : BookingIdsUnique db) :
    (∀ r : Request, isAllocation r = true → isCreated (handle db r).1 = true →
      ∃ (slot : ParkingSlot) (status : SlotStatus) (row : Booking)
        (l₁ l₂ : List ParkingSlot),
        db.parking_slots = l₁ ++ slot :: l₂ ∧ slot.status = SlotStatus.available ∧
        status ≠ SlotStatus.available ∧
        (handle db r).2.parking_slots = l₁ ++ { slot with status := status } :: l₂ ∧
        (handle db r).2.bookings = db.bookings ++ [row] ∧ row.slot_id = slot.id ∧
        (handle db r).2.parking_slots.length = db.parking_slots.length ∧
        availableCount (handle db r).2 + 1 = availableCount db) ∧
    (∀ (now : Int) (amount : ℚ) (b : Booking), b ∈ db.bookings →
      (completeBooking db now b.id amount).1 = Response.ok "Booking completed successfully" ∧
      (∃ (l₁ l₂ : List Booking), db.bookings = l₁ ++ b :: l₂ ∧
        (completeBooking db now b.id amount).2.bookings =
          l₁ ++ { b with departure_time := some now,
                         payment_status := PaymentStatus.completed,
                         amount := some amount } :: l₂) ∧
      (completeBooking db now b.id amount).2.bookings.length = db.bookings.length ∧
      (∀ q : ParkingSlot, q.id ≠ b.slot_id →
        (q ∈ (completeBooking db now b.id amount).2.parking_slots ↔ q ∈ db.parking_slots)) ∧
      (∀ p ∈ db.parking_slots, p.id = b.slot_id →
        ∃ (l₁ l₂ : List ParkingSlot), db.parking_slots = l₁ ++ p :: l₂ ∧
          (completeBooking db now b.id amount).2.parking_slots =
            l₁ ++ { p with status := SlotStatus.available } :: l₂) ∧
      (completeBooking db now b.id amount).2.parking_slots.length =
        db.parking_slots.length) := by
  constructor
  · intro r hr hcreated
    obtain ⟨slot, status, row, hmem, hav, hne, hsl, hbk, hrow, _⟩ :=
      allocation_effect db r hr hcreated
    obtain ⟨l₁, l₂, h1, h2⟩ := map_update_split (fun p : ParkingSlot => p.id)
      (fun p => { p with status := status }) db.parking_slots slot hmem hslots
    have hupd : updateSlotStatus db.parking_slots slot.id status =
        l₁ ++ { slot with status := status } :: l₂ := h2
    refine ⟨slot, status, row, l₁, l₂, h1, hav, hne, by rw [hsl, hupd], hbk, hrow, ?_, ?_⟩
    · rw [hsl, hupd, h1]
      simp
    · unfold availableCount
      rw [hsl]
      exact availableCount_update db.parking_slots slot status hne hslots hmem hav
  · intro now amount b hb
    have hf := find?_id_of_unique db.bookings b hb hbook
    have hrun : completeBooking db now b.id amount =
        (Response.ok "Booking completed successfully",
          { parking_slots := updateSlotStatus db.parking_slots b.slot_id SlotStatus.available,
            bookings := db.bookings.map (fun c =>
              if c.id = b.id then
                { c with departure_time := some now,
                         payment_status := PaymentStatus.completed,
                         amount := some amount }
              else c),
            nextBookingId := db.nextBookingId }) := by
      unfold completeBooking; rw [hf]
    rw [hrun]
    refine ⟨rfl, ?_, by simp, ?_, ?_, by simp [updateSlotStatus]⟩
    · exact map_update_split (fun c : Booking => c.id)
        (fun c => { c with departure_time := some now,
                           payment_status := PaymentStatus.completed,
                           amount := some amount }) db.bookings b hb hbook
    · intro q hne
      exact mem_updateSlotStatus_of_ne db.parking_slots b.slot_id SlotStatus.available q hne
    · intro p hp hid
      obtain ⟨l₁, l₂, h1, h2⟩ := map_update_split (fun p : ParkingSlot => p.id)
        (fun p => { p with status := SlotStatus.available }) db.parking_slots p hp hslots
      refine ⟨l₁, l₂, h1, ?_⟩
      rw [← hid]
      exact h2

/-- Witness of C30: a walk-in allocation on the two-floor facility lowers the number of
available slots from 3 to 2 and keeps the four slot rows; the completion of booking 1 on
the full one-slot facility keeps one booking row and one slot row. -/
theorem lifecycle_frame_witness :
    availableCount (handle twoFloorFacility (Request.walkinBooking 5 sampleWalkinRequest)).2
      + 1 = availableCount twoFloorFacility ∧
    (completeBooking fullFacility 9 sampleBooking.id 150).2.bookings.length =
      fullFacility.bookings.length ∧
    (completeBooking fullFacility 9 sampleBooking.id 150).2.parking_slots.length =
      fullFacility.parking_slots.length :=
  ⟨match (lifecycle_frame twoFloorFacility (by decide) (by decide)).1
        (Request.walkinBooking 5 sampleWalkinRequest) (by decide) (by decide) with
    | ⟨_, _, _, _, _, _, _, _, _, _, _, _, h⟩ => h,
    ((lifecycle_frame fullFacility (by decide) (by decide)).2 9 150 sampleBooking
      (by decide)).2.2.1,
    ((lifecycle_frame fullFacility (by decide) (by decide)).2 9 150 sampleBooking
      (by decide)).2.2.2.2.2⟩

/-! ### Concurrent allocations -/

/-- A handler is its `SELECT` on the store followed by its remaining statements on the same
store: served alone, the split handlers are the handlers. -/
theorem allocateAfterSelect_alone (db : Db) (now : Int) (req : BookParkingRequest)
    (wreq : WalkinRequest) :
    allocateAfterSelect (selectFirstAvailable db.parking_slots) db
        (AllocationRequest.bookParking now req) = bookParking db now req ∧
    allocateAfterSelect (selectFirstAvailable db.parking_slots) db
        (AllocationRequest.walkinBooking now wreq) = walkinBooking db now wreq :=
  ⟨rfl, rfl⟩

/-- Claim C18 (defect in the code): two concurrent allocations claim the same slot.  On the
one-slot facility a scheduled allocation and a walk-in allocation run in the order SELECT,
SELECT, writes and commit of the first, writes and commit of the second.  Both read slot
101 as available, both are answered 201 for slot 101, and the store ends with the pending
booking 1 and the active booking 2 on slot 1.  The same holds for two scheduled
allocations.  Served one after the other, the second request is refused. -/
theorem concurrent_allocations_share_slot :
    isInitial oneSlotFacility ∧
    selectSelectWriteWrite oneSlotFacility
        (AllocationRequest.bookParking 0 sampleBookRequest)
        (AllocationRequest.walkinBooking 5 sampleWalkinRequest) =
      (Response.created 1 "101" 1 "Parking slot booked successfully!",
       Response.created 2 "101" 1
         "Walk-in booking successful! Customer is now parked and slot is active.",
       { parking_slots := [{ id := 1, slot_number := "101", floor_number := 1,
                             status := SlotStatus.occupied }],
         bookings :=
           [{ id := 1, slot_id := 1, user_name := "Asha", vehicle_number := "MH01AB1234",
              phone_number := "9876543210", booking_type := BookingType.regular,
              booking_time := 0, arrival_time := 1000, departure_time := none,
              payment_status := PaymentStatus.pending, amount := none },
            { id := 2, slot_id := 1, user_name := "Ravi", vehicle_number := "MH02CD5678",
              phone_number := "9876543211", booking_type := BookingType.walkin,
              booking_time := 5, arrival_time := 5, departure_time := none,
              payment_status := PaymentStatus.active, amount := none }],
         nextBookingId := 3 }) ∧
    ¬ NoDoubleBooking (selectSelectWriteWrite oneSlotFacility
        (AllocationRequest.bookParking 0 sampleBookRequest)
        (AllocationRequest.walkinBooking 5 sampleWalkinRequest)).2.2 ∧
    (selectSelectWriteWrite oneSlotFacility
        (AllocationRequest.bookParking 0 sampleBookRequest)
        (AllocationRequest.bookParking 5 sampleBookRequest)).1 =
      Response.created 1 "101" 1 "Parking slot booked successfully!" ∧
    (selectSelectWriteWrite oneSlotFacility
        (AllocationRequest.bookParking 0 sampleBookRequest)
        (AllocationRequest.bookParking 5 sampleBookRequest)).2.1 =
      Response.created 2 "101" 1 "Parking slot booked successfully!" ∧
    (nonTerminalBookings (selectSelectWriteWrite oneSlotFacility
        (AllocationRequest.bookParking 0 sampleBookRequest)
        (AllocationRequest.bookParking 5 sampleBookRequest)).2.2 1).map
      (fun b => (b.id, b.payment_status)) =
      [(1, PaymentStatus.pending), (2, PaymentStatus.pending)] ∧
    (serveAll oneSlotFacility
        [Request.bookParking 0 sampleBookRequest,
         Request.walkinBooking 5 sampleWalkinRequest]).1 =
      [Response.created 1 "101" 1 "Parking slot booked successfully!",
       Response.error 400 "No parking slots available"] :=
  ⟨by decide, by decide, by decide, by decide, by decide, by decide, by decide⟩

/-! ### Decimal columns -/

/-- A whole number is its own rounding. -/
theorem roundHalfAwayFromZero_intCast (c : Int) : roundHalfAwayFromZero (c : ℚ) = c := by
  unfold roundHalfAwayFromZero
  split_ifs with h
  · rw [Int.floor_eq_iff]
    constructor <;> linarith
  · have hf : Int.floor (-(c : ℚ) + 1 / 2) = -c := by
      rw [Int.floor_eq_iff]
      push_cast
      constructor <;> linarith
    rw [hf, neg_neg]

/-- The rounding is within one half of the number. -/
theorem roundHalfAwayFromZero_close (x : ℚ) : |(roundHalfAwayFromZero x : ℚ) - x| ≤ 1 / 2 := by
  unfold roundHalfAwayFromZero
  rw [abs_le]
  split_ifs with h
  · have h1 := Int.floor_le (x + 1 / 2)
    have h2 := Int.lt_floor_add_one (x + 1 / 2)
    constructor <;> linarith
  · have h1 := Int.floor_le (-x + 1 / 2)
    have h2 := Int.lt_floor_add_one (-x + 1 / 2)
    push_cast
    constructor <;> linarith

/-- The rounding of a number is not below a whole number that the number is not below. -/
theorem le_roundHalfAwayFromZero (x : ℚ) (c : Int) (h : (c : ℚ) ≤ x) :
    c ≤ roundHalfAwayFromZero x := by
  unfold roundHalfAwayFromZero
  split_ifs with h0
  · rw [Int.le_floor]
    linarith
  · have hlt : Int.floor (-x + 1 / 2) < -c + 1 := by
      rw [Int.floor_lt]
      push_cast
      linarith
    omega

/-- A number whose rounded hundredths fit the column is stored as those hundredths. -/
theorem assignDecimal_inRange (strictMode : Bool) (value : ℚ)
    (h : |roundHalfAwayFromZero (value * 100)| ≤ 9999999999) :
    assignDecimal strictMode value =
      some ((roundHalfAwayFromZero (value * 100) : ℚ) / 100) := by
  unfold assignDecimal
  simp only [if_pos h]

/-- In strict mode a number whose rounded hundredths do not fit the column is refused. -/
theorem assignDecimal_outOfRange (value : ℚ)
    (h : ¬ |roundHalfAwayFromZero (value * 100)| ≤ 9999999999) :
    assignDecimal true value = none := by
  unfold assignDecimal
  simp only [if_neg h, if_true]

/-- A number of hundredths that fits the column is stored as it is. -/
theorem assignDecimal_hundredths (strictMode : Bool) (c : Int) (h : |c| ≤ 9999999999) :
    assignDecimal strictMode ((c : ℚ) / 100) = some ((c : ℚ) / 100) := by
  have hc : (c : ℚ) / 100 * 100 = (c : ℚ) := by
    field_simp
  have hr : roundHalfAwayFromZero ((c : ℚ) / 100 * 100) = c := by
    rw [hc, roundHalfAwayFromZero_intCast]
  rw [assignDecimal_inRange strictMode _ (by rw [hr]; exact h), hr]

/-- The stored form of a number is a number of hundredths within the range of the column;
when the rounded hundredths of the number fit, it differs from the number by at most half a
hundredth. -/
theorem assignDecimal_some (strictMode : Bool) (value stored : ℚ)
    (h : assignDecimal strictMode value = some stored) :
    (∃ c : Int, |c| ≤ 9999999999 ∧ stored = (c : ℚ) / 100) ∧
    (|roundHalfAwayFromZero (value * 100)| ≤ 9999999999 → |stored - value| ≤ 1 / 200) := by
  by_cases hr : |roundHalfAwayFromZero (value * 100)| ≤ 9999999999
  · rw [assignDecimal_inRange strictMode value hr] at h
    have hs : stored = (roundHalfAwayFromZero (value * 100) : ℚ) / 100 := by
      simpa using h.symm
    refine ⟨⟨_, hr, hs⟩, fun _ => ?_⟩
    have hclose := roundHalfAwayFromZero_close (value * 100)
    rw [abs_le] at hclose ⊢
    rw [hs]
    constructor <;> linarith [hclose.1, hclose.2]
  · refine ⟨?_, fun h2 => absurd h2 hr⟩
    unfold assignDecimal at h
    simp only [if_neg hr] at h
    cases strictMode with
    | true => simp at h
    | false =>
      by_cases h0 : 0 ≤ value
      · refine ⟨9999999999, by decide, ?_⟩
        simp [h0] at h
        rw [← h]
        norm_num
      · refine ⟨-9999999999, by decide, ?_⟩
        simp [h0] at h
        rw [← h]
        norm_num

/-- The stored form of a number that is at least a value of the column is at least that
value. -/
theorem assignDecimal_mono (strictMode : Bool) (c : Int) (hc : |c| ≤ 9999999999)
    (value stored : ℚ) (hle : (c : ℚ) / 100 ≤ value)
    (h : assignDecimal strictMode value = some stored) : (c : ℚ) / 100 ≤ stored := by
  have hc100 : (c : ℚ) ≤ value * 100 := by linarith
  have hround := le_roundHalfAwayFromZero (value * 100) c hc100
  by_cases hr : |roundHalfAwayFromZero (value * 100)| ≤ 9999999999
  · rw [assignDecimal_inRange strictMode value hr] at h
    have hs : stored = (roundHalfAwayFromZero (value * 100) : ℚ) / 100 := by
      simpa using h.symm
    rw [hs]
    have : (c : ℚ) ≤ (roundHalfAwayFromZero (value * 100) : ℚ) := by exact_mod_cast hround
    linarith
  · unfold assignDecimal at h
    simp only [if_neg hr] at h
    have hbig : 9999999999 < roundHalfAwayFromZero (value * 100) := by
      rw [abs_le] at hc
      rw [abs_le, not_and_or] at hr
      omega
    have hpos : 0 ≤ value := by
      by_contra hneg
      have hx : value * 100 < 0 := by linarith [not_le.mp hneg]
      have : roundHalfAwayFromZero (value * 100) ≤ 0 := by
        unfold roundHalfAwayFromZero
        rw [if_neg (not_le.mpr hx)]
        have : 0 ≤ Int.floor (-(value * 100) + 1 / 2) := by
          rw [Int.le_floor]
          push_cast
          linarith
        omega
      omega
    have hcq : (c : ℚ) ≤ 9999999999 := by
      have : c ≤ 9999999999 := (abs_le.mp hc).2
      exact_mod_cast this
    cases strictMode with
    | true => simp at h
    | false =>
      simp [hpos] at h
      rw [← h]
      linarith

/-- The number 12.345 is stored as 12.35. -/
theorem assignDecimal_rounds_up (strictMode : Bool) :
    assignDecimal strictMode (12345 / 1000) = some (1235 / 100) := by
  have hr : roundHalfAwayFromZero ((12345 / 1000 : ℚ) * 100) = 1235 := by
    unfold roundHalfAwayFromZero
    rw [if_pos (by norm_num), Int.floor_eq_iff]
    norm_num
  rw [assignDecimal_inRange strictMode _ (by rw [hr]; decide), hr]
  norm_num

/-- The hundredths of 12.345 round to 1235. -/
theorem roundHalfAwayFromZero_sample :
    roundHalfAwayFromZero ((12345 / 1000 : ℚ) * 100) = 1235 := by
  unfold roundHalfAwayFromZero
  rw [if_pos (by norm_num), Int.floor_eq_iff]
  norm_num

/-! ### Rates -/

/-- The rate update on the single row of id 1, for a body value that the column takes as
`stored`: the answer is success and the table holds `stored` and nothing else. -/
theorem putRate_stored (strictMode : Bool) (row : Rate) (body : Option ℚ) (stored : ℚ)
    (hid : row.id = 1) (h : assignRate strictMode body = some stored) :
    putRate strictMode [row] body =
      (Response.ok "Rate updated successfully", [{ id := 1, rate_per_hour := stored }]) := by
  cases row with
  | mk id rate =>
    simp only at hid
    subst hid
    simp [putRate, h]

/-- The rate update on the single row of id 1, for a body value that the column refuses:
the answer is 500 and the table is as before. -/
theorem putRate_refused (strictMode : Bool) (row : Rate) (body : Option ℚ)
    (hid : row.id = 1) (h : assignRate strictMode body = none) :
    putRate strictMode [row] body = (Response.error 500 "Database error", [row]) := by
  simp [putRate, hid, h]

/-- Counterexample to C26 as stated: on the seeded row with rate 50 the update with rate
12.345 is answered with success, in either SQL mode, and the read then returns the text of
12.35, which is not 12.345. -/
theorem rate_read_back_rounded :
    (putRate true [{ id := 1, rate_per_hour := 50 }] (some (12345 / 1000))).1 =
      Response.ok "Rate updated successfully" ∧
    getRate false (putRate true [{ id := 1, rate_per_hour := 50 }] (some (12345 / 1000))).2 =
      RatePerHour.decimalText (1235 / 100) ∧
    (putRate false [{ id := 1, rate_per_hour := 50 }] (some (12345 / 1000))).1 =
      Response.ok "Rate updated successfully" ∧
    getRate false (putRate false [{ id := 1, rate_per_hour := 50 }] (some (12345 / 1000))).2 =
      RatePerHour.decimalText (1235 / 100) ∧
    RatePerHour.decimalText (1235 / 100) ≠ RatePerHour.decimalText (12345 / 1000) ∧
    RatePerHour.decimalText (1235 / 100) ≠ RatePerHour.number (12345 / 1000) := by
  have h : ∀ strictMode : Bool,
      putRate strictMode [{ id := 1, rate_per_hour := 50 }] (some (12345 / 1000)) =
        (Response.ok "Rate updated successfully", [{ id := 1, rate_per_hour := 1235 / 100 }]) :=
    fun strictMode => putRate_stored strictMode _ _ _ rfl (assignDecimal_rounds_up strictMode)
  rw [h true, h false]
  refine ⟨rfl, rfl, rfl, rfl, ?_, ?_⟩
  · intro he
    injection he with he
    norm_num at he
  · intro he
    cases he

/-- Claim C26, amended: with the rates table holding its single row of id 1, an update with
a rate `r` whose value rounded to two decimals fits the column is answered with success,
and the read then returns the decimal text of `r` rounded to two decimals, half away from
zero: a value within half a hundredth of `r`, and `r` itself when `r` has at most two
decimals.  The table holds that value and no earlier one, and a second update replaces the
first.  In strict mode an update with a rate that does not fit, or with `null`, is answered
500 and leaves the table as it was.  (Were the driver set to hand out numbers, the read
would return the rounded value as a number unless it is 0.) -/
theorem rate_round_trip_rounded (strictMode : Bool) (row : Rate) (r r2 : ℚ)
    (hid : row.id = 1)
    (hr : |roundHalfAwayFromZero (r * 100)| ≤ 9999999999)
    (hr2 : |roundHalfAwayFromZero (r2 * 100)| ≤ 9999999999) :
    (putRate strictMode [row] (some r)).1 = Response.ok "Rate updated successfully" ∧
    getRate false (putRate strictMode [row] (some r)).2 =
      RatePerHour.decimalText ((roundHalfAwayFromZero (r * 100) : ℚ) / 100) ∧
    |(roundHalfAwayFromZero (r * 100) : ℚ) / 100 - r| ≤ 1 / 200 ∧
    (∀ c : Int, r = (c : ℚ) / 100 →
      getRate false (putRate strictMode [row] (some r)).2 = RatePerHour.decimalText r) ∧
    (putRate strictMode [row] (some r)).2 =
      [{ id := 1, rate_per_hour := (roundHalfAwayFromZero (r * 100) : ℚ) / 100 }] ∧
    getRate false (putRate strictMode (putRate strictMode [row] (some r)).2 (some r2)).2 =
      RatePerHour.decimalText ((roundHalfAwayFromZero (r2 * 100) : ℚ) / 100) ∧
    (∀ x : ℚ, ¬ |roundHalfAwayFromZero (x * 100)| ≤ 9999999999 →
      putRate true [row] (some x) = (Response.error 500 "Database error", [row])) ∧
    putRate true [row] none = (Response.error 500 "Database error", [row]) ∧
    (roundHalfAwayFromZero (r * 100) ≠ 0 →
      getRate true (putRate strictMode [row] (some r)).2 =
        RatePerHour.number ((roundHalfAwayFromZero (r * 100) : ℚ) / 100)) := by
  have hput := putRate_stored strictMode row (some r) _ hid
    (assignDecimal_inRange strictMode r hr)
  have hput2 := putRate_stored strictMode
    { id := 1, rate_per_hour := (roundHalfAwayFromZero (r * 100) : ℚ) / 100 } (some r2) _ rfl
    (assignDecimal_inRange strictMode r2 hr2)
  have hclose := (assignDecimal_some strictMode r _ (assignDecimal_inRange strictMode r hr)).2 hr
  rw [hput, hput2]
  refine ⟨rfl, rfl, hclose, ?_, rfl, rfl, ?_, ?_, ?_⟩
  · intro c hc
    have hround : roundHalfAwayFromZero (r * 100) = c := by
      rw [hc]
      have : (c : ℚ) / 100 * 100 = (c : ℚ) := by field_simp
      rw [this, roundHalfAwayFromZero_intCast]
    show RatePerHour.decimalText ((roundHalfAwayFromZero (r * 100) : ℚ) / 100) = _
    rw [hround, hc]
  · intro x hx
    exact putRate_refused true row (some x) hid (assignDecimal_outOfRange x hx)
  · exact putRate_refused true row none hid rfl
  · intro hne
    have hq : ((roundHalfAwayFromZero (r * 100) : ℚ) / 100) ≠ 0 := by
      intro h0
      apply hne
      have : (roundHalfAwayFromZero (r * 100) : ℚ) = 0 := by
        have := div_eq_zero_iff.mp h0
        rcases this with h | h
        · exact h
        · norm_num at h
      exact_mod_cast this
    simp [getRate, hq]

/-- Witness of the amended C26 on the seeded row with rate 50: after the update to 12.345 the
read returns the text of 12.35, and after a further update to 65 that of 65. -/
theorem rate_round_trip_rounded_witness :
    getRate false (putRate true [{ id := 1, rate_per_hour := 50 }] (some (12345 / 1000))).2 =
      RatePerHour.decimalText (((1235 : Int) : ℚ) / 100) ∧
    getRate false (putRate true (putRate true [{ id := 1, rate_per_hour := 50 }]
        (some (12345 / 1000))).2 (some 65)).2 =
      RatePerHour.decimalText (((6500 : Int) : ℚ) / 100) := by
  have h100 : roundHalfAwayFromZero ((65 : ℚ) * 100) = 6500 := by
    have : (65 : ℚ) * 100 = ((6500 : Int) : ℚ) := by norm_num
    rw [this, roundHalfAwayFromZero_intCast]
  have h := rate_round_trip_rounded true { id := 1, rate_per_hour := 50 } (12345 / 1000) 65 rfl
    (by rw [roundHalfAwayFromZero_sample]; decide) (by rw [h100]; decide)
  rw [roundHalfAwayFromZero_sample, h100] at h
  exact ⟨h.2.1, h.2.2.2.2.2.1⟩

/-! ### Completion on request bodies -/

/-- On an amount that the column holds as it is, the handler on request bodies is
`completeBooking`. -/
theorem completeBookingDecimal_eq_completeBooking (strictMode : Bool) (db : Db) (now : Int)
    (id : Nat) (amount : ℚ) (h : assignDecimal strictMode amount = some amount) :
    completeBookingDecimal strictMode db now id (some amount) =
      completeBooking db now id amount := by
  unfold completeBookingDecimal completeBooking
  cases db.bookings.find? (fun b => b.id = id) with
  | none => rfl
  | some booking => simp [assignAmount, h]

/-- The completion of a stored booking with an amount that the column takes as `stored`. -/
theorem completeBookingDecimal_stored (strictMode : Bool) (db : Db) (now : Int) (b : Booking)
    (amount stored : Option ℚ) (hkey : BookingIdsUnique db) (hb : b ∈ db.bookings)
    (ha : assignAmount strictMode amount = some stored) :
    (completeBookingDecimal strictMode db now b.id amount).1 =
      Response.ok "Booking completed successfully" ∧
    CompletedWith db (completeBookingDecimal strictMode db now b.id amount).2 b now stored := by
  have hf := find?_id_of_unique db.bookings b hb hkey
  have hrun : completeBookingDecimal strictMode db now b.id amount =
      (Response.ok "Booking completed successfully",
        { parking_slots := updateSlotStatus db.parking_slots b.slot_id SlotStatus.available,
          bookings := db.bookings.map (fun c =>
            if c.id = b.id then
              { c with departure_time := some now, payment_status := PaymentStatus.completed,
                       amount := stored }
            else c),
          nextBookingId := db.nextBookingId }) := by
    unfold completeBookingDecimal; rw [hf]; simp only [ha]
  rw [hrun]
  refine ⟨rfl, ?_, ?_, ?_, ?_⟩
  · exact List.mem_map.mpr ⟨b, hb, by simp⟩
  · intro c hc hid
    obtain ⟨d, _, rfl⟩ := List.mem_map.mp hc
    by_cases hd : d.id = b.id
    · simp [hd]
    · simp [hd] at hid
  · intro q hq hid
    obtain ⟨p, _, rfl⟩ := (mem_updateSlotStatus _ _ _ _).mp hq
    by_cases hp : p.id = b.slot_id
    · simp [hp]
    · simp [hp] at hid
  · intro p hp hid
    exact (mem_updateSlotStatus _ _ _ _).mpr ⟨p, hp, by simp [hid]⟩

/-- The completion of a stored booking with an amount that the column refuses: the answer is
500 and the store is as before. -/
theorem completeBookingDecimal_refused (strictMode : Bool) (db : Db) (now : Int) (b : Booking)
    (amount : Option ℚ) (hkey : BookingIdsUnique db) (hb : b ∈ db.bookings)
    (ha : assignAmount strictMode amount = none) :
    completeBookingDecimal strictMode db now b.id amount =
      (Response.error 500 "Database error", db) := by
  have hf := find?_id_of_unique db.bookings b hb hkey
  unfold completeBookingDecimal; rw [hf]; simp only [ha]

/-- Counterexample to C8 as stated: the pending booking 1 of the full one-slot facility is
checked out with amount 12.345.  The answer is success and the booking is stored with
amount 12.35, which is not the supplied value. -/
theorem completeBooking_amount_rounded :
    fullFacility.bookings.map (fun b => (b.id, b.payment_status)) =
      [(1, PaymentStatus.pending)] ∧
    (completeBookingDecimal true fullFacility 9 1 (some (12345 / 1000))).1 =
      Response.ok "Booking completed successfully" ∧
    (completeBookingDecimal true fullFacility 9 1 (some (12345 / 1000))).2.bookings.map
        (fun b => (b.id, b.payment_status, b.amount, b.departure_time)) =
      [(1, PaymentStatus.completed, some (1235 / 100), some 9)] ∧
    (some (1235 / 100) : Option ℚ) ≠ some (12345 / 1000) := by
  have hrun : completeBookingDecimal true fullFacility 9 1 (some (12345 / 1000)) =
      (Response.ok "Booking completed successfully",
        { parking_slots :=
            updateSlotStatus fullFacility.parking_slots sampleBooking.slot_id
              SlotStatus.available,
          bookings := fullFacility.bookings.map (fun b =>
            if b.id = 1 then
              { b with departure_time := some 9, payment_status := PaymentStatus.completed,
                       amount := some (1235 / 100) }
            else b),
          nextBookingId := fullFacility.nextBookingId }) := by
    unfold completeBookingDecimal
    rw [show fullFacility.bookings.find? (fun b => b.id = 1) = some sampleBooking by decide]
    simp only [assignAmount, assignDecimal_rounds_up, Option.map_some']
  rw [hrun]
  refine ⟨by decide, rfl, by simp [fullFacility, sampleBooking], ?_⟩
  intro he
  injection he with he
  norm_num at he

/-- Claim C8, amended: for every stored booking that is pending or active, the completion
with an amount whose value rounded to two decimals fits the column answers with success;
afterwards the booking is stored with payment state completed, departure time now and the
amount rounded to two decimals, half away from zero, which is within half a hundredth of the
supplied value and is the supplied value when that has at most two decimals; every slot row
the booking references has status available.  With no amount (`null`) the completion
succeeds likewise and stores no amount.  In strict mode an amount that does not fit is
answered 500 and the store is as before.  One call takes a pending booking to completed. -/
theorem completeBooking_stores_rounded (strictMode : Bool) (db : Db) (now : Int) (b : Booking)
    (hkey : BookingIdsUnique db) (hb : b ∈ db.bookings)
    (_hst : b.payment_status = PaymentStatus.pending ∨ b.payment_status = PaymentStatus.active) :
    (∀ a : ℚ, |roundHalfAwayFromZero (a * 100)| ≤ 9999999999 →
      (completeBookingDecimal strictMode db now b.id (some a)).1 =
        Response.ok "Booking completed successfully" ∧
      CompletedWith db (completeBookingDecimal strictMode db now b.id (some a)).2 b now
        (some ((roundHalfAwayFromZero (a * 100) : ℚ) / 100)) ∧
      |(roundHalfAwayFromZero (a * 100) : ℚ) / 100 - a| ≤ 1 / 200) ∧
    (∀ c : Int, |c| ≤ 9999999999 →
      (completeBookingDecimal strictMode db now b.id (some ((c : ℚ) / 100))).1 =
        Response.ok "Booking completed successfully" ∧
      CompletedWith db (completeBookingDecimal strictMode db now b.id (some ((c : ℚ) / 100))).2
        b now (some ((c : ℚ) / 100))) ∧
    ((completeBookingDecimal strictMode db now b.id none).1 =
        Response.ok "Booking completed successfully" ∧
      CompletedWith db (completeBookingDecimal strictMode db now b.id none).2 b now none) ∧
    (∀ a : ℚ, ¬ |roundHalfAwayFromZero (a * 100)| ≤ 9999999999 →
      completeBookingDecimal true db now b.id (some a) =
        (Response.error 500 "Database error", db)) := by
  refine ⟨?_, ?_, ?_, ?_⟩
  · intro a ha
    have hassign := assignDecimal_inRange strictMode a ha
    have h := completeBookingDecimal_stored strictMode db now b (some a)
      (some ((roundHalfAwayFromZero (a * 100) : ℚ) / 100)) hkey hb
      (by simp [assignAmount, hassign])
    exact ⟨h.1, h.2, (assignDecimal_some strictMode a _ hassign).2 ha⟩
  · intro c hc
    exact completeBookingDecimal_stored strictMode db now b (some ((c : ℚ) / 100))
      (some ((c : ℚ) / 100)) hkey hb
      (by simp [assignAmount, assignDecimal_hundredths strictMode c hc])
  · exact completeBookingDecimal_stored strictMode db now b none none hkey hb rfl
  · intro a ha
    exact completeBookingDecimal_refused true db now b (some a) hkey hb
      (by simp [assignAmount, assignDecimal_outOfRange a ha])

/-- Witness of the amended C8: the pending booking 1 of the full one-slot facility is
checked out with amount 12.345 at time 9; every row of id 1 is then completed with amount
12.35 and departure time 9, and slot 1 is available. -/
theorem completeBooking_stores_rounded_witness :
    (completeBookingDecimal true fullFacility 9 sampleBooking.id (some (12345 / 1000))).1 =
      Response.ok "Booking completed successfully" ∧
    CompletedWith fullFacility
      (completeBookingDecimal true fullFacility 9 sampleBooking.id (some (12345 / 1000))).2
      sampleBooking 9 (some (((1235 : Int) : ℚ) / 100)) := by
  have h := (completeBooking_stores_rounded true fullFacility 9 sampleBooking (by decide)
    (by decide) (Or.inl rfl)).1 (12345 / 1000) (by rw [roundHalfAwayFromZero_sample]; decide)
  rw [roundHalfAwayFromZero_sample] at h
  exact ⟨h.1, h.2.1⟩

/-! ### Completed amounts on request bodies -/

/-- A row of the bookings table after a completion on a request body is an old row, or a row
with the completed id that carries the stored form of the amount and the completion time. -/
theorem mem_bookings_completeBookingDecimal (strictMode : Bool) (db : Db) (now : Int)
    (id : Nat) (amount : Option ℚ) (b : Booking)
    (hb : b ∈ (completeBookingDecimal strictMode db now id amount).2.bookings) :
    b ∈ db.bookings ∨
    (b.id = id ∧ assignAmount strictMode amount = some b.amount ∧
      b.departure_time = some now ∧ b.payment_status = PaymentStatus.completed) := by
  unfold completeBookingDecimal at hb
  cases hf : db.bookings.find? (fun c => c.id = id) with
  | none =>
    rw [hf] at hb
    exact Or.inl hb
  | some c =>
    rw [hf] at hb
    cases ha : assignAmount strictMode amount with
    | none =>
      simp only [ha] at hb
      exact Or.inl hb
    | some stored =>
      simp only [ha] at hb
      obtain ⟨d, hd, rfl⟩ := List.mem_map.mp hb
      by_cases hid : d.id = id
      · right
        simp [hid]
      · left
        simp [hid]
        exact hd

/-- Serving one request keeps the fact that every completed booking carries the stored form
of the amount, and the time, of a completion request for its id among the requests served. -/
theorem completed_from_body_step (strictMode : Bool) (db : Db) (done : List BodyRequest)
    (r : BodyRequest)
    (hinv : ∀ b ∈ db.bookings, b.payment_status = PaymentStatus.completed →
      ∃ (now : Int) (amount : Option ℚ), BodyRequest.completeBooking now b.id amount ∈ done ∧
        assignAmount strictMode amount = some b.amount ∧ b.departure_time = some now) :
    ∀ b ∈ (handleBody strictMode db r).2.bookings,
      b.payment_status = PaymentStatus.completed →
      ∃ (now : Int) (amount : Option ℚ),
        BodyRequest.completeBooking now b.id amount ∈ done ++ [r] ∧
        assignAmount strictMode amount = some b.amount ∧ b.departure_time = some now := by
  intro b hb hst
  have hold : b ∈ db.bookings →
      ∃ (now : Int) (amount : Option ℚ),
        BodyRequest.completeBooking now b.id amount ∈ done ++ [r] ∧
        assignAmount strictMode amount = some b.amount ∧ b.departure_time = some now := by
    intro h
    obtain ⟨now, amount, hin, h1, h2⟩ := hinv b h hst
    exact ⟨now, amount, List.mem_append_left _ hin, h1, h2⟩
  cases r with
  | bookParking now req =>
    rcases mem_bookings_bookParking db now req b hb with h | h
    · exact hold h
    · rw [h] at hst; cases hst
  | walkinBooking now req =>
    rcases mem_bookings_walkinBooking db now req b hb with h | h
    · exact hold h
    · rw [h] at hst; cases hst
  | completeBooking now id amount =>
    rcases mem_bookings_completeBookingDecimal strictMode db now id amount b hb with
      h | ⟨hid, ha, hd, _⟩
    · exact hold h
    · exact ⟨now, amount,
        List.mem_append_right _ (by rw [hid]; exact List.mem_singleton_self _), ha, hd⟩

/-- The same fact over a sequence of requests. -/
theorem completed_from_body_run (strictMode : Bool) (rs : List BodyRequest) :
    ∀ (db : Db) (done : List BodyRequest),
      (∀ b ∈ db.bookings, b.payment_status = PaymentStatus.completed →
        ∃ (now : Int) (amount : Option ℚ),
          BodyRequest.completeBooking now b.id amount ∈ done ∧
          assignAmount strictMode amount = some b.amount ∧ b.departure_time = some now) →
      ∀ b ∈ (runBodyRequests strictMode db rs).bookings,
        b.payment_status = PaymentStatus.completed →
        ∃ (now : Int) (amount : Option ℚ),
          BodyRequest.completeBooking now b.id amount ∈ done ++ rs ∧
          assignAmount strictMode amount = some b.amount ∧ b.departure_time = some now := by
  induction rs with
  | nil =>
    intro db done hinv b hb hst
    rw [List.append_nil]
    exact hinv b hb hst
  | cons r rs ih =>
    intro db done hinv b hb hst
    have hstep := completed_from_body_step strictMode db done r hinv
    have := ih (handleBody strictMode db r).2 (done ++ [r]) hstep b hb hst
    simpa [List.append_assoc] using this

/-- The amount 10 is stored as it is. -/
theorem assignAmount_ten (strictMode : Bool) :
    assignAmount strictMode (some 10) = some (some 10) := by
  have h := assignDecimal_hundredths strictMode 1000 (by decide)
  have e : ((1000 : Int) : ℚ) / 100 = 10 := by norm_num
  rw [e] at h
  simp [assignAmount, h]

/-- Counterexample to C19 as stated: on the one-slot facility booking 1 is checked out two
hours after booking with amount 10, below the seeded rate 50; the completion is served and
the completed booking is stored with amount 10.  Checked out with an empty checkout field,
whose amount arrives as `null`, the completed booking is stored with no amount at all. -/
theorem amount_below_rate_stored :
    isInitial oneSlotFacility ∧
    (handleBody true (runBodyRequests true oneSlotFacility (lowAmountRequests.take 1))
        (BodyRequest.completeBooking 7200000 1 (some 10))).1 =
      Response.ok "Booking completed successfully" ∧
    (runBodyRequests true oneSlotFacility lowAmountRequests).bookings.map
        (fun b => (b.id, b.payment_status, b.amount)) =
      [(1, PaymentStatus.completed, some 10)] ∧
    ¬ CompletedAmountsCover 50 (runBodyRequests true oneSlotFacility lowAmountRequests) ∧
    (handleBody true (runBodyRequests true oneSlotFacility (nullAmountRequests.take 1))
        (BodyRequest.completeBooking 7200000 1 none)).1 =
      Response.ok "Booking completed successfully" ∧
    (runBodyRequests true oneSlotFacility nullAmountRequests).bookings.map
        (fun b => (b.id, b.payment_status, b.amount)) =
      [(1, PaymentStatus.completed, none)] ∧
    ¬ CompletedAmountsCover 50 (runBodyRequests true oneSlotFacility nullAmountRequests) := by
  have hstep : ∀ db : Db,
      handleBody true db (BodyRequest.completeBooking 7200000 1 (some 10)) =
        completeBooking db 7200000 1 10 := by
    intro db
    have h10 : assignDecimal true 10 = some 10 := by
      have h := assignAmount_ten true
      simpa [assignAmount] using h
    exact completeBookingDecimal_eq_completeBooking true db 7200000 1 10 h10
  have hlow : runBodyRequests true oneSlotFacility lowAmountRequests =
      (completeBooking (bookParking oneSlotFacility 0 sampleBookRequest).2 7200000 1 10).2 := by
    show (handleBody true (bookParking oneSlotFacility 0 sampleBookRequest).2
      (BodyRequest.completeBooking 7200000 1 (some 10))).2 = _
    rw [hstep]
  have hlow1 : runBodyRequests true oneSlotFacility (lowAmountRequests.take 1) =
      (bookParking oneSlotFacility 0 sampleBookRequest).2 := rfl
  rw [hlow, hlow1, hstep]
  refine ⟨by decide, by decide, by decide, ?_, by decide, by decide, ?_⟩
  · intro h
    have hmem :
        ({ id := 1, slot_id := 1, user_name := "Asha", vehicle_number := "MH01AB1234",
           phone_number := "9876543210", booking_type := BookingType.regular,
           booking_time := 0, arrival_time := 1000, departure_time := some 7200000,
           payment_status := PaymentStatus.completed, amount := some 10 } : Booking) ∈
          (completeBooking (bookParking oneSlotFacility 0 sampleBookRequest).2
            7200000 1 10).2.bookings := by decide
    obtain ⟨a, ha, hle⟩ := h _ hmem rfl
    have : a = 10 := by simpa using ha.symm
    rw [this] at hle
    norm_num at hle
  · intro h
    have hmem :
        ({ id := 1, slot_id := 1, user_name := "Asha", vehicle_number := "MH01AB1234",
           phone_number := "9876543210", booking_type := BookingType.regular,
           booking_time := 0, arrival_time := 1000, departure_time := some 7200000,
           payment_status := PaymentStatus.completed, amount := none } : Booking) ∈
          (runBodyRequests true oneSlotFacility nullAmountRequests).bookings := by decide
    obtain ⟨a, ha, _⟩ := h _ hmem rfl
    cases ha

/-- Claim C19, amended: the completion stores the amount its caller supplies as the column
takes it, and does not compare it with the hourly rate.  In every state reached from a
facility without bookings, every completed booking carries the time and the stored form of
the amount of a completion request served for its id: no amount when the request carried
`null`, and the amount rounded to two decimals when that fits the column.  So every
completed booking has no amount or an amount of the column; and for every rate that the
rate column can hold, if every completion request served supplied an amount of at least
that rate, every completed booking has an amount of at least that rate. -/
theorem completed_amounts_from_requests (strictMode : Bool) (db : Db) (rs : List BodyRequest)
    (hinit : isInitial db) :
    (∀ b ∈ (runBodyRequests strictMode db rs).bookings,
      b.payment_status = PaymentStatus.completed →
      ∃ (now : Int) (amount : Option ℚ), BodyRequest.completeBooking now b.id amount ∈ rs ∧
        b.departure_time = some now ∧
        assignAmount strictMode amount = some b.amount ∧
        (amount = none → b.amount = none) ∧
        (∀ a : ℚ, amount = some a → |roundHalfAwayFromZero (a * 100)| ≤ 9999999999 →
          b.amount = some ((roundHalfAwayFromZero (a * 100) : ℚ) / 100))) ∧
    (∀ b ∈ (runBodyRequests strictMode db rs).bookings,
      b.payment_status = PaymentStatus.completed →
      b.amount = none ∨ ∃ c : Int, |c| ≤ 9999999999 ∧ b.amount = some ((c : ℚ) / 100)) ∧
    (∀ c : Int, |c| ≤ 9999999999 →
      (∀ (now : Int) (id : Nat) (amount : Option ℚ),
        BodyRequest.completeBooking now id amount ∈ rs →
        ∃ a : ℚ, amount = some a ∧ (c : ℚ) / 100 ≤ a) →
      CompletedAmountsCover ((c : ℚ) / 100) (runBodyRequests strictMode db rs)) := by
  have hrun := completed_from_body_run strictMode rs db [] (by
    intro b hb
    rw [hinit.2] at hb
    cases hb)
  rw [List.nil_append] at hrun
  refine ⟨?_, ?_, ?_⟩
  · intro b hb hst
    obtain ⟨now, amount, hin, ha, hd⟩ := hrun b hb hst
    refine ⟨now, amount, hin, hd, ha, ?_, ?_⟩
    · intro hnone
      rw [hnone] at ha
      simpa [assignAmount] using ha.symm
    · intro a hsome hfit
      rw [hsome] at ha
      simp only [assignAmount, assignDecimal_inRange strictMode a hfit, Option.map_some'] at ha
      simpa using ha.symm
  · intro b hb hst
    obtain ⟨now, amount, _, ha, _⟩ := hrun b hb hst
    cases amount with
    | none =>
      left
      simpa [assignAmount] using ha.symm
    | some a =>
      right
      cases hv : assignDecimal strictMode a with
      | none => simp [assignAmount, hv] at ha
      | some v =>
        obtain ⟨c, hc, hvc⟩ := (assignDecimal_some strictMode a v hv).1
        refine ⟨c, hc, ?_⟩
        simp only [assignAmount, hv, Option.map_some'] at ha
        rw [← hvc]
        simpa using ha.symm
  · intro c hc hrate b hb hst
    obtain ⟨now, amount, hin, ha, _⟩ := hrun b hb hst
    obtain ⟨a, hsome, hle⟩ := hrate now b.id amount hin
    rw [hsome] at ha
    cases hv : assignDecimal strictMode a with
    | none => simp [assignAmount, hv] at ha
    | some v =>
      refine ⟨v, ?_, assignDecimal_mono strictMode c hc a v hle hv⟩
      simp only [assignAmount, hv, Option.map_some'] at ha
      simpa using ha.symm

/-- Witness of the amended C19: on the requests of the counterexample the completed booking
carries the supplied amount 10, and amounts of at least 10 are covered. -/
theorem completed_amounts_from_requests_witness :
    CompletedAmountsCover (((1000 : Int) : ℚ) / 100)
      (runBodyRequests true oneSlotFacility lowAmountRequests) :=
  (completed_amounts_from_requests true oneSlotFacility lowAmountRequests (by decide)).2.2
    1000 (by decide) (by
      intro now id amount hin
      have h : BodyRequest.completeBooking now id amount =
          BodyRequest.completeBooking 7200000 1 (some 10) := by
        simpa [lowAmountRequests] using hin
      injection h with _ _ ha
      exact ⟨10, ha, by norm_num⟩)

/-! ### Fee on JavaScript numbers -/

/-- A whole number is its own rounding. -/
theorem roundHalfEven_intCast (m : Int) : roundHalfEven (m : ℚ) = m := by
  unfold roundHalfEven
  simp

/-- The rounding is within one half of the number. -/
theorem roundHalfEven_close (y : ℚ) : |(roundHalfEven y : ℚ) - y| ≤ 1 / 2 := by
  unfold roundHalfEven
  have h1 := Int.floor_le y
  have h2 := Int.lt_floor_add_one y
  rw [abs_le]
  simp only
  split_ifs with ha hb hc
  · constructor <;> linarith
  · push_cast
    constructor <;> linarith
  · constructor <;> linarith
  · push_cast
    constructor <;> linarith

/-- The binary exponent of a number between two neighbouring powers of two. -/
theorem log_two_eq (r : ℚ) (k : Int) (h1 : (2 : ℚ) ^ k ≤ r) (h2 : r < (2 : ℚ) ^ (k + 1)) :
    Int.log 2 r = k := by
  have hpos : 0 < r := lt_of_lt_of_le (by positivity) h1
  have ha : k ≤ Int.log 2 r := by
    rw [← Int.zpow_le_iff_le_log (by norm_num) hpos]
    simpa using h1
  have hb : Int.log 2 r < k + 1 := by
    rw [← Int.lt_zpow_iff_log_lt (by norm_num) hpos]
    simpa using h2
  omega

/-- The exponent of the last place of a normal number with binary exponent `k`. -/
theorem ulpExponent_eq (x : ℚ) (k : Int) (h1 : (2 : ℚ) ^ k ≤ |x|)
    (h2 : |x| < (2 : ℚ) ^ (k + 1)) (hk : -1022 ≤ k) : ulpExponent x = k - 52 := by
  unfold ulpExponent
  rw [log_two_eq _ k h1 h2]
  exact max_eq_left (by omega)

/-- A whole multiple of its own last place is a double: rounding leaves it as it is. -/
theorem roundDouble_of_scaled (x : ℚ) (m : Int) (h : x = (m : ℚ) * 2 ^ ulpExponent x) :
    roundDouble x = x := by
  unfold roundDouble
  have hne : (2 : ℚ) ^ ulpExponent x ≠ 0 := by positivity
  have hy : x / 2 ^ ulpExponent x = (m : ℚ) := by
    rw [div_eq_iff hne]
    exact h
  rw [hy, roundHalfEven_intCast]
  exact h.symm

/-- Zero is a double. -/
theorem roundDouble_zero : roundDouble 0 = 0 := by
  unfold roundDouble
  simp [roundHalfEven]

/-- The double of a number is within half a unit of the last place of the number. -/
theorem roundDouble_close (x : ℚ) : |roundDouble x - x| ≤ 2 ^ ulpExponent x / 2 := by
  unfold roundDouble
  have hpos : (0 : ℚ) < 2 ^ ulpExponent x := by positivity
  have hy := roundHalfEven_close (x / 2 ^ ulpExponent x)
  have he : (roundHalfEven (x / 2 ^ ulpExponent x) : ℚ) * 2 ^ ulpExponent x - x =
      ((roundHalfEven (x / 2 ^ ulpExponent x) : ℚ) - x / 2 ^ ulpExponent x) *
        2 ^ ulpExponent x := by
    field_simp
  rw [he, abs_mul, abs_of_pos hpos]
  calc |(roundHalfEven (x / 2 ^ ulpExponent x) : ℚ) - x / 2 ^ ulpExponent x| * 2 ^ ulpExponent x
      ≤ 1 / 2 * 2 ^ ulpExponent x := mul_le_mul_of_nonneg_right hy hpos.le
    _ = 2 ^ ulpExponent x / 2 := by ring

/-- Every whole number up to `2 ^ 53 - 1` in magnitude is a double. -/
theorem roundDouble_intCast (n : Int) (h : |n| ≤ 9007199254740991) :
    roundDouble (n : ℚ) = n := by
  by_cases h0 : n = 0
  · rw [h0]
    simpa using roundDouble_zero
  · have habs : (1 : ℚ) ≤ |(n : ℚ)| := by
      have : (1 : Int) ≤ |n| := Int.one_le_abs h0
      exact_mod_cast this
    have hpos : (0 : ℚ) < |(n : ℚ)| := by linarith
    have hlt : |(n : ℚ)| < (2 : ℚ) ^ (53 : Int) := by
      have : |n| < 9007199254740992 := by omega
      have h2 : ((|n| : Int) : ℚ) < ((9007199254740992 : Int) : ℚ) := Int.cast_lt.mpr this
      push_cast at h2
      calc |(n : ℚ)| < 9007199254740992 := h2
        _ = (2 : ℚ) ^ (53 : Int) := by norm_num
    have hL1 : 0 ≤ Int.log 2 |(n : ℚ)| := by
      rw [← Int.zpow_le_iff_le_log (by norm_num) hpos]
      simpa using habs
    have hL2 : Int.log 2 |(n : ℚ)| < 53 := by
      rw [← Int.lt_zpow_iff_log_lt (by norm_num) hpos]
      simpa using hlt
    have he : ulpExponent (n : ℚ) = Int.log 2 |(n : ℚ)| - 52 := by
      unfold ulpExponent
      exact max_eq_left (by omega)
    obtain ⟨k, hk⟩ : ∃ k : ℕ, ulpExponent (n : ℚ) = -(k : Int) :=
      ⟨(-ulpExponent (n : ℚ)).toNat, by omega⟩
    apply roundDouble_of_scaled (n : ℚ) (n * 2 ^ k)
    rw [hk, zpow_neg, zpow_natCast]
    push_cast
    field_simp


/-- Below `2 ^ 32` the doubles are at most `2 ^ (-21)` apart. -/
theorem ulpExponent_le_of_lt (x : ℚ) (hx : x ≠ 0) (h : |x| < (2 : ℚ) ^ (32 : Int)) :
    ulpExponent x ≤ -21 := by
  have hpos : (0 : ℚ) < |x| := abs_pos.mpr hx
  have hL : Int.log 2 |x| < 32 := by
    rw [← Int.lt_zpow_iff_log_lt (by norm_num) hpos]
    simpa using h
  unfold ulpExponent
  exact max_le (by omega) (by norm_num)

/-- The double nearest to a number of hours has the ceiling of that number. -/
theorem ceil_roundDouble_hours (d : Int) (h : |d| ≤ 8640000000000000) :
    Int.ceil (roundDouble ((d : ℚ) / 3600000)) = Int.ceil ((d : ℚ) / 3600000) := by
  by_cases h0 : d = 0
  · rw [h0]
    simp [roundDouble_zero]
  · have hd := abs_le.mp h
    have hxne : (d : ℚ) / 3600000 ≠ 0 := by
      apply div_ne_zero
      · exact_mod_cast h0
      · norm_num
    have hxlt : |(d : ℚ) / 3600000| < (2 : ℚ) ^ (32 : Int) := by
      rw [abs_lt]
      have h1 : ((-8640000000000000 : Int) : ℚ) ≤ (d : ℚ) := Int.cast_le.mpr hd.1
      have h2 : (d : ℚ) ≤ ((8640000000000000 : Int) : ℚ) := Int.cast_le.mpr hd.2
      push_cast at h1 h2
      have e : (2 : ℚ) ^ (32 : Int) = 4294967296 := by norm_num
      rw [e]
      constructor
      · rw [lt_div_iff₀ (by norm_num)]
        linarith
      · rw [div_lt_iff₀ (by norm_num)]
        linarith
    have he := ulpExponent_le_of_lt _ hxne hxlt
    have hpow : (2 : ℚ) ^ ulpExponent ((d : ℚ) / 3600000) ≤ 1 / 2097152 := by
      calc (2 : ℚ) ^ ulpExponent ((d : ℚ) / 3600000) ≤ (2 : ℚ) ^ (-21 : Int) :=
            zpow_le_zpow_right₀ (by norm_num) he
        _ = 1 / 2097152 := by norm_num
    have hclose := abs_le.mp (roundDouble_close ((d : ℚ) / 3600000))
    have hc1 := Int.ceil_lt_add_one ((d : ℚ) / 3600000)
    have hc2 := Int.le_ceil ((d : ℚ) / 3600000)
    rw [Int.ceil_eq_iff]
    constructor
    · have hint : (Int.ceil ((d : ℚ) / 3600000) - 1) * 3600000 < d := by
        have : (((Int.ceil ((d : ℚ) / 3600000) - 1) * 3600000 : Int) : ℚ) < (d : ℚ) := by
          push_cast
          have hlt : (Int.ceil ((d : ℚ) / 3600000) : ℚ) - 1 < (d : ℚ) / 3600000 := by linarith
          rw [lt_div_iff₀ (by norm_num)] at hlt
          exact hlt
        exact_mod_cast this
      have hint2 : (Int.ceil ((d : ℚ) / 3600000) - 1) * 3600000 + 1 ≤ d := by omega
      have hq : ((Int.ceil ((d : ℚ) / 3600000) : ℚ) - 1) * 3600000 + 1 ≤ (d : ℚ) := by
        exact_mod_cast hint2
      have hx : (Int.ceil ((d : ℚ) / 3600000) : ℚ) - 1 + 1 / 3600000 ≤ (d : ℚ) / 3600000 := by
        rw [le_div_iff₀ (by norm_num)]
        linarith
      linarith
    · have hle : d ≤ Int.ceil ((d : ℚ) / 3600000) * 3600000 := by
        have : (d : ℚ) ≤ ((Int.ceil ((d : ℚ) / 3600000) * 3600000 : Int) : ℚ) := by
          push_cast
          rw [div_le_iff₀ (by norm_num)] at hc2
          exact hc2
        exact_mod_cast this
      rcases eq_or_lt_of_le hle with heq | hlt
      · have hx : (d : ℚ) / 3600000 = ((Int.ceil ((d : ℚ) / 3600000) : Int) : ℚ) := by
          rw [div_eq_iff (by norm_num)]
          exact_mod_cast heq
        have hcb : |Int.ceil ((d : ℚ) / 3600000)| ≤ 9007199254740991 := by
          rw [abs_le]
          constructor <;> omega
        have hrd := roundDouble_intCast (Int.ceil ((d : ℚ) / 3600000)) hcb
        rw [← hx] at hrd
        rw [hrd]
        exact hc2
      · have hint2 : d + 1 ≤ Int.ceil ((d : ℚ) / 3600000) * 3600000 := by omega
        have hq : (d : ℚ) + 1 ≤ (Int.ceil ((d : ℚ) / 3600000) : ℚ) * 3600000 := by
          exact_mod_cast hint2
        have hx : (d : ℚ) / 3600000 ≤ (Int.ceil ((d : ℚ) / 3600000) : ℚ) - 1 / 3600000 := by
          rw [div_le_iff₀ (by norm_num)]
          linarith
        linarith

/-- Within the range of dates the fee is the double of rate times billed hours. -/
theorem calculateParkingFeeDouble_eq (rate : ℚ) (now : Int) (b : Booking)
    (hnow : |now| ≤ 8640000000000000) (harr : |b.arrival_time| ≤ 8640000000000000)
    (hel : |now - b.arrival_time| ≤ 8640000000000000) :
    calculateParkingFeeDouble rate now (some b) =
      toJsNumber (rate *
        ((max 1 (Int.ceil (((now - b.arrival_time : Int) : ℚ) / (1000 * 60 * 60))) : Int) : ℚ)) := by
  have hel2 : |now - b.arrival_time| ≤ 9007199254740991 := le_trans hel (by decide)
  have hc : ((1000 : ℚ) * 60 * 60) = 3600000 := by norm_num
  unfold calculateParkingFeeDouble
  simp only [maxTimeValue]
  rw [if_pos ⟨harr, hnow⟩, roundDouble_intCast _ hel2, hc, ceil_roundDouble_hours _ hel]


/-- A number between a whole number and the half above it rounds to the whole number. -/
theorem roundHalfEven_of_lt (y : ℚ) (n : Int) (h1 : (n : ℚ) ≤ y) (h2 : y < (n : ℚ) + 1 / 2) :
    roundHalfEven y = n := by
  have hf : Int.floor y = n := by
    rw [Int.floor_eq_iff]
    constructor <;> linarith
  unfold roundHalfEven
  simp only [hf]
  rw [if_pos (by linarith)]

/-- A number between the half above a whole number and the next one rounds to the next. -/
theorem roundHalfEven_of_gt (y : ℚ) (n : Int) (h1 : (n : ℚ) + 1 / 2 < y) (h2 : y < (n : ℚ) + 1) :
    roundHalfEven y = n + 1 := by
  have hf : Int.floor y = n := by
    rw [Int.floor_eq_iff]
    constructor <;> linarith
  unfold roundHalfEven
  simp only [hf]
  rw [if_neg (by linarith), if_pos (by linarith)]

/-- The half above an odd whole number rounds to the next, even, whole number. -/
theorem roundHalfEven_tie_odd (y : ℚ) (n : Int) (hy : y = (n : ℚ) + 1 / 2) (hodd : n % 2 = 1) :
    roundHalfEven y = n + 1 := by
  have hf : Int.floor y = n := by
    rw [Int.floor_eq_iff]
    constructor <;> linarith
  unfold roundHalfEven
  simp only [hf]
  rw [if_neg (by linarith), if_neg (by linarith), if_neg (by omega)]

/-- The double of a number with binary exponent `k`, from the rounding of its significand. -/
theorem roundDouble_eval (x : ℚ) (k m : Int) (h1 : (2 : ℚ) ^ k ≤ |x|)
    (h2 : |x| < (2 : ℚ) ^ (k + 1)) (hk : -1022 ≤ k)
    (hm : roundHalfEven (x / 2 ^ (k - 52)) = m) :
    roundDouble x = (m : ℚ) * 2 ^ (k - 52) := by
  unfold roundDouble
  rw [ulpExponent_eq x k h1 h2 hk, hm]

/-- A whole number up to `2 ^ 53 - 1` is a finite JavaScript number. -/
theorem toJsNumber_intCast (n : Int) (h : |n| ≤ 9007199254740991) :
    toJsNumber (n : ℚ) = JsNumber.finite (n : ℚ) := by
  unfold toJsNumber
  simp only [roundDouble_intCast n h]
  rw [if_pos]
  have h2 : ((|n| : Int) : ℚ) ≤ ((9007199254740991 : Int) : ℚ) := Int.cast_le.mpr h
  push_cast at h2
  calc |(n : ℚ)| ≤ 9007199254740991 := h2
    _ < 2 ^ (1024 : Nat) := by norm_num

/-- The decimal 0.1 as a double. -/
theorem roundDouble_tenth :
    roundDouble (1 / 10) = 3602879701896397 / 36028797018963968 := by
  rw [roundDouble_eval (1 / 10) (-4) 7205759403792794 (by norm_num [abs_of_pos])
    (by norm_num [abs_of_pos]) (by decide)
    (by
      have := roundHalfEven_of_gt ((1 / 10 : ℚ) / 2 ^ ((-4 : Int) - 52)) 7205759403792793
        (by norm_num) (by norm_num)
      simpa using this)]
  norm_num

/-- The decimal 0.3 as a double. -/
theorem roundDouble_three_tenths :
    roundDouble (3 / 10) = 5404319552844595 / 18014398509481984 := by
  rw [roundDouble_eval (3 / 10) (-2) 5404319552844595 (by norm_num [abs_of_pos])
    (by norm_num [abs_of_pos]) (by decide)
    (roundHalfEven_of_lt _ _ (by norm_num) (by norm_num))]
  norm_num

/-- Three times the double of 0.1, as a double. -/
theorem roundDouble_three_times_tenth :
    roundDouble (3602879701896397 / 36028797018963968 * 3) =
      5404319552844596 / 18014398509481984 := by
  rw [roundDouble_eval (3602879701896397 / 36028797018963968 * 3) (-2) 5404319552844596
    (by norm_num [abs_of_pos]) (by norm_num [abs_of_pos]) (by decide)
    (by
      have := roundHalfEven_tie_odd
        ((3602879701896397 / 36028797018963968 * 3 : ℚ) / 2 ^ ((-2 : Int) - 52))
        5404319552844595 (by norm_num) (by decide)
      simpa using this)]
  norm_num

/-- Counterexample to C2 as stated: the rate 0.10 is held as the double nearest to 1/10.
With that rate and an elapsed time of exactly three hours `calculateParkingFee` returns the
double `5404319552844596 / 2 ^ 54`, printed 0.30000000000000004.  It is not the rate times
three, and it is not the double of 3/10 either, which is `5404319552844595 / 2 ^ 54`. -/
theorem fee_is_rounded_product :
    roundDouble (1 / 10) = 3602879701896397 / 36028797018963968 ∧
    calculateParkingFeeDouble (3602879701896397 / 36028797018963968) 10800000
        (some { sampleBooking with arrival_time := 0 }) =
      JsNumber.finite (5404319552844596 / 18014398509481984) ∧
    JsNumber.finite (5404319552844596 / 18014398509481984) ≠
      JsNumber.finite (3602879701896397 / 36028797018963968 * 3) ∧
    roundDouble (3 / 10) = 5404319552844595 / 18014398509481984 ∧
    JsNumber.finite (5404319552844596 / 18014398509481984) ≠
      JsNumber.finite (5404319552844595 / 18014398509481984) := by
  refine ⟨roundDouble_tenth, ?_, ?_, roundDouble_three_tenths, ?_⟩
  · rw [calculateParkingFeeDouble_eq _ _ _ (by decide) (by decide) (by decide)]
    have hh : max 1 (Int.ceil ((((10800000 : Int) -
        ({ sampleBooking with arrival_time := 0 } : Booking).arrival_time : Int) : ℚ) /
          (1000 * 60 * 60))) = 3 := hoursDiff_whole 3 (by decide)
    rw [hh]
    unfold toJsNumber
    have e : (3602879701896397 / 36028797018963968 : ℚ) * ((3 : Int) : ℚ) =
        3602879701896397 / 36028797018963968 * 3 := by norm_num
    simp only [e, roundDouble_three_times_tenth]
    rw [if_pos (by norm_num [abs_of_pos])]
  · intro he
    injection he with he
    norm_num at he
  · intro he
    injection he with he
    norm_num at he


/-- From the smallest normal number on, the double of a number differs from it by at most
the number times `2 ^ (-53)`. -/
theorem roundDouble_relative (x : ℚ) (hx : (2 : ℚ) ^ (-1022 : Int) ≤ |x|) :
    |roundDouble x - x| ≤ |x| / 2 ^ (53 : Nat) := by
  have hpos : (0 : ℚ) < |x| := lt_of_lt_of_le (by positivity) hx
  have hL : (-1022 : Int) ≤ Int.log 2 |x| := by
    rw [← Int.zpow_le_iff_le_log (by norm_num) hpos]
    simpa using hx
  have he : ulpExponent x = Int.log 2 |x| - 52 := by
    unfold ulpExponent
    exact max_eq_left (by omega)
  have hself : (2 : ℚ) ^ Int.log 2 |x| ≤ |x| := by
    simpa using Int.zpow_log_le_self (by norm_num : 1 < 2) hpos
  have hclose := roundDouble_close x
  rw [he] at hclose
  have hsplit : (2 : ℚ) ^ (Int.log 2 |x| - 52) / 2 = 2 ^ Int.log 2 |x| / 2 ^ (53 : Nat) := by
    rw [zpow_sub₀ (by norm_num : (2 : ℚ) ≠ 0)]
    norm_num
    ring
  rw [hsplit] at hclose
  exact le_trans hclose (div_le_div_of_nonneg_right hself (by positivity))

/-- Claim C2, amended: for every rate, and for every as-of time and arrival time that are
valid dates at most the range of dates apart, the fee of `calculateParkingFee` is the rate
times `max 1 (ceil (elapsed / 3600000))` as a JavaScript number, that is, rounded to the
nearest double, with `elapsed` the as-of time minus the arrival time in milliseconds.  The
billed hours `h` are at least one, cover the elapsed time, and exceed one only when the
elapsed time exceeds `h - 1` hours.  The fee is the product itself when the product is a
whole number up to `2 ^ 53 - 1` in magnitude, or any other double; in the normal range it
differs from the product by at most the product times `2 ^ (-53)`.  An elapsed time of
exactly `k ≥ 1` whole hours bills `k` hours, and rate 50 from 10:00 to 12:15 gives 150. -/
theorem calculateParkingFeeDouble_formula (rate : ℚ) (now : Int) (b : Booking)
    (hnow : |now| ≤ 8640000000000000) (harr : |b.arrival_time| ≤ 8640000000000000)
    (hel : |now - b.arrival_time| ≤ 8640000000000000) :
    (∃ h : Int, calculateParkingFeeDouble rate now (some b) = toJsNumber (rate * h) ∧
        h = max 1 (Int.ceil (((now - b.arrival_time : Int) : ℚ) / 3600000)) ∧
        1 ≤ h ∧ now - b.arrival_time ≤ h * 3600000 ∧
        (1 < h → (h - 1) * 3600000 < now - b.arrival_time) ∧
        (∀ n : Int, |n| ≤ 9007199254740991 → rate * h = n →
          calculateParkingFeeDouble rate now (some b) = JsNumber.finite (rate * h)) ∧
        (roundDouble (rate * h) = rate * h → |rate * h| < 2 ^ (1024 : Nat) →
          calculateParkingFeeDouble rate now (some b) = JsNumber.finite (rate * h)) ∧
        ((2 : ℚ) ^ (-1022 : Int) ≤ |rate * h| → |rate * h| < 2 ^ (1023 : Nat) →
          ∃ fee : ℚ, calculateParkingFeeDouble rate now (some b) = JsNumber.finite fee ∧
            |fee - rate * h| ≤ |rate * h| / 2 ^ (53 : Nat))) ∧
    (∀ k : Int, 1 ≤ k → now - b.arrival_time = k * 3600000 →
        calculateParkingFeeDouble rate now (some b) = toJsNumber (rate * k)) ∧
    calculateParkingFeeDouble 50 (12 * 3600000 + 15 * 60000)
        (some { b with arrival_time := 10 * 3600000 }) = JsNumber.finite 150 := by
  have hc : ((1000 : ℚ) * 60 * 60) = 3600000 := by norm_num
  have heq := calculateParkingFeeDouble_eq rate now b hnow harr hel
  refine ⟨⟨_, heq, by rw [hc], one_le_hoursDiff _, elapsed_le_hoursDiff _, hoursDiff_tight _,
    ?_, ?_, ?_⟩, ?_, ?_⟩
  · intro n hn hprod
    rw [heq, hprod]
    exact toJsNumber_intCast n hn
  · intro hd hlt
    rw [heq]
    unfold toJsNumber
    simp only [hd]
    rw [if_pos hlt]
  · intro hlow hhigh
    have hrel := roundDouble_relative _ hlow
    refine ⟨roundDouble (rate * ((max 1 (Int.ceil (((now - b.arrival_time : Int) : ℚ) /
      (1000 * 60 * 60))) : Int) : ℚ)), ?_, hrel⟩
    rw [heq]
    unfold toJsNumber
    simp only
    rw [if_pos]
    have habs := abs_sub_abs_le_abs_sub
      (roundDouble (rate * ((max 1 (Int.ceil (((now - b.arrival_time : Int) : ℚ) /
        (1000 * 60 * 60))) : Int) : ℚ)))
      (rate * ((max 1 (Int.ceil (((now - b.arrival_time : Int) : ℚ) /
        (1000 * 60 * 60))) : Int) : ℚ))
    have hnn : (0 : ℚ) ≤ |rate * ((max 1 (Int.ceil (((now - b.arrival_time : Int) : ℚ) /
        (1000 * 60 * 60))) : Int) : ℚ)| := abs_nonneg _
    have hdiv : |rate * ((max 1 (Int.ceil (((now - b.arrival_time : Int) : ℚ) /
        (1000 * 60 * 60))) : Int) : ℚ)| / 2 ^ (53 : Nat) ≤
        |rate * ((max 1 (Int.ceil (((now - b.arrival_time : Int) : ℚ) /
        (1000 * 60 * 60))) : Int) : ℚ)| :=
      div_le_self hnn (by norm_num)
    have h1024 : (2 : ℚ) ^ (1024 : Nat) = 2 ^ (1023 : Nat) + 2 ^ (1023 : Nat) := by
      rw [pow_succ]
      ring
    rw [h1024]
    linarith
  · intro k hk he
    rw [heq, he, hoursDiff_whole k hk]
  · rw [calculateParkingFeeDouble_eq 50 _ _ (by decide)
      (show |(10 * 3600000 : Int)| ≤ 8640000000000000 by decide)
      (show |(12 * 3600000 + 15 * 60000 - 10 * 3600000 : Int)| ≤ 8640000000000000 by decide)]
    have h3 : Int.ceil ((((12 * 3600000 + 15 * 60000 : Int) -
        ({ b with arrival_time := 10 * 3600000 } : Booking).arrival_time : Int) : ℚ)
        / (1000 * 60 * 60)) = 3 := by
      rw [Int.ceil_eq_iff]
      norm_num
    rw [h3]
    have e : (50 : ℚ) * ((max 1 3 : Int) : ℚ) = ((150 : Int) : ℚ) := by norm_num
    rw [e, toJsNumber_intCast 150 (by decide)]
    norm_num

/-- Witness of the amended C2 at rate 25 and an elapsed time of exactly two hours. -/
theorem calculateParkingFeeDouble_formula_witness :
    calculateParkingFeeDouble 25 7201000 (some sampleBooking) =
      toJsNumber (25 * ((2 : Int) : ℚ)) :=
  (calculateParkingFeeDouble_formula 25 7201000 sampleBooking (by decide) (by decide)
    (by decide)).2.1 2 (by decide) (by decide)

end SmartParking
